import Mathlib

/-!
# Kubefirst orchestration: `create-gitlab` and `createDigitalocean`

A shallow embedding of the two orchestration procedures of the repository

* `src/cmd/createGitlab.go` (`createGitlabCmd.RunE`), and
* `src/cmd/digitalocean/create.go` (`createDigitalocean`, `ValidateProvidedFlags`),

followed by theorems about them.

Modelling conventions.

* Collaborators (terraform, helm, k8s, gitlab, vault, argocd, gitShim, ...) are
  not part of these files.  Every value a collaborator hands back that the
  orchestration code looks at is a field of an environment record
  (`Collab`, `DOEnv`); the call itself is recorded as an `Event` in a
  chronological trace.
* `fmt.Println`, `log.*`, `informUser`, `time.Sleep`, `viper.GetString` and
  `configs.ReadConfig` have no influence on control flow and are not recorded.
* The persisted configuration (viper) is a map from keys to booleans; it is
  written only through `viper.Set`.
* Go `defer` is a stack of pending calls run in LIFO order when the function
  returns or panics.
* A `*exec.Cmd` is `Option Handle`: `none` is the nil pointer, whose
  `.Process` field access panics; `some h` is a command with process `h`.
-/

namespace Kubefirst

/-! ## Common data -/

/-- Go `error` values: an error handed back by a collaborator, `errors.New`
    / `fmt.Errorf` without a wrapped cause, and `fmt.Errorf("...: %w", err)`. -/
inductive GoError where
  | collab (id : Nat)
  | new (msg : String)
  | wrap (msg : String) (cause : GoError)
  deriving DecidableEq, Repr

/-- An OS process behind a `kubectl port-forward` command. -/
abbrev Handle := Nat

/-- How a Go function body stops early: `return err` or a panic. -/
inductive Abort where
  | ret (e : GoError)
  | panic
  deriving DecidableEq, Repr

/-- What the caller of a Go function of result type `error` observes. -/
inductive Outcome where
  | nil
  | err (e : GoError)
  | panic
  deriving DecidableEq, Repr

/-! ## `create-gitlab` : data -/

/-- The viper keys read or written by `createGitlabCmd.RunE`:
    `gitlab.oidc-created`, `gitlab.gitops-pushed`, `argocd.oidc-patched`,
    `gitlab.registered`. -/
inductive Key where
  | gitlabOidcCreated
  | gitlabGitopsPushed
  | argocdOidcPatched
  | gitlabRegistered
  deriving DecidableEq, Repr

/-- Progress trackers: `step-0`, `step-softserve`, `step-argo`, `step-gitlab`,
    `step-vault`, `step-post-gitlab`, `step-vault-be`. -/
inductive Tracker where
  | step0
  | stepSoftserve
  | stepArgo
  | stepGitlab
  | stepVault
  | stepPostGitlab
  | stepVaultBe
  deriving DecidableEq, Repr

/-- The call sites of `k8s.PortForward`: the soft-serve tunnel of loop
    iteration `i` (line 93), the argocd tunnel (line 133), the vault tunnel
    (line 172), the gitlab tunnel (line 205) and the argocd tunnel acquired
    again in the `gitlab.registered` phase (line 299). -/
inductive PFSite where
  | softServe (i : Nat)
  | argocd
  | vault
  | gitlab
  | argocdAgain
  deriving DecidableEq, Repr

/-- The call sites of `k8s.DeletePodByLabel(argocdPodClient,
    "app.kubernetes.io/name=argocd-server")`: line 268, line 291 and
    iteration `i` of the loop at line 345. -/
inductive DelSite where
  | oidcPatch
  | registered
  | hostLoop (i : Nat)
  deriving DecidableEq, Repr

/-- The value of `flagset.ProcessGlobalFlags`. -/
structure GlobalFlags where
  DryRun : Bool
  UseTelemetry : Bool
  SilentMode : Bool
  deriving DecidableEq, Repr

/-- Collaborator operations invoked by `createGitlabCmd.RunE`, with the
    arguments that vary between runs. -/
inductive Event where
  | ProcessGlobalFlags
  | infoCmdRun
  | SetupProgress (silent : Bool)
  | AddTracker (id : Tracker) (total : Nat)
  | IncrementTracker (id : Tracker) (delta : Nat)
  | ApplyBaseTerraform (dryRun : Bool)
  | restoreSSLCmdRunE
  | GetClientSet (dryRun : Bool)
  | CreateSoftServe (dryRun : Bool)
  | WaitForNamespaceandPods (dryRun : Bool)
  | PortForward (dryRun : Bool) (site : PFSite)
  | Signal (h : Handle)
  | ConfigureSoftServeAndPush (dryRun : Bool)
  | InstallArgocd (dryRun : Bool)
  | waitArgoCDToBeReady (dryRun : Bool)
  | setArgocdCreds (dryRun : Bool)
  | kubectlApplyRegistry
  | waitVaultToBeRunning (dryRun : Bool)
  | loopUntilPodIsReady (dryRun : Bool)
  | initializeVaultAndAutoUnseal (dryRun : Bool)
  | waitGitlabToBeReady (dryRun : Bool)
  | WaitForGitlab (dryRun : Bool)
  | ProduceGitlabTokens (dryRun : Bool)
  | ApplyGitlabTerraform (dryRun : Bool)
  | GitlabKeyUpload (dryRun : Bool)
  | ConfigureVault (dryRun : Bool) (bootstrap : Bool)
  | CreateVaultConfiguredSecret (dryRun : Bool)
  | AddGitlabOidcApplications (dryRun : Bool)
  | AwaitHost (dryRun : Bool)
  | ViperSet (key : Key) (value : Bool)
  | WriteConfig
  | PushGitRepo (dryRun : Bool)
  | PatchSecret
  | DeletePodByLabel (site : DelSite)
  | ChangeRegistryToGitLab (dryRun : Bool)
  | GetArgocdAuthToken (dryRun : Bool)
  | SyncRetry (attempts : Nat) (interval : Nat)
  | AwaitHostNTimes (dryRun : Bool) (times : Nat)
  deriving DecidableEq, Repr

/-- What the collaborators answer during one run of `create-gitlab`.

    * `getBoolSkipVault`, `getBoolSkipGitlab`: `cmd.Flags().GetBool(...)`;
    * `portForward site`: the pair `(*exec.Cmd, error)` of `k8s.PortForward`;
    * `configureSoftServeAndPush i`: the error of the call in iteration `i`;
    * `softserveConfigure i`: `viper.GetBool("create.softserve.configure")` as
      read in iteration `i` (a key `RunE` never writes itself);
    * `execShellKubectlApply`: the error of `pkg.ExecShellReturnStrings`;
    * `syncRetry`: the pair `(argoCDIsReady, err)` of `argocd.SyncRetry`;
    * `awaitHostNTimes i`: the answer of `gitlab.AwaitHostNTimes` in iteration
      `i` of the loop at line 339. -/
structure Collab where
  getBoolSkipVault : Except GoError Bool
  getBoolSkipGitlab : Except GoError Bool
  processGlobalFlags : Except GoError GlobalFlags
  getClientSet : Option GoError
  portForward : PFSite → Option Handle × Option GoError
  configureSoftServeAndPush : Nat → Option GoError
  softserveConfigure : Nat → Bool
  installArgocd : Option GoError
  execShellKubectlApply : Option GoError
  syncRetry : Bool × Option GoError
  awaitHostNTimes : Nat → Bool

/-- A pending deferred call of `RunE`.

    * `signalProcess h`: `defer cmd.Process.Signal(syscall.SIGTERM)`, whose
      receiver was evaluated to `h` by the `defer` statement;
    * `signalSoftServeVar`: the closure of line 94, which reads the variable
      `kPortForwardSoftServe` only when it runs. -/
inductive Deferred where
  | signalProcess (h : Handle)
  | signalSoftServeVar
  deriving DecidableEq, Repr

/-- The state of a run: the viper configuration, the trace of collaborator
    calls so far, the defer stack (most recent first) and the two `*exec.Cmd`
    variables that outlive the block that assigns them. -/
structure St where
  viper : Key → Bool
  trace : List Event
  defers : List Deferred
  kPortForwardSoftServe : Option Handle
  kPortForwardArgocd : Option Handle

/-! ## A small state-and-abort monad -/

/-- Computations of the body of `RunE`: they transform the state and either
    yield a value or stop with `return err` / a panic. -/
def M (α : Type) : Type := St → Except Abort α × St

/-- Sequencing: the second computation runs only if the first did not stop. -/
def M.bind {α β : Type} (m : M α) (f : α → M β) : M β := fun s =>
  match m s with
  | (.ok a, s1) => f a s1
  | (.error e, s1) => (.error e, s1)

instance : Monad M where
  pure a := fun s => (.ok a, s)
  bind := M.bind

/-- Stop the body: `return err` or panic. -/
def abort {α : Type} (a : Abort) : M α := fun s => (.error a, s)

/-- Record a collaborator call. -/
def emit (e : Event) : M Unit := fun s => (.ok (), { s with trace := s.trace ++ [e] })

/-- Read a key: `viper.GetBool(key)`. -/
def viperGetBool (k : Key) : M Bool := fun s => (.ok (s.viper k), s)

/-- Write a key: `viper.Set(key, value)`. -/
def viperSet (k : Key) (v : Bool) : M Unit := fun s =>
  (.ok (), { s with viper := fun k1 => if k1 = k then v else s.viper k1,
                    trace := s.trace ++ [Event.ViperSet k v] })

/-- Push a call on the defer stack. -/
def pushDefer (d : Deferred) : M Unit := fun s => (.ok (), { s with defers := d :: s.defers })

/-- The statement `cmd.Process.Signal(syscall.SIGTERM)`: a nil `cmd` panics. -/
def signalCmd : Option Handle → M Unit
  | some h => emit (Event.Signal h)
  | none => abort Abort.panic

/-- The statement `defer cmd.Process.Signal(syscall.SIGTERM)`: the receiver
    `cmd.Process` is evaluated at once, so a nil `cmd` panics here. -/
def deferSignal : Option Handle → M Unit
  | some h => pushDefer (Deferred.signalProcess h)
  | none => abort Abort.panic

/-- Assign the variable `kPortForwardSoftServe`. -/
def setSoftServe (c : Option Handle) : M Unit := fun s =>
  (.ok (), { s with kPortForwardSoftServe := c })

/-- Assign the variable `kPortForwardArgocd`. -/
def setArgocd (c : Option Handle) : M Unit := fun s =>
  (.ok (), { s with kPortForwardArgocd := c })

/-- Read the variable `kPortForwardSoftServe`. -/
def getSoftServe : M (Option Handle) := fun s => (.ok s.kPortForwardSoftServe, s)

/-- Read the variable `kPortForwardArgocd`. -/
def getArgocd : M (Option Handle) := fun s => (.ok s.kPortForwardArgocd, s)

/-- The idiom `if err != nil { return err }`. -/
def returnIfErr : Option GoError → M Unit
  | some e => abort (Abort.ret e)
  | none => pure ()

/-- The idiom `if err != nil { panic(...) }` (also `log.Panic`, `log.Panicf`). -/
def panicIfErr : Option GoError → M Unit
  | some _ => abort Abort.panic
  | none => pure ()

/-! ## `create-gitlab` : the body of `RunE` -/

/-- Lines 34-59: flags, `infoCmd`, progress set-up and the `step-0` tracker.
    Yields `(skipVault, skipGitlab, globalFlags)`. -/
def processParameters (c : Collab) : M (Bool × Bool × GlobalFlags) := do
  let skipVault ← match c.getBoolSkipVault with
    | .ok b => pure b
    | .error _ => abort Abort.panic
  let skipGitlab ← match c.getBoolSkipGitlab with
    | .ok b => pure b
    | .error _ => abort Abort.panic
  emit Event.ProcessGlobalFlags
  let globalFlags ← match c.processGlobalFlags with
    | .ok g => pure g
    | .error e => abort (Abort.ret e)
  emit Event.infoCmdRun
  emit (Event.SetupProgress globalFlags.SilentMode)
  emit (Event.AddTracker Tracker.step0 1)
  emit (Event.IncrementTracker Tracker.step0 1)
  pure (skipVault, skipGitlab, globalFlags)

/-- Lines 91-113: the loop `for i := 0; i < totalAttempts; i++`; `remaining`
    is `totalAttempts - i`.  Leaving the match arm is `break` (or the end of
    the loop). -/
def softServeLoop (c : Collab) (dryRun : Bool) : (remaining : Nat) → (i : Nat) → M Unit
  | 0, _ => pure ()
  | remaining + 1, i => do
    emit (Event.PortForward dryRun (PFSite.softServe i))
    setSoftServe (c.portForward (PFSite.softServe i)).1
    pushDefer Deferred.signalSoftServeVar
    returnIfErr (c.portForward (PFSite.softServe i)).2
    emit (Event.ConfigureSoftServeAndPush dryRun)
    if c.softserveConfigure i || (c.configureSoftServeAndPush i).isNone then
      pure ()
    else do
      signalCmd (← getSoftServe)
      softServeLoop c dryRun remaining (i + 1)

/-- Lines 61-87: the `step-softserve` tracker, base terraform, SSL restore,
    the client set and soft-serve creation. -/
def prepareTemporaryRepo (c : Collab) (g : GlobalFlags) : M Unit := do
  emit (Event.AddTracker Tracker.stepSoftserve 4)
  emit (Event.IncrementTracker Tracker.stepSoftserve 1)
  emit (Event.ApplyBaseTerraform g.DryRun)
  emit (Event.IncrementTracker Tracker.stepSoftserve 1)
  emit Event.restoreSSLCmdRunE
  emit (Event.GetClientSet g.DryRun)
  panicIfErr c.getClientSet
  emit (Event.CreateSoftServe g.DryRun)
  emit (Event.IncrementTracker Tracker.stepSoftserve 1)
  emit (Event.WaitForNamespaceandPods g.DryRun)
  emit (Event.IncrementTracker Tracker.stepSoftserve 1)

/-- Lines 114-140: the last `step-softserve` increment, the `step-argo`
    tracker, the argocd helm install and the argocd tunnel. -/
def deployArgocd (c : Collab) (g : GlobalFlags) : M Unit := do
  emit (Event.IncrementTracker Tracker.stepSoftserve 1)
  emit (Event.AddTracker Tracker.stepArgo 5)
  emit (Event.IncrementTracker Tracker.stepArgo 1)
  emit (Event.InstallArgocd g.DryRun)
  returnIfErr c.installArgocd
  emit (Event.waitArgoCDToBeReady g.DryRun)
  emit (Event.IncrementTracker Tracker.stepArgo 1)
  if !g.DryRun then
    emit (Event.PortForward g.DryRun PFSite.argocd)
    setArgocd (c.portForward PFSite.argocd).1
    deferSignal (← getArgocd)
    returnIfErr (c.portForward PFSite.argocd).2

/-- Lines 145-162: the argocd credentials and the registry manifest. -/
def adoptRegistry (c : Collab) (g : GlobalFlags) : M Unit := do
  emit (Event.IncrementTracker Tracker.stepArgo 1)
  emit (Event.setArgocdCreds g.DryRun)
  emit (Event.IncrementTracker Tracker.stepArgo 1)
  emit (Event.IncrementTracker Tracker.stepArgo 1)
  if !g.DryRun then
    emit Event.kubectlApplyRegistry
    panicIfErr c.execShellKubectlApply
  emit (Event.IncrementTracker Tracker.stepArgo 1)

/-- Lines 167-179: the `step-gitlab` tracker, vault readiness and the vault
    tunnel. -/
def awaitVault (c : Collab) (g : GlobalFlags) : M Unit := do
  emit (Event.AddTracker Tracker.stepGitlab 6)
  emit (Event.waitVaultToBeRunning g.DryRun)
  emit (Event.IncrementTracker Tracker.stepGitlab 1)
  if !g.DryRun then
    emit (Event.PortForward g.DryRun PFSite.vault)
    deferSignal (c.portForward PFSite.vault).1
    returnIfErr (c.portForward PFSite.vault).2

/-- Lines 192-211: vault initialisation, gitlab readiness and the gitlab
    tunnel. -/
def awaitGitlab (c : Collab) (g : GlobalFlags) : M Unit := do
  emit (Event.loopUntilPodIsReady g.DryRun)
  emit (Event.initializeVaultAndAutoUnseal g.DryRun)
  emit (Event.IncrementTracker Tracker.stepGitlab 1)
  emit (Event.waitGitlabToBeReady g.DryRun)
  emit (Event.WaitForGitlab g.DryRun)
  emit (Event.IncrementTracker Tracker.stepGitlab 1)
  if !g.DryRun then
    emit (Event.PortForward g.DryRun PFSite.gitlab)
    deferSignal (c.portForward PFSite.gitlab).1
    returnIfErr (c.portForward PFSite.gitlab).2

/-- Lines 212-226: unless `skip-gitlab`, the gitlab tokens, terraform and key
    upload. -/
def setupGitlab (g : GlobalFlags) (skipGitlab : Bool) : M Unit := do
  emit (Event.IncrementTracker Tracker.stepGitlab 1)
  if !skipGitlab then
    emit (Event.ProduceGitlabTokens g.DryRun)
    emit (Event.IncrementTracker Tracker.stepGitlab 1)
    emit (Event.ApplyGitlabTerraform g.DryRun)
    emit (Event.GitlabKeyUpload g.DryRun)
    emit (Event.IncrementTracker Tracker.stepGitlab 1)

/-- Lines 227-241: unless `skip-vault`, the `step-vault` tracker and the first
    vault configuration pass. -/
def configureVault (g : GlobalFlags) (skipVault : Bool) : M Unit := do
  if !skipVault then
    emit (Event.AddTracker Tracker.stepVault 2)
    emit (Event.ConfigureVault g.DryRun true)
    emit (Event.IncrementTracker Tracker.stepVault 1)
    emit (Event.CreateVaultConfiguredSecret g.DryRun)
    emit (Event.IncrementTracker Tracker.stepVault 1)

/-- Lines 242-254: the `step-post-gitlab` tracker and the phase checkpointed
    by `gitlab.oidc-created`. -/
def oidcCreatedPhase (g : GlobalFlags) : M Unit := do
  emit (Event.AddTracker Tracker.stepPostGitlab 3)
  if !(← viperGetBool Key.gitlabOidcCreated) then
    emit (Event.AddGitlabOidcApplications g.DryRun)
    emit (Event.AwaitHost g.DryRun)
    viperSet Key.gitlabOidcCreated true
    emit Event.WriteConfig
  emit (Event.IncrementTracker Tracker.stepPostGitlab 1)

/-- Lines 255-262: the phase checkpointed by `gitlab.gitops-pushed`. -/
def gitopsPushedPhase (g : GlobalFlags) : M Unit := do
  if !(← viperGetBool Key.gitlabGitopsPushed) then
    emit (Event.PushGitRepo g.DryRun)
    viperSet Key.gitlabGitopsPushed true
    emit Event.WriteConfig
  emit (Event.IncrementTracker Tracker.stepPostGitlab 1)

/-- Lines 263-271: the phase checkpointed by `argocd.oidc-patched`. -/
def oidcPatchedPhase (g : GlobalFlags) : M Unit := do
  if !g.DryRun && !(← viperGetBool Key.argocdOidcPatched) then
    emit Event.PatchSecret
    emit (Event.DeletePodByLabel DelSite.oidcPatch)
    viperSet Key.argocdOidcPatched true
    emit Event.WriteConfig

/-- Lines 273-334: the phase checkpointed by `gitlab.registered`. -/
def registeredPhase (c : Collab) (g : GlobalFlags) : M Unit := do
  if !(← viperGetBool Key.gitlabRegistered) then
    emit (Event.ChangeRegistryToGitLab g.DryRun)
    if !g.DryRun then
      signalCmd (← getArgocd)
      emit (Event.DeletePodByLabel DelSite.registered)
    emit (Event.waitArgoCDToBeReady g.DryRun)
    if !g.DryRun then
      emit (Event.PortForward g.DryRun PFSite.argocdAgain)
      setArgocd (c.portForward PFSite.argocdAgain).1
      deferSignal (← getArgocd)
      returnIfErr (c.portForward PFSite.argocdAgain).2
    emit (Event.GetArgocdAuthToken g.DryRun)
    if g.DryRun then
      pure ()
    else
      emit (Event.SyncRetry 120 5)
    viperSet Key.gitlabRegistered true
    emit Event.WriteConfig
  emit (Event.IncrementTracker Tracker.stepPostGitlab 1)

/-- Lines 339-347: the loop `for i := 1; i < 15; i++`; `remaining` is
    `15 - i`.  Leaving the match arm is `break` (or the end of the loop). -/
def awaitArgocdHostLoop (c : Collab) (dryRun : Bool) : (remaining : Nat) → (i : Nat) → M Unit
  | 0, _ => pure ()
  | remaining + 1, i => do
    emit (Event.AwaitHostNTimes dryRun 20)
    if c.awaitHostNTimes i then
      pure ()
    else do
      emit (Event.DeletePodByLabel (DelSite.hostLoop i))
      awaitArgocdHostLoop c dryRun remaining (i + 1)

/-- Lines 337-348: outside dry-run, wait for the argocd host or force a
    restart of argocd-server. -/
def awaitArgocdHost (c : Collab) (g : GlobalFlags) : M Unit := do
  if !g.DryRun then
    awaitArgocdHostLoop c g.DryRun (15 - 1) 1

/-- Lines 352-358: unless `skip-vault`, the `step-vault-be` tracker and the
    second vault configuration pass. -/
def configureVaultBackend (g : GlobalFlags) (skipVault : Bool) : M Unit := do
  if !skipVault then
    emit (Event.AddTracker Tracker.stepVaultBe 1)
    emit (Event.ConfigureVault g.DryRun false)
    emit (Event.IncrementTracker Tracker.stepVaultBe 1)

/-- Lines 61-359, for given flags. -/
def runWithFlags (c : Collab) (skipVault skipGitlab : Bool) (g : GlobalFlags) : M Unit := do
  prepareTemporaryRepo c g
  softServeLoop c g.DryRun 10 0
  deployArgocd c g
  adoptRegistry c g
  awaitVault c g
  awaitGitlab c g
  setupGitlab g skipGitlab
  configureVault g skipVault
  oidcCreatedPhase g
  gitopsPushedPhase g
  oidcPatchedPhase g
  registeredPhase c g
  awaitArgocdHost c g
  configureVaultBackend g skipVault

/-- Lines 34-359: the statements of `RunE`, without the deferred calls. -/
def body (c : Collab) : M Unit := do
  let (skipVault, skipGitlab, g) ← processParameters c
  runWithFlags c skipVault skipGitlab g

/-- One deferred call.  The closure of line 94 dereferences whatever
    `kPortForwardSoftServe` holds now; on nil it panics.  Yields whether the
    call panicked. -/
def runDeferred (d : Deferred) (s : St) : Bool × St :=
  match d with
  | Deferred.signalProcess h => (false, { s with trace := s.trace ++ [Event.Signal h] })
  | Deferred.signalSoftServeVar =>
    match s.kPortForwardSoftServe with
    | some h => (false, { s with trace := s.trace ++ [Event.Signal h] })
    | none => (true, s)

/-- The deferred calls, most recent first.  A panicking deferred call does
    not stop the ones below it.  Yields whether any of them panicked. -/
def runDefers : List Deferred → St → Bool × St
  | [], s => (false, s)
  | d :: ds, s =>
    let r := runDeferred d s
    let r1 := runDefers ds r.2
    (r.1 || r1.1, r1.2)

/-- The state in which `RunE` starts: empty trace, no deferred call, both
    `*exec.Cmd` variables nil. -/
def initial (viper : Key → Bool) : St :=
  { viper := viper, trace := [], defers := [],
    kPortForwardSoftServe := none, kPortForwardArgocd := none }

/-- What the caller sees: a panic of the body or of a deferred call, else the
    returned error, else nil. -/
def outcomeOf (r : Except Abort Unit) (deferPanicked : Bool) : Outcome :=
  match r with
  | .error Abort.panic => Outcome.panic
  | .error (Abort.ret e) => if deferPanicked then Outcome.panic else Outcome.err e
  | .ok _ => if deferPanicked then Outcome.panic else Outcome.nil

/-- The function `createGitlabCmd.RunE`: the body, then the deferred calls.
    Yields the outcome and the final state. -/
def RunE (c : Collab) (viper : Key → Bool) : Outcome × St :=
  let r := body c (initial viper)
  let d := runDefers r.2.defers r.2
  (outcomeOf r.1 d.1, d.2)

/-! ## `createDigitalocean` -/

/-- The viper keys of `createDigitalocean`:
    `kubefirst-checks.cluster-install-complete`,
    `kubefirst-checks.<provider>-credentials` and `launch.deployed`.
    `credentials p` is the key built from the provider string `p` exactly as
    the code passes it to viper; viper itself compares keys without regard
    to case, which this type does not model: two provider strings that
    differ only in case give two keys here. -/
inductive DOKey where
  | clusterInstallComplete
  | credentials (provider : String)
  | launchDeployed
  deriving DecidableEq, Repr

/-- The fields of `utilities.GetFlags` used by `createDigitalocean`. -/
structure CliFlags where
  GitProvider : String
  UseTelemetry : Bool
  deriving DecidableEq, Repr

/-- Operations invoked by `createDigitalocean` and `ValidateProvidedFlags`. -/
inductive DOEvent where
  | GetFlags
  | ProgressError
  | DisplayLogHints
  | ValidateCatalogApps
  | AddStep
  | GetHostKey (host : String)
  | CompleteStep
  | CreateK1ClusterDirectory
  | ValidateGitCredentials (provider : String)
  | InitializeGitProvider (provider : String)
  | ViperSet (key : DOKey) (value : Bool)
  | WriteConfig
  | LaunchUp (useTelemetry : Bool)
  | IsAppAvailable
  | CreateMgmtCluster
  deriving DecidableEq, Repr

/-- The surroundings of one run of `createDigitalocean`.

    * `dnsProviderFlag`: the package variable of that name;
    * `getenv`: `os.Getenv`;
    * `isK1Debug`: `strings.ToLower(os.Getenv("K1_LOCAL_DEBUG")) == "true"`;
    * `validateCatalogApps`: the pair `(isValid, err)` of
      `catalog.ValidateCatalogApps`;
    * `getHostKey host`: the error of `internalssh.GetHostKey(host)`;
    * the other fields: the error of the collaborator of that name. -/
structure DOEnv where
  getFlags : Except GoError CliFlags
  validateCatalogApps : Bool × Option GoError
  dnsProviderFlag : String
  getenv : String → String
  isK1Debug : Bool
  getHostKey : String → Option GoError
  validateGitCredentials : Option GoError
  initializeGitProvider : Option GoError
  isAppAvailable : Option GoError
  createMgmtCluster : Option GoError

/-- The state of a run of `createDigitalocean`. -/
structure DOState where
  viper : DOKey → Bool
  trace : List DOEvent

/-- The function `ValidateProvidedFlags`: the returned error and the calls made. -/
def ValidateProvidedFlags (e : DOEnv) (gitProvider : String) : Option GoError × List DOEvent :=
  if e.dnsProviderFlag = "cloudflare" ∧ e.getenv "CF_API_TOKEN" = "" then
    (some (GoError.new
      "your CF_API_TOKEN environment variable is not set. Please set and try again"),
     [DOEvent.AddStep])
  else
    match ["DO_TOKEN", "DO_SPACES_KEY", "DO_SPACES_SECRET"].find? (fun env => e.getenv env = "") with
    | some env =>
      (some (GoError.new
        ("your \"" ++ env ++ "\" variable is unset - please set it before continuing")),
       [DOEvent.AddStep])
    | none =>
      if gitProvider = "github" then
        match e.getHostKey "github.com" with
        | some _ =>
          (some (GoError.new "known_hosts file does not exist - please run `ssh-keyscan github.com >> ~/.ssh/known_hosts` to remedy"),
           [DOEvent.AddStep, DOEvent.GetHostKey "github.com"])
        | none => (none, [DOEvent.AddStep, DOEvent.GetHostKey "github.com", DOEvent.CompleteStep])
      else if gitProvider = "gitlab" then
        match e.getHostKey "gitlab.com" with
        | some _ =>
          (some (GoError.new "known_hosts file does not exist - please run `ssh-keyscan gitlab.com >> ~/.ssh/known_hosts` to remedy"),
           [DOEvent.AddStep, DOEvent.GetHostKey "gitlab.com"])
        | none => (none, [DOEvent.AddStep, DOEvent.GetHostKey "gitlab.com", DOEvent.CompleteStep])
      else
        (none, [DOEvent.AddStep, DOEvent.CompleteStep])

/-- Lines 92-110 of `createDigitalocean`: the launch, the API availability
    check and the management cluster. -/
def launchAndProvision (e : DOEnv) (f : CliFlags) (s : DOState) : Option GoError × DOState :=
  let s1 : DOState :=
    if !s.viper DOKey.launchDeployed && !e.isK1Debug then
      { s with trace := s.trace ++ [DOEvent.LaunchUp f.UseTelemetry] }
    else s
  let s2 : DOState := { s1 with trace := s1.trace ++ [DOEvent.IsAppAvailable] }
  match e.isAppAvailable with
  | some err =>
    (some (GoError.wrap "failed to check app availability for Kubefirst API" err),
     { s2 with trace := s2.trace ++ [DOEvent.ProgressError] })
  | none =>
    let s3 : DOState := { s2 with trace := s2.trace ++ [DOEvent.CreateMgmtCluster] }
    match e.createMgmtCluster with
    | some err =>
      (some (GoError.wrap "failed to create management cluster" err),
       { s3 with trace := s3.trace ++ [DOEvent.ProgressError] })
    | none => (none, s3)

/-- Lines 61-110 of `createDigitalocean`: the cluster directory, the git
    credentials, the git provider phase and the rest. -/
def provisionCluster (e : DOEnv) (f : CliFlags) (s : DOState) : Option GoError × DOState :=
  let s1 : DOState := { s with trace := s.trace ++
    [DOEvent.CreateK1ClusterDirectory, DOEvent.ValidateGitCredentials f.GitProvider] }
  match e.validateGitCredentials with
  | some err =>
    (some (GoError.wrap "failed to validate git credentials" err),
     { s1 with trace := s1.trace ++ [DOEvent.ProgressError] })
  | none =>
    let afterInit : Option GoError × DOState :=
      if !s1.viper (DOKey.credentials f.GitProvider) then
        let s2 : DOState :=
          { s1 with trace := s1.trace ++ [DOEvent.InitializeGitProvider f.GitProvider] }
        match e.initializeGitProvider with
        | some err =>
          (some (GoError.wrap "failed to initialize git provider" err),
           { s2 with trace := s2.trace ++ [DOEvent.ProgressError] })
        | none => (none, s2)
      else (none, s1)
    match afterInit with
    | (some err, s2) => (some err, s2)
    | (none, s2) =>
      let s3 : DOState :=
        { viper := fun k => if k = DOKey.credentials f.GitProvider then true else s2.viper k,
          trace := s2.trace ++
            [DOEvent.ViperSet (DOKey.credentials f.GitProvider) true, DOEvent.WriteConfig] }
      launchAndProvision e f s3

/-- The function `createDigitalocean`: the returned error and the final state. -/
def createDigitalocean (e : DOEnv) (viper : DOKey → Bool) : Option GoError × DOState :=
  match e.getFlags with
  | .error err =>
    (some (GoError.wrap "failed to get CLI flags" err),
     { viper := viper, trace := [DOEvent.GetFlags, DOEvent.ProgressError] })
  | .ok cliFlags =>
    let t1 := [DOEvent.GetFlags, DOEvent.DisplayLogHints, DOEvent.ValidateCatalogApps]
    match e.validateCatalogApps.2 with
    | some err => (some (GoError.wrap "catalog validation error" err), { viper := viper, trace := t1 })
    | none =>
      if !e.validateCatalogApps.1 then
        (some (GoError.new "catalog did not pass a validation check"), { viper := viper, trace := t1 })
      else
        let v := ValidateProvidedFlags e cliFlags.GitProvider
        let t2 := t1 ++ v.2
        match v.1 with
        | some err =>
          (some (GoError.wrap "failed to validate provided flags" err),
           { viper := viper, trace := t2 ++ [DOEvent.ProgressError] })
        | none =>
          if viper DOKey.clusterInstallComplete then
            (some (GoError.new "this cluster install process has already completed successfully"),
             { viper := viper, trace := t2 ++ [DOEvent.ProgressError] })
          else
            provisionCluster e cliFlags { viper := viper, trace := t2 }

/-! ## Proof vocabulary -/

/-- A computation `m` started in a state satisfying `P` ends, when it yields
    `a`, in a state satisfying `Q a` and, when it stops with `e`, in a state
    satisfying `E e`. -/
def Triple {α : Type} (P : St → Prop) (m : M α) (Q : α → St → Prop)
    (E : Abort → St → Prop) : Prop :=
  ∀ s, P s → match m s with
    | (.ok a, s1) => Q a s1
    | (.error e, s1) => E e s1

/-- The `k8s.PortForward` call sites a run with flags `g` may reach: the
    tunnels other than soft-serve are opened only outside dry-run. -/
def pfAllowed (g : GlobalFlags) : PFSite → Bool
  | .softServe _ => true
  | .argocd => !g.DryRun
  | .vault => !g.DryRun
  | .gitlab => !g.DryRun
  | .argocdAgain => !g.DryRun

/-- The `k8s.DeletePodByLabel` call sites a run may reach from the initial
    configuration `v0`. -/
def delAllowed (v0 : Key → Bool) : DelSite → Bool
  | .oidcPatch => !v0 .argocdOidcPatched
  | .registered => !v0 .gitlabRegistered
  | .hostLoop _ => true

/-- The calls a run with flags `g` and initial configuration `v0` may make:
    every `dryRun` argument is `g.DryRun`, the calls guarded by
    `!globalFlags.DryRun` need `g.DryRun = false`, and the calls of a
    checkpointed phase need its key to be false in `v0`. -/
def allowed (g : GlobalFlags) (v0 : Key → Bool) : Event → Bool
  | .ProcessGlobalFlags => true
  | .infoCmdRun => true
  | .SetupProgress _ => true
  | .AddTracker _ _ => true
  | .IncrementTracker _ _ => true
  | .restoreSSLCmdRunE => true
  | .Signal _ => true
  | .ApplyBaseTerraform d => d == g.DryRun
  | .GetClientSet d => d == g.DryRun
  | .CreateSoftServe d => d == g.DryRun
  | .WaitForNamespaceandPods d => d == g.DryRun
  | .PortForward d site => d == g.DryRun && pfAllowed g site
  | .ConfigureSoftServeAndPush d => d == g.DryRun
  | .InstallArgocd d => d == g.DryRun
  | .waitArgoCDToBeReady d => d == g.DryRun
  | .setArgocdCreds d => d == g.DryRun
  | .kubectlApplyRegistry => !g.DryRun
  | .waitVaultToBeRunning d => d == g.DryRun
  | .loopUntilPodIsReady d => d == g.DryRun
  | .initializeVaultAndAutoUnseal d => d == g.DryRun
  | .waitGitlabToBeReady d => d == g.DryRun
  | .WaitForGitlab d => d == g.DryRun
  | .ProduceGitlabTokens d => d == g.DryRun
  | .ApplyGitlabTerraform d => d == g.DryRun
  | .GitlabKeyUpload d => d == g.DryRun
  | .ConfigureVault d _ => d == g.DryRun
  | .CreateVaultConfiguredSecret d => d == g.DryRun
  | .AddGitlabOidcApplications d => d == g.DryRun && !v0 .gitlabOidcCreated
  | .AwaitHost d => d == g.DryRun && !v0 .gitlabOidcCreated
  | .ViperSet k b => b && !v0 k
  | .WriteConfig =>
    !(v0 .gitlabOidcCreated && v0 .gitlabGitopsPushed && v0 .argocdOidcPatched
      && v0 .gitlabRegistered)
  | .PushGitRepo d => d == g.DryRun && !v0 .gitlabGitopsPushed
  | .PatchSecret => !g.DryRun && !v0 .argocdOidcPatched
  | .DeletePodByLabel site => !g.DryRun && delAllowed v0 site
  | .ChangeRegistryToGitLab d => d == g.DryRun && !v0 .gitlabRegistered
  | .GetArgocdAuthToken d => d == g.DryRun && !v0 .gitlabRegistered
  | .SyncRetry _ _ => !g.DryRun && !v0 .gitlabRegistered
  | .AwaitHostNTimes d _ => d == g.DryRun && !g.DryRun

/-- Keys true in `v0` are still true, and every call made so far is allowed. -/
def AllowedInv (g : GlobalFlags) (v0 : Key → Bool) (s : St) : Prop :=
  (∀ k, v0 k = true → s.viper k = true) ∧ s.trace.all (allowed g v0) = true

/-- Whether an event is a SIGTERM signal. -/
def Event.isSignal : Event → Bool
  | .Signal _ => true
  | .ProcessGlobalFlags => false
  | .infoCmdRun => false
  | .SetupProgress _ => false
  | .AddTracker _ _ => false
  | .IncrementTracker _ _ => false
  | .restoreSSLCmdRunE => false
  | .ApplyBaseTerraform _ => false
  | .GetClientSet _ => false
  | .CreateSoftServe _ => false
  | .WaitForNamespaceandPods _ => false
  | .PortForward _ _ => false
  | .ConfigureSoftServeAndPush _ => false
  | .InstallArgocd _ => false
  | .waitArgoCDToBeReady _ => false
  | .setArgocdCreds _ => false
  | .kubectlApplyRegistry => false
  | .waitVaultToBeRunning _ => false
  | .loopUntilPodIsReady _ => false
  | .initializeVaultAndAutoUnseal _ => false
  | .waitGitlabToBeReady _ => false
  | .WaitForGitlab _ => false
  | .ProduceGitlabTokens _ => false
  | .ApplyGitlabTerraform _ => false
  | .GitlabKeyUpload _ => false
  | .ConfigureVault _ _ => false
  | .CreateVaultConfiguredSecret _ => false
  | .AddGitlabOidcApplications _ => false
  | .AwaitHost _ => false
  | .ViperSet _ _ => false
  | .WriteConfig => false
  | .PushGitRepo _ => false
  | .PatchSecret => false
  | .DeletePodByLabel _ => false
  | .ChangeRegistryToGitLab _ => false
  | .GetArgocdAuthToken _ => false
  | .SyncRetry _ _ => false
  | .AwaitHostNTimes _ _ => false

/-- The state after lines 34-59 when the flags are read without error. -/
def afterParameters (g : GlobalFlags) (v : Key → Bool) : St :=
  { viper := v,
    trace := [Event.ProcessGlobalFlags, Event.infoCmdRun, Event.SetupProgress g.SilentMode,
      Event.AddTracker Tracker.step0 1, Event.IncrementTracker Tracker.step0 1],
    defers := [], kPortForwardSoftServe := none, kPortForwardArgocd := none }

/-! ## Sample environments -/

/-- A `create-gitlab` environment in which every collaborator succeeds, every
    tunnel gets a process of its own, soft-serve is configured at the first
    attempt and the argocd host resolves at once. -/
def smoothCollab (dryRun : Bool) : Collab :=
  { getBoolSkipVault := .ok false
    getBoolSkipGitlab := .ok false
    processGlobalFlags := .ok { DryRun := dryRun, UseTelemetry := true, SilentMode := false }
    getClientSet := none
    portForward := fun site =>
      match site with
      | .softServe i => (some (100 + i), none)
      | .argocd => (some 1, none)
      | .vault => (some 2, none)
      | .gitlab => (some 3, none)
      | .argocdAgain => (some 4, none)
    configureSoftServeAndPush := fun _ => none
    softserveConfigure := fun _ => false
    installArgocd := none
    execShellKubectlApply := none
    syncRetry := (true, none)
    awaitHostNTimes := fun _ => true }

/-- A configuration in which no checkpoint has been reached. -/
def freshViper : Key → Bool := fun _ => false

/-- A configuration in which every checkpoint has been reached. -/
def doneViper : Key → Bool := fun _ => true

/-- A `createDigitalocean` environment in which everything succeeds, for the
    git provider `github`. -/
def smoothDO : DOEnv :=
  { getFlags := .ok { GitProvider := "github", UseTelemetry := true }
    validateCatalogApps := (true, none)
    dnsProviderFlag := "cloudflare"
    getenv := fun _ => "set"
    isK1Debug := false
    getHostKey := fun _ => none
    validateGitCredentials := none
    initializeGitProvider := none
    isAppAvailable := none
    createMgmtCluster := none }

/-- A `createDigitalocean` configuration in which nothing has been done. -/
def freshDOViper : DOKey → Bool := fun _ => false

/-- A `createDigitalocean` configuration in which the git credentials and the
    launch are checkpointed but the cluster install is not complete. -/
def resumedDOViper : DOKey → Bool
  | .clusterInstallComplete => false
  | .credentials _ => true
  | .launchDeployed => true

/-- The calls of lines 30-51 of `createDigitalocean` once the flags are read and
    the catalog is valid. -/
def doValidated (e : DOEnv) (f : CliFlags) : List DOEvent :=
  [DOEvent.GetFlags, DOEvent.DisplayLogHints, DOEvent.ValidateCatalogApps] ++
    (ValidateProvidedFlags e f.GitProvider).2

/-- The calls of lines 61-90 of `createDigitalocean` when no error occurs. -/
def doGitEvents (w : DOKey → Bool) (f : CliFlags) : List DOEvent :=
  [DOEvent.CreateK1ClusterDirectory, DOEvent.ValidateGitCredentials f.GitProvider] ++
    (if w (DOKey.credentials f.GitProvider) then []
     else [DOEvent.InitializeGitProvider f.GitProvider]) ++
    [DOEvent.ViperSet (DOKey.credentials f.GitProvider) true, DOEvent.WriteConfig]

/-- The calls of lines 92-99 of `createDigitalocean`. -/
def doLaunchEvents (e : DOEnv) (w : DOKey → Bool) (f : CliFlags) : List DOEvent :=
  (if !w DOKey.launchDeployed && !e.isK1Debug then [DOEvent.LaunchUp f.UseTelemetry] else []) ++
    [DOEvent.IsAppAvailable]

/-- The configuration after line 89 of `createDigitalocean`. -/
def doViperAfter (w : DOKey → Bool) (f : CliFlags) : DOKey → Bool :=
  fun k => if k = DOKey.credentials f.GitProvider then true else w k

/-! ## Vocabulary for fail-fast -/

/-- The error an invoked operation of `create-gitlab` reported, for the
    operations whose error `RunE` returns: `flagset.ProcessGlobalFlags`,
    `k8s.PortForward` and `helm.InstallArgocd`. -/
def reported (c : Collab) : Event → Option GoError
  | .ProcessGlobalFlags =>
    match c.processGlobalFlags with
    | .error e => some e
    | .ok _ => none
  | .infoCmdRun => none
  | .SetupProgress _ => none
  | .AddTracker _ _ => none
  | .IncrementTracker _ _ => none
  | .ApplyBaseTerraform _ => none
  | .restoreSSLCmdRunE => none
  | .GetClientSet _ => none
  | .CreateSoftServe _ => none
  | .WaitForNamespaceandPods _ => none
  | .PortForward _ site => (c.portForward site).2
  | .Signal _ => none
  | .ConfigureSoftServeAndPush _ => none
  | .InstallArgocd _ => c.installArgocd
  | .waitArgoCDToBeReady _ => none
  | .setArgocdCreds _ => none
  | .kubectlApplyRegistry => none
  | .waitVaultToBeRunning _ => none
  | .loopUntilPodIsReady _ => none
  | .initializeVaultAndAutoUnseal _ => none
  | .waitGitlabToBeReady _ => none
  | .WaitForGitlab _ => none
  | .ProduceGitlabTokens _ => none
  | .ApplyGitlabTerraform _ => none
  | .GitlabKeyUpload _ => none
  | .ConfigureVault _ _ => none
  | .CreateVaultConfiguredSecret _ => none
  | .AddGitlabOidcApplications _ => none
  | .AwaitHost _ => none
  | .ViperSet _ _ => none
  | .WriteConfig => none
  | .PushGitRepo _ => none
  | .PatchSecret => none
  | .DeletePodByLabel _ => none
  | .ChangeRegistryToGitLab _ => none
  | .GetArgocdAuthToken _ => none
  | .SyncRetry _ _ => none
  | .AwaitHostNTimes _ _ => none

/-- The error an invoked operation of `create-gitlab` reported, for the
    operations on whose error `RunE` panics: `k8s.GetClientSet` (line 73) and
    the kubectl apply of the registry manifest (line 157). -/
def panicked (c : Collab) : Event → Option GoError
  | .ProcessGlobalFlags => none
  | .infoCmdRun => none
  | .SetupProgress _ => none
  | .AddTracker _ _ => none
  | .IncrementTracker _ _ => none
  | .ApplyBaseTerraform _ => none
  | .restoreSSLCmdRunE => none
  | .GetClientSet _ => c.getClientSet
  | .CreateSoftServe _ => none
  | .WaitForNamespaceandPods _ => none
  | .PortForward _ _ => none
  | .Signal _ => none
  | .ConfigureSoftServeAndPush _ => none
  | .InstallArgocd _ => none
  | .waitArgoCDToBeReady _ => none
  | .setArgocdCreds _ => none
  | .kubectlApplyRegistry => c.execShellKubectlApply
  | .waitVaultToBeRunning _ => none
  | .loopUntilPodIsReady _ => none
  | .initializeVaultAndAutoUnseal _ => none
  | .waitGitlabToBeReady _ => none
  | .WaitForGitlab _ => none
  | .ProduceGitlabTokens _ => none
  | .ApplyGitlabTerraform _ => none
  | .GitlabKeyUpload _ => none
  | .ConfigureVault _ _ => none
  | .CreateVaultConfiguredSecret _ => none
  | .AddGitlabOidcApplications _ => none
  | .AwaitHost _ => none
  | .ViperSet _ _ => none
  | .WriteConfig => none
  | .PushGitRepo _ => none
  | .PatchSecret => none
  | .DeletePodByLabel _ => none
  | .ChangeRegistryToGitLab _ => none
  | .GetArgocdAuthToken _ => none
  | .SyncRetry _ _ => none
  | .AwaitHostNTimes _ _ => none

/-- A `PortForward` that handed back a nil command. -/
def nilCommand (c : Collab) : Event → Bool
  | .ProcessGlobalFlags => false
  | .infoCmdRun => false
  | .SetupProgress _ => false
  | .AddTracker _ _ => false
  | .IncrementTracker _ _ => false
  | .ApplyBaseTerraform _ => false
  | .restoreSSLCmdRunE => false
  | .GetClientSet _ => false
  | .CreateSoftServe _ => false
  | .WaitForNamespaceandPods _ => false
  | .PortForward _ site => (c.portForward site).1.isNone
  | .Signal _ => false
  | .ConfigureSoftServeAndPush _ => false
  | .InstallArgocd _ => false
  | .waitArgoCDToBeReady _ => false
  | .setArgocdCreds _ => false
  | .kubectlApplyRegistry => false
  | .waitVaultToBeRunning _ => false
  | .loopUntilPodIsReady _ => false
  | .initializeVaultAndAutoUnseal _ => false
  | .waitGitlabToBeReady _ => false
  | .WaitForGitlab _ => false
  | .ProduceGitlabTokens _ => false
  | .ApplyGitlabTerraform _ => false
  | .GitlabKeyUpload _ => false
  | .ConfigureVault _ _ => false
  | .CreateVaultConfiguredSecret _ => false
  | .AddGitlabOidcApplications _ => false
  | .AwaitHost _ => false
  | .ViperSet _ _ => false
  | .WriteConfig => false
  | .PushGitRepo _ => false
  | .PatchSecret => false
  | .DeletePodByLabel _ => false
  | .ChangeRegistryToGitLab _ => false
  | .GetArgocdAuthToken _ => false
  | .SyncRetry _ _ => false
  | .AwaitHostNTimes _ _ => false

/-- None of the operations in `t` reported an error that `RunE` returns or
    panics on. -/
def NoRep (c : Collab) (t : List Event) : Prop :=
  t.all (fun x => (reported c x).isNone && (panicked c x).isNone) = true

/-- The body stopped right after its last call: no earlier call reported an
    error; if the body stopped with `return e` then `e` is what that last
    call reported; and if the body panicked although its last call reported
    an error that `RunE` returns, that call is a `PortForward` that handed
    back a nil command. -/
def StoppedAt (c : Collab) (a : Abort) (s : St) : Prop :=
  s.trace ≠ [] ∧ NoRep c s.trace.dropLast ∧
    (∀ e, a = Abort.ret e → s.trace.getLast?.bind (reported c) = some e) ∧
    (a = Abort.panic → s.trace.getLast?.bind (reported c) = none ∨
      s.trace.getLast?.any (nilCommand c) = true)

/-- The error an invoked collaborator of `createDigitalocean` reported, for the
    collaborators whose error is wrapped and returned. -/
def doReported (e : DOEnv) : DOEvent → Option GoError
  | .GetFlags =>
    match e.getFlags with
    | .error err => some err
    | .ok _ => none
  | .ValidateCatalogApps => e.validateCatalogApps.2
  | .ValidateGitCredentials _ => e.validateGitCredentials
  | .InitializeGitProvider _ => e.initializeGitProvider
  | .IsAppAvailable => e.isAppAvailable
  | .CreateMgmtCluster => e.createMgmtCluster
  | .ProgressError => none
  | .DisplayLogHints => none
  | .AddStep => none
  | .GetHostKey _ => none
  | .CompleteStep => none
  | .CreateK1ClusterDirectory => none
  | .ViperSet _ _ => none
  | .WriteConfig => none
  | .LaunchUp _ => none

/-- A `create-gitlab` environment in which soft-serve cannot be configured at
    the first attempt (`ConfigureSoftServeAndPush` reports an error) and is
    configured at the second. -/
def flakySoftServe : Collab :=
  { smoothCollab false with
    configureSoftServeAndPush := fun i => if i = 0 then some (GoError.collab 7) else none }

/-- A `createDigitalocean` environment in which `InitializeGitProvider` reports
    an error. -/
def failingGitInit : DOEnv :=
  { smoothDO with initializeGitProvider := some (GoError.collab 9) }

/-- A `create-gitlab` environment in which the argocd helm install reports an
    error. -/
def failingInstall : Collab :=
  { smoothCollab false with installArgocd := some (GoError.collab 5) }

/-- A `create-gitlab` environment in which `k8s.GetClientSet` reports an
    error. -/
def failingClientSet : Collab :=
  { smoothCollab false with getClientSet := some (GoError.collab 6) }

/-! ## The calls of a block that ends normally -/

/-- The calls of `prepareTemporaryRepo`. -/
def prepareEvents (d : Bool) : List Event :=
  [Event.AddTracker Tracker.stepSoftserve 4, Event.IncrementTracker Tracker.stepSoftserve 1,
   Event.ApplyBaseTerraform d, Event.IncrementTracker Tracker.stepSoftserve 1,
   Event.restoreSSLCmdRunE, Event.GetClientSet d, Event.CreateSoftServe d,
   Event.IncrementTracker Tracker.stepSoftserve 1, Event.WaitForNamespaceandPods d,
   Event.IncrementTracker Tracker.stepSoftserve 1]

/-- The calls of `deployArgocd` when it ends normally. -/
def deployArgocdEvents (d : Bool) : List Event :=
  [Event.IncrementTracker Tracker.stepSoftserve 1, Event.AddTracker Tracker.stepArgo 5,
   Event.IncrementTracker Tracker.stepArgo 1, Event.InstallArgocd d,
   Event.waitArgoCDToBeReady d, Event.IncrementTracker Tracker.stepArgo 1] ++
  (if d then [] else [Event.PortForward d PFSite.argocd])

/-- The calls of `adoptRegistry` when it ends normally. -/
def adoptRegistryEvents (d : Bool) : List Event :=
  [Event.IncrementTracker Tracker.stepArgo 1, Event.setArgocdCreds d,
   Event.IncrementTracker Tracker.stepArgo 1, Event.IncrementTracker Tracker.stepArgo 1] ++
  (if d then [] else [Event.kubectlApplyRegistry]) ++
  [Event.IncrementTracker Tracker.stepArgo 1]

/-- The calls of `awaitVault` when it ends normally. -/
def awaitVaultEvents (d : Bool) : List Event :=
  [Event.AddTracker Tracker.stepGitlab 6, Event.waitVaultToBeRunning d,
   Event.IncrementTracker Tracker.stepGitlab 1] ++
  (if d then [] else [Event.PortForward d PFSite.vault])

/-- The calls of `awaitGitlab` when it ends normally. -/
def awaitGitlabEvents (d : Bool) : List Event :=
  [Event.loopUntilPodIsReady d, Event.initializeVaultAndAutoUnseal d,
   Event.IncrementTracker Tracker.stepGitlab 1, Event.waitGitlabToBeReady d,
   Event.WaitForGitlab d, Event.IncrementTracker Tracker.stepGitlab 1] ++
  (if d then [] else [Event.PortForward d PFSite.gitlab])

/-- The calls of `setupGitlab`. -/
def setupGitlabEvents (d skipGitlab : Bool) : List Event :=
  [Event.IncrementTracker Tracker.stepGitlab 1] ++
  (if skipGitlab then []
   else [Event.ProduceGitlabTokens d, Event.IncrementTracker Tracker.stepGitlab 1,
         Event.ApplyGitlabTerraform d, Event.GitlabKeyUpload d,
         Event.IncrementTracker Tracker.stepGitlab 1])

/-- The calls of `configureVault`. -/
def configureVaultEvents (d skipVault : Bool) : List Event :=
  if skipVault then []
  else [Event.AddTracker Tracker.stepVault 2, Event.ConfigureVault d true,
        Event.IncrementTracker Tracker.stepVault 1, Event.CreateVaultConfiguredSecret d,
        Event.IncrementTracker Tracker.stepVault 1]

/-- The calls of `oidcCreatedPhase` entered with `gitlab.oidc-created = done`. -/
def oidcCreatedEvents (d done : Bool) : List Event :=
  [Event.AddTracker Tracker.stepPostGitlab 3] ++
  (if done then []
   else [Event.AddGitlabOidcApplications d, Event.AwaitHost d,
         Event.ViperSet Key.gitlabOidcCreated true, Event.WriteConfig]) ++
  [Event.IncrementTracker Tracker.stepPostGitlab 1]

/-- The calls of `gitopsPushedPhase` entered with `gitlab.gitops-pushed = done`. -/
def gitopsPushedEvents (d done : Bool) : List Event :=
  (if done then []
   else [Event.PushGitRepo d, Event.ViperSet Key.gitlabGitopsPushed true,
         Event.WriteConfig]) ++
  [Event.IncrementTracker Tracker.stepPostGitlab 1]

/-- The calls of `oidcPatchedPhase` entered with `argocd.oidc-patched = done`. -/
def oidcPatchedEvents (d done : Bool) : List Event :=
  if !d && !done then
    [Event.PatchSecret, Event.DeletePodByLabel DelSite.oidcPatch,
     Event.ViperSet Key.argocdOidcPatched true, Event.WriteConfig]
  else []

/-- The calls of `registeredPhase` entered with `gitlab.registered = done` and
    the argocd tunnel `h0`, when it ends normally. -/
def registeredEvents (d done : Bool) (h0 : Handle) : List Event :=
  (if done then []
   else [Event.ChangeRegistryToGitLab d] ++
     (if d then [] else [Event.Signal h0, Event.DeletePodByLabel DelSite.registered]) ++
     [Event.waitArgoCDToBeReady d] ++
     (if d then [] else [Event.PortForward d PFSite.argocdAgain]) ++
     [Event.GetArgocdAuthToken d] ++
     (if d then [] else [Event.SyncRetry 120 5]) ++
     [Event.ViperSet Key.gitlabRegistered true, Event.WriteConfig]) ++
  [Event.IncrementTracker Tracker.stepPostGitlab 1]

/-- The calls of `awaitArgocdHostLoop`, which always ends normally. -/
def hostLoopEvents (c : Collab) (d : Bool) : (remaining : Nat) → (i : Nat) → List Event
  | 0, _ => []
  | remaining + 1, i =>
    Event.AwaitHostNTimes d 20 ::
      (if c.awaitHostNTimes i then []
       else Event.DeletePodByLabel (DelSite.hostLoop i) :: hostLoopEvents c d remaining (i + 1))

/-- The calls of `awaitArgocdHost`. -/
def awaitArgocdHostEvents (c : Collab) (d : Bool) : List Event :=
  if d then [] else hostLoopEvents c d 14 1

/-- The calls of `configureVaultBackend`. -/
def backendEvents (d skipVault : Bool) : List Event :=
  if skipVault then []
  else [Event.AddTracker Tracker.stepVaultBe 1, Event.ConfigureVault d false,
        Event.IncrementTracker Tracker.stepVaultBe 1]

/-- A call of the soft-serve loop: its `PortForward`, `ConfigureSoftServeAndPush`
    or a SIGTERM signal. -/
def Event.isSoftServeLoop : Event → Bool
  | .ProcessGlobalFlags => false
  | .infoCmdRun => false
  | .SetupProgress _ => false
  | .AddTracker _ _ => false
  | .IncrementTracker _ _ => false
  | .ApplyBaseTerraform _ => false
  | .restoreSSLCmdRunE => false
  | .GetClientSet _ => false
  | .CreateSoftServe _ => false
  | .WaitForNamespaceandPods _ => false
  | .PortForward _ site =>
    match site with
    | .softServe _ => true
    | .argocd => false
    | .vault => false
    | .gitlab => false
    | .argocdAgain => false
  | .Signal _ => true
  | .ConfigureSoftServeAndPush _ => true
  | .InstallArgocd _ => false
  | .waitArgoCDToBeReady _ => false
  | .setArgocdCreds _ => false
  | .kubectlApplyRegistry => false
  | .waitVaultToBeRunning _ => false
  | .loopUntilPodIsReady _ => false
  | .initializeVaultAndAutoUnseal _ => false
  | .waitGitlabToBeReady _ => false
  | .WaitForGitlab _ => false
  | .ProduceGitlabTokens _ => false
  | .ApplyGitlabTerraform _ => false
  | .GitlabKeyUpload _ => false
  | .ConfigureVault _ _ => false
  | .CreateVaultConfiguredSecret _ => false
  | .AddGitlabOidcApplications _ => false
  | .AwaitHost _ => false
  | .ViperSet _ _ => false
  | .WriteConfig => false
  | .PushGitRepo _ => false
  | .PatchSecret => false
  | .DeletePodByLabel _ => false
  | .ChangeRegistryToGitLab _ => false
  | .GetArgocdAuthToken _ => false
  | .SyncRetry _ _ => false
  | .AwaitHostNTimes _ _ => false

/-- A call of `gitlab.AwaitHostNTimes`. -/
def Event.isAwaitHostNTimes : Event → Bool
  | .ProcessGlobalFlags => false
  | .infoCmdRun => false
  | .SetupProgress _ => false
  | .AddTracker _ _ => false
  | .IncrementTracker _ _ => false
  | .ApplyBaseTerraform _ => false
  | .restoreSSLCmdRunE => false
  | .GetClientSet _ => false
  | .CreateSoftServe _ => false
  | .WaitForNamespaceandPods _ => false
  | .PortForward _ _ => false
  | .Signal _ => false
  | .ConfigureSoftServeAndPush _ => false
  | .InstallArgocd _ => false
  | .waitArgoCDToBeReady _ => false
  | .setArgocdCreds _ => false
  | .kubectlApplyRegistry => false
  | .waitVaultToBeRunning _ => false
  | .loopUntilPodIsReady _ => false
  | .initializeVaultAndAutoUnseal _ => false
  | .waitGitlabToBeReady _ => false
  | .WaitForGitlab _ => false
  | .ProduceGitlabTokens _ => false
  | .ApplyGitlabTerraform _ => false
  | .GitlabKeyUpload _ => false
  | .ConfigureVault _ _ => false
  | .CreateVaultConfiguredSecret _ => false
  | .AddGitlabOidcApplications _ => false
  | .AwaitHost _ => false
  | .ViperSet _ _ => false
  | .WriteConfig => false
  | .PushGitRepo _ => false
  | .PatchSecret => false
  | .DeletePodByLabel _ => false
  | .ChangeRegistryToGitLab _ => false
  | .GetArgocdAuthToken _ => false
  | .SyncRetry _ _ => false
  | .AwaitHostNTimes _ _ => true

/-- A corrective restart of argocd-server in the host loop (line 345). -/
def Event.isHostLoopRestart : Event → Bool
  | .ProcessGlobalFlags => false
  | .infoCmdRun => false
  | .SetupProgress _ => false
  | .AddTracker _ _ => false
  | .IncrementTracker _ _ => false
  | .ApplyBaseTerraform _ => false
  | .restoreSSLCmdRunE => false
  | .GetClientSet _ => false
  | .CreateSoftServe _ => false
  | .WaitForNamespaceandPods _ => false
  | .PortForward _ _ => false
  | .Signal _ => false
  | .ConfigureSoftServeAndPush _ => false
  | .InstallArgocd _ => false
  | .waitArgoCDToBeReady _ => false
  | .setArgocdCreds _ => false
  | .kubectlApplyRegistry => false
  | .waitVaultToBeRunning _ => false
  | .loopUntilPodIsReady _ => false
  | .initializeVaultAndAutoUnseal _ => false
  | .waitGitlabToBeReady _ => false
  | .WaitForGitlab _ => false
  | .ProduceGitlabTokens _ => false
  | .ApplyGitlabTerraform _ => false
  | .GitlabKeyUpload _ => false
  | .ConfigureVault _ _ => false
  | .CreateVaultConfiguredSecret _ => false
  | .AddGitlabOidcApplications _ => false
  | .AwaitHost _ => false
  | .ViperSet _ _ => false
  | .WriteConfig => false
  | .PushGitRepo _ => false
  | .PatchSecret => false
  | .DeletePodByLabel site =>
    match site with
    | .oidcPatch => false
    | .registered => false
    | .hostLoop _ => true
  | .ChangeRegistryToGitLab _ => false
  | .GetArgocdAuthToken _ => false
  | .SyncRetry _ _ => false
  | .AwaitHostNTimes _ _ => false

/-- The deltas of the `IncrementTracker` calls for tracker `id`. -/
def Event.increment (id : Tracker) : Event → Nat
  | .ProcessGlobalFlags => 0
  | .infoCmdRun => 0
  | .SetupProgress _ => 0
  | .AddTracker _ _ => 0
  | .IncrementTracker id1 delta => if id1 = id then delta else 0
  | .ApplyBaseTerraform _ => 0
  | .restoreSSLCmdRunE => 0
  | .GetClientSet _ => 0
  | .CreateSoftServe _ => 0
  | .WaitForNamespaceandPods _ => 0
  | .PortForward _ _ => 0
  | .Signal _ => 0
  | .ConfigureSoftServeAndPush _ => 0
  | .InstallArgocd _ => 0
  | .waitArgoCDToBeReady _ => 0
  | .setArgocdCreds _ => 0
  | .kubectlApplyRegistry => 0
  | .waitVaultToBeRunning _ => 0
  | .loopUntilPodIsReady _ => 0
  | .initializeVaultAndAutoUnseal _ => 0
  | .waitGitlabToBeReady _ => 0
  | .WaitForGitlab _ => 0
  | .ProduceGitlabTokens _ => 0
  | .ApplyGitlabTerraform _ => 0
  | .GitlabKeyUpload _ => 0
  | .ConfigureVault _ _ => 0
  | .CreateVaultConfiguredSecret _ => 0
  | .AddGitlabOidcApplications _ => 0
  | .AwaitHost _ => 0
  | .ViperSet _ _ => 0
  | .WriteConfig => 0
  | .PushGitRepo _ => 0
  | .PatchSecret => 0
  | .DeletePodByLabel _ => 0
  | .ChangeRegistryToGitLab _ => 0
  | .GetArgocdAuthToken _ => 0
  | .SyncRetry _ _ => 0
  | .AwaitHostNTimes _ _ => 0

/-- The sum of the deltas passed to `IncrementTracker(id, _)` in a trace. -/
def incrementSum (id : Tracker) (t : List Event) : Nat :=
  (t.map (Event.increment id)).sum

/-- A `create-gitlab` environment in which the argocd host never resolves. -/
def unresolvableHost : Collab :=
  { smoothCollab false with awaitHostNTimes := fun _ => false }

/-- A `create-gitlab` environment in which the argocd host resolves at the
    fourth poll. -/
def fourthPollHost : Collab :=
  { smoothCollab false with awaitHostNTimes := fun i => decide (4 ≤ i) }

/-- A `createDigitalocean` environment in which `ValidateGitCredentials` fails. -/
def failingGitCreds : DOEnv :=
  { smoothDO with validateGitCredentials := some (GoError.collab 3) }

/-- A `createDigitalocean` environment without `DO_TOKEN`. -/
def missingToken : DOEnv :=
  { smoothDO with getenv := fun name => if name = "DO_TOKEN" then "" else "set" }

/-- A `createDigitalocean` environment without `DO_TOKEN` in which
    `ValidateGitCredentials` fails as well. -/
def missingTokenBadCreds : DOEnv :=
  { missingToken with validateGitCredentials := some (GoError.collab 3) }

/-- The configuration after a `create-gitlab` run that reached its end:
    `argocd.oidc-patched` is set only outside dry-run. -/
def finalViper (d : Bool) (v : Key → Bool) : Key → Bool
  | .gitlabOidcCreated => true
  | .gitlabGitopsPushed => true
  | .argocdOidcPatched => v .argocdOidcPatched || !d
  | .gitlabRegistered => true

/-- The calls of a body that reached its end, up to the calls `lss` of the
    soft-serve loop and the argocd tunnel `h0`. -/
def okTrace (c : Collab) (skipVault skipGitlab : Bool) (g : GlobalFlags) (v : Key → Bool)
    (lss : List Event) (h0 : Handle) : List Event :=
  (afterParameters g v).trace ++ prepareEvents g.DryRun ++ lss ++
    deployArgocdEvents g.DryRun ++ adoptRegistryEvents g.DryRun ++
    awaitVaultEvents g.DryRun ++ awaitGitlabEvents g.DryRun ++
    setupGitlabEvents g.DryRun skipGitlab ++ configureVaultEvents g.DryRun skipVault ++
    oidcCreatedEvents g.DryRun (v Key.gitlabOidcCreated) ++
    gitopsPushedEvents g.DryRun (v Key.gitlabGitopsPushed) ++
    oidcPatchedEvents g.DryRun (v Key.argocdOidcPatched) ++
    registeredEvents g.DryRun (v Key.gitlabRegistered) h0 ++
    awaitArgocdHostEvents c g.DryRun ++ backendEvents g.DryRun skipVault

/-! ## Vocabulary for the order of calls -/

/-- A tunnel to argocd-server: the call sites of lines 133 and 299. -/
def PFSite.isArgocd : PFSite → Bool
  | .softServe _ => false
  | .argocd => true
  | .vault => false
  | .gitlab => false
  | .argocdAgain => true

/-- A call of no interest to the order of restarts and tunnels: not
    `PatchSecret`, not `SyncRetry`, not `AwaitHostNTimes`, not
    `DeletePodByLabel` and not a `PortForward` to argocd-server. -/
def Event.isPlain : Event → Bool
  | .ProcessGlobalFlags => true
  | .infoCmdRun => true
  | .SetupProgress _ => true
  | .AddTracker _ _ => true
  | .IncrementTracker _ _ => true
  | .ApplyBaseTerraform _ => true
  | .restoreSSLCmdRunE => true
  | .GetClientSet _ => true
  | .CreateSoftServe _ => true
  | .WaitForNamespaceandPods _ => true
  | .PortForward _ site => !site.isArgocd
  | .Signal _ => true
  | .ConfigureSoftServeAndPush _ => true
  | .InstallArgocd _ => true
  | .waitArgoCDToBeReady _ => true
  | .setArgocdCreds _ => true
  | .kubectlApplyRegistry => true
  | .waitVaultToBeRunning _ => true
  | .loopUntilPodIsReady _ => true
  | .initializeVaultAndAutoUnseal _ => true
  | .waitGitlabToBeReady _ => true
  | .WaitForGitlab _ => true
  | .ProduceGitlabTokens _ => true
  | .ApplyGitlabTerraform _ => true
  | .GitlabKeyUpload _ => true
  | .ConfigureVault _ _ => true
  | .CreateVaultConfiguredSecret _ => true
  | .AddGitlabOidcApplications _ => true
  | .AwaitHost _ => true
  | .ViperSet _ _ => true
  | .WriteConfig => true
  | .PushGitRepo _ => true
  | .PatchSecret => false
  | .DeletePodByLabel _ => false
  | .ChangeRegistryToGitLab _ => true
  | .GetArgocdAuthToken _ => true
  | .SyncRetry _ _ => false
  | .AwaitHostNTimes _ _ => false

/-- A call made before the `gitlab.registered` phase: plain, or one of
    `PatchSecret`, `DeletePodByLabel` at line 268 and the `PortForward` of
    line 133. -/
def Event.isEarly : Event → Bool
  | .ProcessGlobalFlags => true
  | .infoCmdRun => true
  | .SetupProgress _ => true
  | .AddTracker _ _ => true
  | .IncrementTracker _ _ => true
  | .ApplyBaseTerraform _ => true
  | .restoreSSLCmdRunE => true
  | .GetClientSet _ => true
  | .CreateSoftServe _ => true
  | .WaitForNamespaceandPods _ => true
  | .PortForward _ site =>
    match site with
    | .softServe _ => true
    | .argocd => true
    | .vault => true
    | .gitlab => true
    | .argocdAgain => false
  | .Signal _ => true
  | .ConfigureSoftServeAndPush _ => true
  | .InstallArgocd _ => true
  | .waitArgoCDToBeReady _ => true
  | .setArgocdCreds _ => true
  | .kubectlApplyRegistry => true
  | .waitVaultToBeRunning _ => true
  | .loopUntilPodIsReady _ => true
  | .initializeVaultAndAutoUnseal _ => true
  | .waitGitlabToBeReady _ => true
  | .WaitForGitlab _ => true
  | .ProduceGitlabTokens _ => true
  | .ApplyGitlabTerraform _ => true
  | .GitlabKeyUpload _ => true
  | .ConfigureVault _ _ => true
  | .CreateVaultConfiguredSecret _ => true
  | .AddGitlabOidcApplications _ => true
  | .AwaitHost _ => true
  | .ViperSet _ _ => true
  | .WriteConfig => true
  | .PushGitRepo _ => true
  | .PatchSecret => true
  | .DeletePodByLabel site =>
    match site with
    | .oidcPatch => true
    | .registered => false
    | .hostLoop _ => false
  | .ChangeRegistryToGitLab _ => true
  | .GetArgocdAuthToken _ => true
  | .SyncRetry _ _ => false
  | .AwaitHostNTimes _ _ => false

/-- A call made after the `gitlab.registered` phase: anything but
    `PatchSecret`, `SyncRetry` and the `DeletePodByLabel` of line 291. -/
def Event.isTail : Event → Bool
  | .ProcessGlobalFlags => true
  | .infoCmdRun => true
  | .SetupProgress _ => true
  | .AddTracker _ _ => true
  | .IncrementTracker _ _ => true
  | .ApplyBaseTerraform _ => true
  | .restoreSSLCmdRunE => true
  | .GetClientSet _ => true
  | .CreateSoftServe _ => true
  | .WaitForNamespaceandPods _ => true
  | .PortForward _ _ => true
  | .Signal _ => true
  | .ConfigureSoftServeAndPush _ => true
  | .InstallArgocd _ => true
  | .waitArgoCDToBeReady _ => true
  | .setArgocdCreds _ => true
  | .kubectlApplyRegistry => true
  | .waitVaultToBeRunning _ => true
  | .loopUntilPodIsReady _ => true
  | .initializeVaultAndAutoUnseal _ => true
  | .waitGitlabToBeReady _ => true
  | .WaitForGitlab _ => true
  | .ProduceGitlabTokens _ => true
  | .ApplyGitlabTerraform _ => true
  | .GitlabKeyUpload _ => true
  | .ConfigureVault _ _ => true
  | .CreateVaultConfiguredSecret _ => true
  | .AddGitlabOidcApplications _ => true
  | .AwaitHost _ => true
  | .ViperSet _ _ => true
  | .WriteConfig => true
  | .PushGitRepo _ => true
  | .PatchSecret => false
  | .DeletePodByLabel site =>
    match site with
    | .oidcPatch => true
    | .registered => false
    | .hostLoop _ => true
  | .ChangeRegistryToGitLab _ => true
  | .GetArgocdAuthToken _ => true
  | .SyncRetry _ _ => false
  | .AwaitHostNTimes _ _ => true

/-- A call of `argocd.SyncRetry`. -/
def Event.isSyncRetry : Event → Bool
  | .ProcessGlobalFlags => false
  | .infoCmdRun => false
  | .SetupProgress _ => false
  | .AddTracker _ _ => false
  | .IncrementTracker _ _ => false
  | .ApplyBaseTerraform _ => false
  | .restoreSSLCmdRunE => false
  | .GetClientSet _ => false
  | .CreateSoftServe _ => false
  | .WaitForNamespaceandPods _ => false
  | .PortForward _ _ => false
  | .Signal _ => false
  | .ConfigureSoftServeAndPush _ => false
  | .InstallArgocd _ => false
  | .waitArgoCDToBeReady _ => false
  | .setArgocdCreds _ => false
  | .kubectlApplyRegistry => false
  | .waitVaultToBeRunning _ => false
  | .loopUntilPodIsReady _ => false
  | .initializeVaultAndAutoUnseal _ => false
  | .waitGitlabToBeReady _ => false
  | .WaitForGitlab _ => false
  | .ProduceGitlabTokens _ => false
  | .ApplyGitlabTerraform _ => false
  | .GitlabKeyUpload _ => false
  | .ConfigureVault _ _ => false
  | .CreateVaultConfiguredSecret _ => false
  | .AddGitlabOidcApplications _ => false
  | .AwaitHost _ => false
  | .ViperSet _ _ => false
  | .WriteConfig => false
  | .PushGitRepo _ => false
  | .PatchSecret => false
  | .DeletePodByLabel _ => false
  | .ChangeRegistryToGitLab _ => false
  | .GetArgocdAuthToken _ => false
  | .SyncRetry _ _ => true
  | .AwaitHostNTimes _ _ => false

/-- Every argocd tunnel acquired in `pre` has been sent SIGTERM in `pre`. -/
def ArgocdReleased (c : Collab) (pre : List Event) : Prop :=
  ∀ d site h, Event.PortForward d site ∈ pre → site.isArgocd = true →
    (c.portForward site).1 = some h → Event.Signal h ∈ pre

/-- The restart of line 291 happens in `pre`, and the argocd tunnel is
    requested again after it. -/
def RestartedAndReacquired (pre : List Event) : Prop :=
  ∃ p1 p2, pre = p1 ++ Event.DeletePodByLabel DelSite.registered :: p2 ∧
    Event.PortForward false PFSite.argocdAgain ∈ p2

/-- Every call satisfying `X` comes after a stretch of calls satisfying `R`. -/
def Precedes (X : Event → Bool) (R : List Event → Prop) (t : List Event) : Prop :=
  ∀ pre x post, t = pre ++ x :: post → X x = true → R pre

/-- Every `PatchSecret` is followed at once by the restart of line 268. -/
def PatchThenRestart (t : List Event) : Prop :=
  ∀ pre post, t = pre ++ Event.PatchSecret :: post →
    ∃ post1, post = Event.DeletePodByLabel DelSite.oidcPatch :: post1

/-- The restart of line 291. -/
def Event.isRegisteredRestart : Event → Bool
  | .ProcessGlobalFlags => false
  | .infoCmdRun => false
  | .SetupProgress _ => false
  | .AddTracker _ _ => false
  | .IncrementTracker _ _ => false
  | .ApplyBaseTerraform _ => false
  | .restoreSSLCmdRunE => false
  | .GetClientSet _ => false
  | .CreateSoftServe _ => false
  | .WaitForNamespaceandPods _ => false
  | .PortForward _ _ => false
  | .Signal _ => false
  | .ConfigureSoftServeAndPush _ => false
  | .InstallArgocd _ => false
  | .waitArgoCDToBeReady _ => false
  | .setArgocdCreds _ => false
  | .kubectlApplyRegistry => false
  | .waitVaultToBeRunning _ => false
  | .loopUntilPodIsReady _ => false
  | .initializeVaultAndAutoUnseal _ => false
  | .waitGitlabToBeReady _ => false
  | .WaitForGitlab _ => false
  | .ProduceGitlabTokens _ => false
  | .ApplyGitlabTerraform _ => false
  | .GitlabKeyUpload _ => false
  | .ConfigureVault _ _ => false
  | .CreateVaultConfiguredSecret _ => false
  | .AddGitlabOidcApplications _ => false
  | .AwaitHost _ => false
  | .ViperSet _ _ => false
  | .WriteConfig => false
  | .PushGitRepo _ => false
  | .PatchSecret => false
  | .DeletePodByLabel site =>
    match site with
    | .oidcPatch => false
    | .registered => true
    | .hostLoop _ => false
  | .ChangeRegistryToGitLab _ => false
  | .GetArgocdAuthToken _ => false
  | .SyncRetry _ _ => false
  | .AwaitHostNTimes _ _ => false

/-- What holds of the calls of a run: the restart of line 291 comes after
    every argocd tunnel acquired so far was released, every `PatchSecret` is
    followed at once by the restart of line 268, and `SyncRetry` comes after
    the restart of line 291 and a new request of the argocd tunnel. -/
def TunnelOrder (c : Collab) (t : List Event) : Prop :=
  Precedes Event.isRegisteredRestart (ArgocdReleased c) t ∧ PatchThenRestart t ∧
    Precedes Event.isSyncRetry RestartedAndReacquired t

/-- What holds before the `gitlab.registered` phase: only early calls were
    made, every `PatchSecret` was followed by its restart, and once the tunnel
    of line 133 is requested the variable `kPortForwardArgocd` holds it. -/
def EarlyInv (c : Collab) (s : St) : Prop :=
  s.trace.all Event.isEarly = true ∧ PatchThenRestart s.trace ∧
    ((∃ d, Event.PortForward d PFSite.argocd ∈ s.trace) →
      s.kPortForwardArgocd = (c.portForward PFSite.argocd).1)

/-- What holds when the body stops: the order of calls, and neither
    `SyncRetry` nor `AwaitHostNTimes` was called. -/
def StoppedEarly (c : Collab) (s : St) : Prop :=
  TunnelOrder c s.trace ∧
    s.trace.all (fun x => !x.isSyncRetry && !x.isAwaitHostNTimes) = true

/-! ## Vocabulary for the release of tunnels -/

/-- Every tunnel process acquired so far is accounted for: after its
    `PortForward` it was sent SIGTERM, or a deferred call will send SIGTERM
    to it, or (when `useVar` holds) it is the value of `kPortForwardSoftServe`
    and a closure of line 94 is pending.  Moreover, once a closure of line 94
    is pending, `kPortForwardSoftServe` holds the command of some soft-serve
    `PortForward` of the run. -/
def Released (c : Collab) (useVar : Bool) (s : St) : Prop :=
  (∀ pre d site post h, s.trace = pre ++ Event.PortForward d site :: post →
    (c.portForward site).1 = some h →
    Event.Signal h ∈ post ∨ Deferred.signalProcess h ∈ s.defers ∨
      (useVar = true ∧ Deferred.signalSoftServeVar ∈ s.defers ∧
        s.kPortForwardSoftServe = some h)) ∧
  (Deferred.signalSoftServeVar ∈ s.defers →
    ∃ d i, Event.PortForward d (PFSite.softServe i) ∈ s.trace ∧
      s.kPortForwardSoftServe = (c.portForward (PFSite.softServe i)).1)

/-- Every tunnel process acquired in the trace was sent SIGTERM after its
    `PortForward`. -/
def AllReleased (c : Collab) (t : List Event) : Prop :=
  ∀ pre d site post h, t = pre ++ Event.PortForward d site :: post →
    (c.portForward site).1 = some h → Event.Signal h ∈ post

/-- A `create-gitlab` environment in which `SyncRetry` reports an error and
    the argocd host never resolves. -/
def failingSync : Collab :=
  { smoothCollab false with
    syncRetry := (false, some (GoError.collab 11))
    awaitHostNTimes := fun _ => false }

/-- A `create-gitlab` environment in which the soft-serve `PortForward` hands
    back a nil command and no error. -/
def nilSoftServe : Collab :=
  { smoothCollab false with
    portForward := fun site =>
      match site with
      | .softServe _ => (none, none)
      | .argocd => (some 1, none)
      | .vault => (some 2, none)
      | .gitlab => (some 3, none)
      | .argocdAgain => (some 4, none) }

/-! ## Theorems -/

/-! ### The monad, pointwise -/

@[simp] theorem pure_apply {α : Type} (a : α) (s : St) : (pure a : M α) s = (.ok a, s) := rfl

@[simp] theorem bind_apply {α β : Type} (m : M α) (f : α → M β) (s : St) :
    (m >>= f) s = match m s with
      | (.ok a, s1) => f a s1
      | (.error e, s1) => (.error e, s1) := rfl

@[simp] theorem abort_apply {α : Type} (a : Abort) (s : St) :
    (abort a : M α) s = (.error a, s) := rfl

@[simp] theorem emit_apply (e : Event) (s : St) :
    emit e s = (.ok (), { s with trace := s.trace ++ [e] }) := rfl

@[simp] theorem viperGetBool_apply (k : Key) (s : St) :
    viperGetBool k s = (.ok (s.viper k), s) := rfl

@[simp] theorem viperSet_apply (k : Key) (v : Bool) (s : St) :
    viperSet k v s =
      (.ok (), { s with viper := (fun k1 => if k1 = k then v else s.viper k1),
                        trace := s.trace ++ [Event.ViperSet k v] }) := rfl

@[simp] theorem pushDefer_apply (d : Deferred) (s : St) :
    pushDefer d s = (.ok (), { s with defers := d :: s.defers }) := rfl

@[simp] theorem setSoftServe_apply (c : Option Handle) (s : St) :
    setSoftServe c s = (.ok (), { s with kPortForwardSoftServe := c }) := rfl

@[simp] theorem setArgocd_apply (c : Option Handle) (s : St) :
    setArgocd c s = (.ok (), { s with kPortForwardArgocd := c }) := rfl

@[simp] theorem getSoftServe_apply (s : St) :
    getSoftServe s = (.ok s.kPortForwardSoftServe, s) := rfl

@[simp] theorem getArgocd_apply (s : St) :
    getArgocd s = (.ok s.kPortForwardArgocd, s) := rfl

@[simp] theorem returnIfErr_some (e : GoError) (s : St) :
    returnIfErr (some e) s = (.error (Abort.ret e), s) := rfl

@[simp] theorem returnIfErr_none (s : St) : returnIfErr none s = (.ok (), s) := rfl

@[simp] theorem panicIfErr_some (e : GoError) (s : St) :
    panicIfErr (some e) s = (.error Abort.panic, s) := rfl

@[simp] theorem panicIfErr_none (s : St) : panicIfErr none s = (.ok (), s) := rfl

@[simp] theorem signalCmd_some (h : Handle) (s : St) :
    signalCmd (some h) s = (.ok (), { s with trace := s.trace ++ [Event.Signal h] }) := rfl

@[simp] theorem signalCmd_none (s : St) : signalCmd none s = (.error Abort.panic, s) := rfl

@[simp] theorem deferSignal_some (h : Handle) (s : St) :
    deferSignal (some h) s =
      (.ok (), { s with defers := Deferred.signalProcess h :: s.defers }) := rfl

@[simp] theorem deferSignal_none (s : St) : deferSignal none s = (.error Abort.panic, s) := rfl

/-- Sequencing rule for triples. -/
theorem Triple.bind {α β : Type} {P : St → Prop} {m : M α} {f : α → M β}
    {R : α → St → Prop} {Q : β → St → Prop} {E : Abort → St → Prop}
    (h1 : Triple P m R E) (h2 : ∀ a, Triple (R a) (f a) Q E) : Triple P (m >>= f) Q E := by
  intro s hs
  have h := h1 s hs
  simp only [bind_apply]
  rcases hm : m s with ⟨r, s1⟩
  rw [hm] at h
  cases r with
  | ok a => exact h2 a s1 h
  | error e => exact h

/-- Sequencing rule for a computation without a result. -/
theorem Triple.seq {β : Type} {P R : St → Prop} {m : M Unit} {f : M β}
    {Q : β → St → Prop} {E : Abort → St → Prop}
    (h1 : Triple P m (fun _ => R) E) (h2 : Triple R f Q E) :
    Triple P (do m; f) Q E :=
  Triple.bind h1 (fun _ => h2)

/-- A property kept by each block of `runWithFlags`, and holding whenever
    one of them stops, is kept by `runWithFlags`. -/
theorem runWithFlags_inv {c : Collab} {skipVault skipGitlab : Bool} {g : GlobalFlags}
    {I : St → Prop} {E : Abort → St → Prop}
    (h1 : Triple I (prepareTemporaryRepo c g) (fun _ => I) E)
    (h2 : Triple I (softServeLoop c g.DryRun 10 0) (fun _ => I) E)
    (h3 : Triple I (deployArgocd c g) (fun _ => I) E)
    (h4 : Triple I (adoptRegistry c g) (fun _ => I) E)
    (h5 : Triple I (awaitVault c g) (fun _ => I) E)
    (h6 : Triple I (awaitGitlab c g) (fun _ => I) E)
    (h7 : Triple I (setupGitlab g skipGitlab) (fun _ => I) E)
    (h8 : Triple I (configureVault g skipVault) (fun _ => I) E)
    (h9 : Triple I (oidcCreatedPhase g) (fun _ => I) E)
    (h10 : Triple I (gitopsPushedPhase g) (fun _ => I) E)
    (h11 : Triple I (oidcPatchedPhase g) (fun _ => I) E)
    (h12 : Triple I (registeredPhase c g) (fun _ => I) E)
    (h13 : Triple I (awaitArgocdHost c g) (fun _ => I) E)
    (h14 : Triple I (configureVaultBackend g skipVault) (fun _ => I) E) :
    Triple I (runWithFlags c skipVault skipGitlab g) (fun _ => I) E := by
  unfold runWithFlags
  exact Triple.seq h1 (Triple.seq h2 (Triple.seq h3 (Triple.seq h4 (Triple.seq h5
    (Triple.seq h6 (Triple.seq h7 (Triple.seq h8 (Triple.seq h9 (Triple.seq h10
    (Triple.seq h11 (Triple.seq h12 (Triple.seq h13 h14))))))))))))

/-! ### Every call is allowed -/

theorem AllowedInv.step {g : GlobalFlags} {v0 : Key → Bool} {s s1 : St}
    (hs : AllowedInv g v0 s) (l : List Event) (hl : l.all (allowed g v0) = true)
    (hv : ∀ k, s.viper k = true → s1.viper k = true)
    (ht : s1.trace = s.trace ++ l) : AllowedInv g v0 s1 := by
  refine ⟨fun k hk => hv k (hs.1 k hk), ?_⟩
  rw [ht, List.all_append, hs.2, hl]; rfl

theorem AllowedInv.initially_false {g : GlobalFlags} {v0 : Key → Bool} {s : St}
    (hs : AllowedInv g v0 s) {k : Key} (hk : s.viper k = false) : v0 k = false := by
  cases h : v0 k with
  | false => rfl
  | true => rw [hs.1 k h] at hk; cases hk

theorem softServeLoop_allowed (c : Collab) (g : GlobalFlags) (v0 : Key → Bool) :
    ∀ (n i : Nat), Triple (AllowedInv g v0) (softServeLoop c g.DryRun n i)
      (fun _ => AllowedInv g v0) (fun _ => AllowedInv g v0)
  | 0, i => by
    intro s hs
    simpa [softServeLoop] using hs
  | n + 1, i => by
    intro s hs
    have ih := softServeLoop_allowed c g v0 n (i + 1)
    unfold softServeLoop
    rcases hp : c.portForward (PFSite.softServe i) with ⟨_ | h, _ | e⟩ <;>
      rcases hsc : c.softserveConfigure i <;>
      rcases hcf : c.configureSoftServeAndPush i with _ | e2 <;>
      simp [hp, hsc, hcf] <;>
      first
        | exact hs.step _ (by simp [allowed, pfAllowed]) (fun _ h => h) rfl
        | exact ih _ (hs.step _ (by simp [allowed, pfAllowed]) (fun _ h => h) rfl)

theorem prepareTemporaryRepo_allowed (c : Collab) (g : GlobalFlags) (v0 : Key → Bool) :
    Triple (AllowedInv g v0) (prepareTemporaryRepo c g)
      (fun _ => AllowedInv g v0) (fun _ => AllowedInv g v0) := by
  intro s hs
  unfold prepareTemporaryRepo
  rcases hc : c.getClientSet with _ | e <;> simp [hc] <;>
    exact hs.step _ (by simp [allowed]) (fun _ h => h) rfl

theorem deployArgocd_allowed (c : Collab) (g : GlobalFlags) (v0 : Key → Bool) :
    Triple (AllowedInv g v0) (deployArgocd c g)
      (fun _ => AllowedInv g v0) (fun _ => AllowedInv g v0) := by
  intro s hs
  unfold deployArgocd
  rcases h1 : c.installArgocd with _ | e
  · rcases hd : g.DryRun
    · rcases h3 : c.portForward PFSite.argocd with ⟨_ | h, _ | e3⟩ <;>
        simp [h1, h3, hd] <;>
        exact hs.step _ (by simp [allowed, pfAllowed, hd]) (fun _ h => h) rfl
    · simp [h1, hd]
      exact hs.step _ (by simp [allowed, hd]) (fun _ h => h) rfl
  · simp [h1]
    exact hs.step _ (by simp [allowed]) (fun _ h => h) rfl

theorem adoptRegistry_allowed (c : Collab) (g : GlobalFlags) (v0 : Key → Bool) :
    Triple (AllowedInv g v0) (adoptRegistry c g)
      (fun _ => AllowedInv g v0) (fun _ => AllowedInv g v0) := by
  intro s hs
  unfold adoptRegistry
  rcases hd : g.DryRun <;> rcases h2 : c.execShellKubectlApply with _ | e2 <;>
    simp [h2, hd] <;>
    exact hs.step _ (by simp [allowed, hd]) (fun _ h => h) rfl

theorem awaitVault_allowed (c : Collab) (g : GlobalFlags) (v0 : Key → Bool) :
    Triple (AllowedInv g v0) (awaitVault c g)
      (fun _ => AllowedInv g v0) (fun _ => AllowedInv g v0) := by
  intro s hs
  unfold awaitVault
  rcases hd : g.DryRun
  · rcases h3 : c.portForward PFSite.vault with ⟨_ | h, _ | e3⟩ <;>
      simp [h3, hd] <;>
      exact hs.step _ (by simp [allowed, pfAllowed, hd]) (fun _ h => h) rfl
  · simp [hd]
    exact hs.step _ (by simp [allowed, hd]) (fun _ h => h) rfl

theorem awaitGitlab_allowed (c : Collab) (g : GlobalFlags) (v0 : Key → Bool) :
    Triple (AllowedInv g v0) (awaitGitlab c g)
      (fun _ => AllowedInv g v0) (fun _ => AllowedInv g v0) := by
  intro s hs
  unfold awaitGitlab
  rcases hd : g.DryRun
  · rcases h3 : c.portForward PFSite.gitlab with ⟨_ | h, _ | e3⟩ <;>
      simp [h3, hd] <;>
      exact hs.step _ (by simp [allowed, pfAllowed, hd]) (fun _ h => h) rfl
  · simp [hd]
    exact hs.step _ (by simp [allowed, hd]) (fun _ h => h) rfl

theorem setupGitlab_allowed (g : GlobalFlags) (skipGitlab : Bool) (v0 : Key → Bool) :
    Triple (AllowedInv g v0) (setupGitlab g skipGitlab)
      (fun _ => AllowedInv g v0) (fun _ => AllowedInv g v0) := by
  intro s hs
  unfold setupGitlab
  rcases skipGitlab <;> simp <;>
    exact hs.step _ (by simp [allowed]) (fun _ h => h) rfl

theorem configureVault_allowed (g : GlobalFlags) (skipVault : Bool) (v0 : Key → Bool) :
    Triple (AllowedInv g v0) (configureVault g skipVault)
      (fun _ => AllowedInv g v0) (fun _ => AllowedInv g v0) := by
  intro s hs
  unfold configureVault
  rcases skipVault <;> simp
  · exact hs.step _ (by simp [allowed]) (fun _ h => h) rfl
  · exact hs

theorem oidcCreatedPhase_allowed (g : GlobalFlags) (v0 : Key → Bool) :
    Triple (AllowedInv g v0) (oidcCreatedPhase g)
      (fun _ => AllowedInv g v0) (fun _ => AllowedInv g v0) := by
  intro s hs
  unfold oidcCreatedPhase
  rcases hk : s.viper Key.gitlabOidcCreated <;> simp [hk]
  · exact hs.step _ (by simp [allowed, hs.initially_false hk])
      (by intro k h; simp [h]) rfl
  · exact hs.step _ (by simp [allowed]) (fun _ h => h) rfl

theorem gitopsPushedPhase_allowed (g : GlobalFlags) (v0 : Key → Bool) :
    Triple (AllowedInv g v0) (gitopsPushedPhase g)
      (fun _ => AllowedInv g v0) (fun _ => AllowedInv g v0) := by
  intro s hs
  unfold gitopsPushedPhase
  rcases hk : s.viper Key.gitlabGitopsPushed <;> simp [hk]
  · exact hs.step _ (by simp [allowed, hs.initially_false hk])
      (by intro k h; simp [h]) rfl
  · exact hs.step _ (by simp [allowed]) (fun _ h => h) rfl

theorem oidcPatchedPhase_allowed (g : GlobalFlags) (v0 : Key → Bool) :
    Triple (AllowedInv g v0) (oidcPatchedPhase g)
      (fun _ => AllowedInv g v0) (fun _ => AllowedInv g v0) := by
  intro s hs
  unfold oidcPatchedPhase
  rcases hk : s.viper Key.argocdOidcPatched <;> rcases hd : g.DryRun <;> simp [hk, hd]
  · exact hs.step _ (by simp [allowed, delAllowed, hd, hs.initially_false hk])
      (by intro k h; simp [h]) rfl
  all_goals exact hs

theorem registeredPhase_allowed (c : Collab) (g : GlobalFlags) (v0 : Key → Bool) :
    Triple (AllowedInv g v0) (registeredPhase c g)
      (fun _ => AllowedInv g v0) (fun _ => AllowedInv g v0) := by
  intro s hs
  unfold registeredPhase
  rcases hk : s.viper Key.gitlabRegistered
  · rcases hd : g.DryRun
    · rcases ha : s.kPortForwardArgocd with _ | h0
      · simp [hk, hd, ha]
        exact hs.step _ (by simp [allowed, hd, hs.initially_false hk]) (fun _ h => h) rfl
      · rcases h3 : c.portForward PFSite.argocdAgain with ⟨_ | h, _ | e3⟩ <;>
          simp [hk, hd, ha, h3] <;>
          exact hs.step _
            (by simp [allowed, pfAllowed, delAllowed, hd, hs.initially_false hk])
            (by intro k h; simp [h]) rfl
    · simp [hk, hd]
      exact hs.step _ (by simp [allowed, hd, hs.initially_false hk])
        (by intro k h; simp [h]) rfl
  · simp [hk]
    exact hs.step _ (by simp [allowed]) (fun _ h => h) rfl

theorem awaitArgocdHostLoop_allowed (c : Collab) (g : GlobalFlags) (v0 : Key → Bool)
    (hd : g.DryRun = false) :
    ∀ (n i : Nat), Triple (AllowedInv g v0) (awaitArgocdHostLoop c g.DryRun n i)
      (fun _ => AllowedInv g v0) (fun _ => AllowedInv g v0)
  | 0, i => by
    intro s hs
    simpa [awaitArgocdHostLoop] using hs
  | n + 1, i => by
    intro s hs
    have ih := awaitArgocdHostLoop_allowed c g v0 hd n (i + 1)
    unfold awaitArgocdHostLoop
    rcases ha : c.awaitHostNTimes i <;> simp [ha]
    · exact ih _ (hs.step _ (by simp [allowed, delAllowed, hd]) (fun _ h => h) rfl)
    · exact hs.step _ (by simp [allowed, hd]) (fun _ h => h) rfl

theorem awaitArgocdHost_allowed (c : Collab) (g : GlobalFlags) (v0 : Key → Bool) :
    Triple (AllowedInv g v0) (awaitArgocdHost c g)
      (fun _ => AllowedInv g v0) (fun _ => AllowedInv g v0) := by
  intro s hs
  unfold awaitArgocdHost
  rcases hd : g.DryRun <;> simp
  · have h := awaitArgocdHostLoop_allowed c g v0 hd 14 1 s hs
    rw [hd] at h
    exact h
  · exact hs

theorem configureVaultBackend_allowed (g : GlobalFlags) (skipVault : Bool)
    (v0 : Key → Bool) :
    Triple (AllowedInv g v0) (configureVaultBackend g skipVault)
      (fun _ => AllowedInv g v0) (fun _ => AllowedInv g v0) := by
  intro s hs
  unfold configureVaultBackend
  rcases skipVault <;> simp
  · exact hs.step _ (by simp [allowed]) (fun _ h => h) rfl
  · exact hs

theorem runWithFlags_allowed (c : Collab) (skipVault skipGitlab : Bool) (g : GlobalFlags)
    (v0 : Key → Bool) :
    Triple (AllowedInv g v0) (runWithFlags c skipVault skipGitlab g)
      (fun _ => AllowedInv g v0) (fun _ => AllowedInv g v0) :=
  runWithFlags_inv (prepareTemporaryRepo_allowed c g v0) (softServeLoop_allowed c g v0 10 0)
    (deployArgocd_allowed c g v0) (adoptRegistry_allowed c g v0) (awaitVault_allowed c g v0)
    (awaitGitlab_allowed c g v0) (setupGitlab_allowed g skipGitlab v0)
    (configureVault_allowed g skipVault v0) (oidcCreatedPhase_allowed g v0)
    (gitopsPushedPhase_allowed g v0) (oidcPatchedPhase_allowed g v0)
    (registeredPhase_allowed c g v0) (awaitArgocdHost_allowed c g v0)
    (configureVaultBackend_allowed g skipVault v0)

/-! ### The deferred calls and the whole of `RunE` -/

theorem runDeferred_spec (d : Deferred) (s : St) :
    (runDeferred d s).2.viper = s.viper ∧
    (runDeferred d s).2.kPortForwardSoftServe = s.kPortForwardSoftServe ∧
    ∃ l, (runDeferred d s).2.trace = s.trace ++ l ∧ l.all Event.isSignal = true := by
  cases d with
  | signalProcess h => exact ⟨rfl, rfl, [Event.Signal h], rfl, rfl⟩
  | signalSoftServeVar =>
    cases hv : s.kPortForwardSoftServe with
    | none =>
      exact ⟨by simp [runDeferred, hv], by simp [runDeferred, hv], [],
        by simp [runDeferred, hv], rfl⟩
    | some h =>
      exact ⟨by simp [runDeferred, hv], by simp [runDeferred, hv], [Event.Signal h],
        by simp [runDeferred, hv], rfl⟩

theorem runDefers_spec : ∀ (ds : List Deferred) (s : St),
    (runDefers ds s).2.viper = s.viper ∧
    (runDefers ds s).2.kPortForwardSoftServe = s.kPortForwardSoftServe ∧
    ∃ l, (runDefers ds s).2.trace = s.trace ++ l ∧ l.all Event.isSignal = true
  | [], s => ⟨rfl, rfl, [], by simp [runDefers], rfl⟩
  | d :: ds, s => by
    obtain ⟨h1, h2, l1, h3, h4⟩ := runDeferred_spec d s
    obtain ⟨k1, k2, l2, k3, k4⟩ := runDefers_spec ds (runDeferred d s).2
    refine ⟨?_, ?_, l1 ++ l2, ?_, ?_⟩
    · simp only [runDefers]; rw [k1, h1]
    · simp only [runDefers]; rw [k2, h2]
    · simp only [runDefers]; rw [k3, h3, List.append_assoc]
    · rw [List.all_append, h4, k4]; rfl

/-- The five calls of lines 34-59 when the flags are read without error. -/
theorem body_of_flags (c : Collab) (skipVault skipGitlab : Bool) (g : GlobalFlags)
    (h1 : c.getBoolSkipVault = .ok skipVault) (h2 : c.getBoolSkipGitlab = .ok skipGitlab)
    (h3 : c.processGlobalFlags = .ok g) (v : Key → Bool) :
    body c (initial v) = runWithFlags c skipVault skipGitlab g (afterParameters g v) := by
  simp [body, processParameters, h1, h2, h3, initial, afterParameters]

theorem body_of_skipVault_error (c : Collab) (e : GoError)
    (h1 : c.getBoolSkipVault = .error e) (s : St) :
    body c s = (.error Abort.panic, s) := by
  simp [body, processParameters, h1]

theorem body_of_skipGitlab_error (c : Collab) (skipVault : Bool) (e : GoError)
    (h1 : c.getBoolSkipVault = .ok skipVault) (h2 : c.getBoolSkipGitlab = .error e) (s : St) :
    body c s = (.error Abort.panic, s) := by
  simp [body, processParameters, h1, h2]

theorem body_of_flags_error (c : Collab) (skipVault skipGitlab : Bool) (e : GoError)
    (h1 : c.getBoolSkipVault = .ok skipVault) (h2 : c.getBoolSkipGitlab = .ok skipGitlab)
    (h3 : c.processGlobalFlags = .error e) (s : St) :
    body c s = (.error (Abort.ret e), { s with trace := s.trace ++ [Event.ProcessGlobalFlags] }) := by
  simp [body, processParameters, h1, h2, h3]

/-- Every call of a run is allowed by its flags and its initial configuration;
    a run whose flags cannot be read makes at most the call that reads them. -/
theorem RunE_allowed (c : Collab) (v : Key → Bool) :
    (∃ g, c.processGlobalFlags = .ok g ∧ AllowedInv g v (RunE c v).2) ∨
    (RunE c v).2.trace = [] ∨ (RunE c v).2.trace = [Event.ProcessGlobalFlags] := by
  rcases h1 : c.getBoolSkipVault with e | skipVault
  · right; left
    simp [RunE, body_of_skipVault_error c e h1, initial, runDefers]
  rcases h2 : c.getBoolSkipGitlab with e | skipGitlab
  · right; left
    simp [RunE, body_of_skipGitlab_error c skipVault e h1 h2, initial, runDefers]
  rcases h3 : c.processGlobalFlags with e | g
  · right; right
    simp [RunE, body_of_flags_error c skipVault skipGitlab e h1 h2 h3, initial, runDefers]
  left
  refine ⟨g, rfl, ?_⟩
  have h0 : AllowedInv g v (afterParameters g v) :=
    ⟨fun _ h => h, by simp [afterParameters, allowed]⟩
  have hb := runWithFlags_allowed c skipVault skipGitlab g v _ h0
  rw [← body_of_flags c skipVault skipGitlab g h1 h2 h3] at hb
  have hI : AllowedInv g v (body c (initial v)).2 := by
    rcases hr : body c (initial v) with ⟨r, s1⟩
    rw [hr] at hb
    cases r <;> exact hb
  obtain ⟨k1, _, l, k3, k4⟩ := runDefers_spec (body c (initial v)).2.defers (body c (initial v)).2
  refine hI.step l ?_ (fun k h => by simp only [RunE]; rw [k1]; exact h) (by simp only [RunE]; exact k3)
  rw [List.all_eq_true] at k4 ⊢
  intro x hx
  have := k4 x hx
  cases x <;> simp_all [Event.isSignal, allowed]

/-! ### `createDigitalocean`, by cases -/

theorem ValidateProvidedFlags_events (e : DOEnv) (p : String) :
    ∀ x ∈ (ValidateProvidedFlags e p).2,
      x = DOEvent.AddStep ∨ x = DOEvent.CompleteStep ∨ ∃ h, x = DOEvent.GetHostKey h := by
  intro x hx
  unfold ValidateProvidedFlags at hx
  repeat' split at hx
  all_goals simp at hx
  all_goals rcases hx with rfl | rfl | rfl <;> simp

theorem ValidateProvidedFlags_no_write (e : DOEnv) (p : String) (x : DOEvent)
    (hx : x ∈ (ValidateProvidedFlags e p).2) :
    x ≠ DOEvent.CreateK1ClusterDirectory ∧ (∀ q, x ≠ DOEvent.InitializeGitProvider q) ∧
    (∀ k b, x ≠ DOEvent.ViperSet k b) ∧ x ≠ DOEvent.WriteConfig ∧
    (∀ t, x ≠ DOEvent.LaunchUp t) ∧ x ≠ DOEvent.CreateMgmtCluster ∧
    x ≠ DOEvent.IsAppAvailable := by
  rcases ValidateProvidedFlags_events e p x hx with h | h | ⟨q, h⟩ <;> simp [h]

/-! ### C1 -/

theorem RunE_not_mem (c : Collab) (v : Key → Bool) (x : Event)
    (h : ∀ g, allowed g v x = false) (hx : x ≠ Event.ProcessGlobalFlags) :
    x ∉ (RunE c v).2.trace := by
  intro hm
  rcases RunE_allowed c v with ⟨g, _, hI⟩ | h0 | h0
  · have := List.all_eq_true.mp hI.2 x hm
    rw [h g] at this
    cases this
  · rw [h0] at hm; cases hm
  · rw [h0] at hm
    exact hx (List.mem_singleton.mp hm)

/-- The ten ways in which `createDigitalocean` ends. -/
theorem createDigitalocean_cases (e : DOEnv) (w : DOKey → Bool)
    (P : Option GoError × DOState → Prop)
    (hFlags : ∀ err, e.getFlags = .error err →
      P (some (GoError.wrap "failed to get CLI flags" err),
         { viper := w, trace := [DOEvent.GetFlags, DOEvent.ProgressError] }))
    (hCatalog : ∀ f err, e.getFlags = .ok f → e.validateCatalogApps.2 = some err →
      P (some (GoError.wrap "catalog validation error" err),
         { viper := w,
           trace := [DOEvent.GetFlags, DOEvent.DisplayLogHints, DOEvent.ValidateCatalogApps] }))
    (hInvalid : ∀ f, e.getFlags = .ok f → e.validateCatalogApps = (false, none) →
      P (some (GoError.new "catalog did not pass a validation check"),
         { viper := w,
           trace := [DOEvent.GetFlags, DOEvent.DisplayLogHints, DOEvent.ValidateCatalogApps] }))
    (hValidate : ∀ f err, e.getFlags = .ok f → e.validateCatalogApps = (true, none) →
      (ValidateProvidedFlags e f.GitProvider).1 = some err →
      P (some (GoError.wrap "failed to validate provided flags" err),
         { viper := w, trace := doValidated e f ++ [DOEvent.ProgressError] }))
    (hComplete : ∀ f, e.getFlags = .ok f → e.validateCatalogApps = (true, none) →
      (ValidateProvidedFlags e f.GitProvider).1 = none →
      w DOKey.clusterInstallComplete = true →
      P (some (GoError.new "this cluster install process has already completed successfully"),
         { viper := w, trace := doValidated e f ++ [DOEvent.ProgressError] }))
    (hGit : ∀ f err, e.getFlags = .ok f → e.validateCatalogApps = (true, none) →
      (ValidateProvidedFlags e f.GitProvider).1 = none →
      w DOKey.clusterInstallComplete = false → e.validateGitCredentials = some err →
      P (some (GoError.wrap "failed to validate git credentials" err),
         { viper := w,
           trace := doValidated e f ++ [DOEvent.CreateK1ClusterDirectory,
             DOEvent.ValidateGitCredentials f.GitProvider, DOEvent.ProgressError] }))
    (hInit : ∀ f err, e.getFlags = .ok f → e.validateCatalogApps = (true, none) →
      (ValidateProvidedFlags e f.GitProvider).1 = none →
      w DOKey.clusterInstallComplete = false → e.validateGitCredentials = none →
      w (DOKey.credentials f.GitProvider) = false → e.initializeGitProvider = some err →
      P (some (GoError.wrap "failed to initialize git provider" err),
         { viper := w,
           trace := doValidated e f ++ [DOEvent.CreateK1ClusterDirectory,
             DOEvent.ValidateGitCredentials f.GitProvider,
             DOEvent.InitializeGitProvider f.GitProvider, DOEvent.ProgressError] }))
    (hAvail : ∀ f err, e.getFlags = .ok f → e.validateCatalogApps = (true, none) →
      (ValidateProvidedFlags e f.GitProvider).1 = none →
      w DOKey.clusterInstallComplete = false → e.validateGitCredentials = none →
      (w (DOKey.credentials f.GitProvider) = true ∨ e.initializeGitProvider = none) →
      e.isAppAvailable = some err →
      P (some (GoError.wrap "failed to check app availability for Kubefirst API" err),
         { viper := doViperAfter w f,
           trace := doValidated e f ++ doGitEvents w f ++ doLaunchEvents e w f ++
             [DOEvent.ProgressError] }))
    (hMgmt : ∀ f err, e.getFlags = .ok f → e.validateCatalogApps = (true, none) →
      (ValidateProvidedFlags e f.GitProvider).1 = none →
      w DOKey.clusterInstallComplete = false → e.validateGitCredentials = none →
      (w (DOKey.credentials f.GitProvider) = true ∨ e.initializeGitProvider = none) →
      e.isAppAvailable = none → e.createMgmtCluster = some err →
      P (some (GoError.wrap "failed to create management cluster" err),
         { viper := doViperAfter w f,
           trace := doValidated e f ++ doGitEvents w f ++ doLaunchEvents e w f ++
             [DOEvent.CreateMgmtCluster, DOEvent.ProgressError] }))
    (hOk : ∀ f, e.getFlags = .ok f → e.validateCatalogApps = (true, none) →
      (ValidateProvidedFlags e f.GitProvider).1 = none →
      w DOKey.clusterInstallComplete = false → e.validateGitCredentials = none →
      (w (DOKey.credentials f.GitProvider) = true ∨ e.initializeGitProvider = none) →
      e.isAppAvailable = none → e.createMgmtCluster = none →
      P (none,
         { viper := doViperAfter w f,
           trace := doValidated e f ++ doGitEvents w f ++ doLaunchEvents e w f ++
             [DOEvent.CreateMgmtCluster] })) :
    P (createDigitalocean e w) := by
  rcases hf : e.getFlags with err | f
  · simpa [createDigitalocean, hf] using hFlags err hf
  rcases hc : e.validateCatalogApps with ⟨valid, _ | cerr⟩
  swap
  · simpa [createDigitalocean, hf, hc] using hCatalog f cerr hf (by simp [hc])
  cases valid
  · simpa [createDigitalocean, hf, hc] using hInvalid f hf hc
  rcases hv : (ValidateProvidedFlags e f.GitProvider).1 with _ | verr
  swap
  · simpa [createDigitalocean, hf, hc, hv, doValidated] using hValidate f verr hf hc hv
  rcases hk : w DOKey.clusterInstallComplete
  swap
  · simpa [createDigitalocean, hf, hc, hv, hk, doValidated] using hComplete f hf hc hv hk
  rcases hg : e.validateGitCredentials with _ | gerr
  swap
  · simpa [createDigitalocean, provisionCluster, hf, hc, hv, hk, hg, doValidated]
      using hGit f gerr hf hc hv hk hg
  have key : ∀ (hci : w (DOKey.credentials f.GitProvider) = true ∨ e.initializeGitProvider = none),
      P (launchAndProvision e f
        { viper := doViperAfter w f, trace := doValidated e f ++ doGitEvents w f }) := by
    intro hci
    rcases ha : e.isAppAvailable with _ | aerr
    swap
    · have h := hAvail f aerr hf hc hv hk hg hci ha
      rcases hl : w DOKey.launchDeployed <;> rcases hdb : e.isK1Debug <;>
        simpa [launchAndProvision, ha, doViperAfter, doLaunchEvents, hl, hdb] using h
    rcases hm : e.createMgmtCluster with _ | merr
    swap
    · have h := hMgmt f merr hf hc hv hk hg hci ha hm
      rcases hl : w DOKey.launchDeployed <;> rcases hdb : e.isK1Debug <;>
        simpa [launchAndProvision, ha, hm, doViperAfter, doLaunchEvents, hl, hdb] using h
    have h := hOk f hf hc hv hk hg hci ha hm
    rcases hl : w DOKey.launchDeployed <;> rcases hdb : e.isK1Debug <;>
      simpa [launchAndProvision, ha, hm, doViperAfter, doLaunchEvents, hl, hdb] using h
  have hvw : doViperAfter w f =
      fun k => (decide (k = DOKey.credentials f.GitProvider) || w k) := by
    funext k; simp [doViperAfter]
  rw [hvw] at key
  rcases hcr : w (DOKey.credentials f.GitProvider)
  · rcases hi : e.initializeGitProvider with _ | ierr
    swap
    · simpa [createDigitalocean, provisionCluster, hf, hc, hv, hk, hg, hcr, hi, doValidated]
        using hInit f ierr hf hc hv hk hg hcr hi
    have := key (Or.inr hi)
    simpa [createDigitalocean, provisionCluster, hf, hc, hv, hk, hg, hcr, hi, doValidated,
      doGitEvents] using this
  · have := key (Or.inl hcr)
    simpa [createDigitalocean, provisionCluster, hf, hc, hv, hk, hg, hcr, doValidated,
      doGitEvents] using this

theorem doValidated_no_write (e : DOEnv) (f : CliFlags) (x : DOEvent)
    (hx : x ∈ doValidated e f) :
    x ≠ DOEvent.CreateK1ClusterDirectory ∧ (∀ q, x ≠ DOEvent.InitializeGitProvider q) ∧
    (∀ k b, x ≠ DOEvent.ViperSet k b) ∧ x ≠ DOEvent.WriteConfig ∧
    (∀ t, x ≠ DOEvent.LaunchUp t) ∧ x ≠ DOEvent.CreateMgmtCluster ∧
    x ≠ DOEvent.IsAppAvailable := by
  simp only [doValidated, List.mem_append, List.mem_cons, List.mem_singleton,
    List.not_mem_nil, or_false] at hx
  rcases hx with (h | h | h) | h
  · simp [h]
  · simp [h]
  · simp [h]
  · exact ValidateProvidedFlags_no_write e f.GitProvider x h

theorem createDigitalocean_gate_credentials (e : DOEnv) (w : DOKey → Bool) (f : CliFlags)
    (hf : e.getFlags = .ok f) (hw : w (DOKey.credentials f.GitProvider) = true) (p : String) :
    DOEvent.InitializeGitProvider p ∉ (createDigitalocean e w).2.trace := by
  have hv : ∀ f1, DOEvent.InitializeGitProvider p ∉ doValidated e f1 :=
    fun f1 h => (doValidated_no_write e f1 _ h).2.1 p rfl
  apply createDigitalocean_cases e w (fun r => DOEvent.InitializeGitProvider p ∉ r.2.trace)
  case hInit =>
    intro f1 err h1 _ _ _ _ h6 _
    rw [hf] at h1
    cases h1
    rw [hw] at h6
    cases h6
  all_goals intros
  all_goals simp_all [doGitEvents, doLaunchEvents]

theorem createDigitalocean_gate_launch (e : DOEnv) (w : DOKey → Bool)
    (hw : w DOKey.launchDeployed = true) (t : Bool) :
    DOEvent.LaunchUp t ∉ (createDigitalocean e w).2.trace := by
  have hv : ∀ f1, DOEvent.LaunchUp t ∉ doValidated e f1 :=
    fun f1 h => (doValidated_no_write e f1 _ h).2.2.2.2.1 t rfl
  apply createDigitalocean_cases e w (fun r => DOEvent.LaunchUp t ∉ r.2.trace)
  all_goals intros
  all_goals simp_all [doGitEvents, doLaunchEvents]

theorem createDigitalocean_after_write (e : DOEnv) (w : DOKey → Bool)
    (hm : DOEvent.WriteConfig ∈ (createDigitalocean e w).2.trace) :
    DOEvent.IsAppAvailable ∈ (createDigitalocean e w).2.trace ∧
    (e.isAppAvailable = none → DOEvent.CreateMgmtCluster ∈ (createDigitalocean e w).2.trace) := by
  have hv : ∀ f1, DOEvent.WriteConfig ∉ doValidated e f1 :=
    fun f1 h => (doValidated_no_write e f1 _ h).2.2.2.1 rfl
  revert hm
  apply createDigitalocean_cases e w (fun r => DOEvent.WriteConfig ∈ r.2.trace →
    DOEvent.IsAppAvailable ∈ r.2.trace ∧
    (e.isAppAvailable = none → DOEvent.CreateMgmtCluster ∈ r.2.trace))
  all_goals intros
  all_goals simp_all [doGitEvents, doLaunchEvents]

/-- C1 (checkpoint gating).  In `create-gitlab`, a checkpoint key that is true
    in the configuration keeps the calls of its phase out of the whole run
    (`AddGitlabOidcApplications`, `PushGitRepo`, `PatchSecret`,
    `ChangeRegistryToGitLab` and `SyncRetry`), and a phase reached in any state
    in which its key is true only reports progress.  In `createDigitalocean`,
    `kubefirst-checks.<provider>-credentials = true` keeps
    `InitializeGitProvider` out of the run, and `launch.deployed = true` keeps
    `launch.Up` out of it while a run that gets past the git provider phase
    still checks the API availability and, if that succeeds, calls
    `CreateMgmtCluster`. -/
theorem c1_checkpoint_gating (c : Collab) (v : Key → Bool) (g : GlobalFlags) (s : St)
    (e : DOEnv) (w : DOKey → Bool) (f : CliFlags) :
    (v Key.gitlabOidcCreated = true →
      ∀ d, Event.AddGitlabOidcApplications d ∉ (RunE c v).2.trace) ∧
    (v Key.gitlabGitopsPushed = true → ∀ d, Event.PushGitRepo d ∉ (RunE c v).2.trace) ∧
    (v Key.argocdOidcPatched = true → Event.PatchSecret ∉ (RunE c v).2.trace) ∧
    (v Key.gitlabRegistered = true →
      (∀ d, Event.ChangeRegistryToGitLab d ∉ (RunE c v).2.trace) ∧
      ∀ a i, Event.SyncRetry a i ∉ (RunE c v).2.trace) ∧
    (s.viper Key.gitlabOidcCreated = true →
      oidcCreatedPhase g s = (.ok (), { s with trace := s.trace ++
        [Event.AddTracker Tracker.stepPostGitlab 3,
         Event.IncrementTracker Tracker.stepPostGitlab 1] })) ∧
    (s.viper Key.gitlabGitopsPushed = true →
      gitopsPushedPhase g s = (.ok (), { s with trace := s.trace ++
        [Event.IncrementTracker Tracker.stepPostGitlab 1] })) ∧
    (s.viper Key.argocdOidcPatched = true → oidcPatchedPhase g s = (.ok (), s)) ∧
    (s.viper Key.gitlabRegistered = true →
      registeredPhase c g s = (.ok (), { s with trace := s.trace ++
        [Event.IncrementTracker Tracker.stepPostGitlab 1] })) ∧
    (e.getFlags = .ok f → w (DOKey.credentials f.GitProvider) = true →
      ∀ p, DOEvent.InitializeGitProvider p ∉ (createDigitalocean e w).2.trace) ∧
    (w DOKey.launchDeployed = true →
      (∀ t, DOEvent.LaunchUp t ∉ (createDigitalocean e w).2.trace) ∧
      (DOEvent.WriteConfig ∈ (createDigitalocean e w).2.trace →
        DOEvent.IsAppAvailable ∈ (createDigitalocean e w).2.trace ∧
        (e.isAppAvailable = none →
          DOEvent.CreateMgmtCluster ∈ (createDigitalocean e w).2.trace))) := by
  refine ⟨?_, ?_, ?_, ?_, ?_, ?_, ?_, ?_, ?_, ?_⟩
  · intro h d
    exact RunE_not_mem c v _ (by intro g1; simp [allowed, h]) (by simp)
  · intro h d
    exact RunE_not_mem c v _ (by intro g1; simp [allowed, h]) (by simp)
  · intro h
    exact RunE_not_mem c v _ (by intro g1; simp [allowed, h]) (by simp)
  · intro h
    exact ⟨fun d => RunE_not_mem c v _ (by intro g1; simp [allowed, h]) (by simp),
      fun a i => RunE_not_mem c v _ (by intro g1; simp [allowed, h]) (by simp)⟩
  · intro h
    simp [oidcCreatedPhase, h]
  · intro h
    simp [gitopsPushedPhase, h]
  · intro h
    simp [oidcPatchedPhase, h]
  · intro h
    simp [registeredPhase, h]
  · intro hf hw p
    exact createDigitalocean_gate_credentials e w f hf hw p
  · intro hw
    exact ⟨fun t => createDigitalocean_gate_launch e w hw t,
      fun hm => createDigitalocean_after_write e w hm⟩

/-- C1, at a run of `create-gitlab` on a configuration with every checkpoint
    reached and a run of `createDigitalocean` resumed after the launch. -/
theorem c1_checkpoint_gating_witness :
    Event.AddGitlabOidcApplications false ∉ (RunE (smoothCollab false) doneViper).2.trace ∧
    Event.PushGitRepo false ∉ (RunE (smoothCollab false) doneViper).2.trace ∧
    Event.PatchSecret ∉ (RunE (smoothCollab false) doneViper).2.trace ∧
    Event.ChangeRegistryToGitLab false ∉ (RunE (smoothCollab false) doneViper).2.trace ∧
    Event.SyncRetry 120 5 ∉ (RunE (smoothCollab false) doneViper).2.trace ∧
    (oidcPatchedPhase { DryRun := false, UseTelemetry := true, SilentMode := false }
      (initial doneViper)).2.trace = [] ∧
    DOEvent.InitializeGitProvider "github" ∉ (createDigitalocean smoothDO resumedDOViper).2.trace ∧
    DOEvent.LaunchUp true ∉ (createDigitalocean smoothDO resumedDOViper).2.trace ∧
    DOEvent.IsAppAvailable ∈ (createDigitalocean smoothDO resumedDOViper).2.trace ∧
    DOEvent.CreateMgmtCluster ∈ (createDigitalocean smoothDO resumedDOViper).2.trace := by
  have h := c1_checkpoint_gating (smoothCollab false) doneViper
    { DryRun := false, UseTelemetry := true, SilentMode := false } (initial doneViper)
    smoothDO resumedDOViper { GitProvider := "github", UseTelemetry := true }
  obtain ⟨h1, h2, h3, h4, _, _, h7, _, h9, h10⟩ := h
  have hw : DOEvent.WriteConfig ∈ (createDigitalocean smoothDO resumedDOViper).2.trace := by
    decide
  refine ⟨h1 rfl false, h2 rfl false, h3 rfl, (h4 rfl).1 false, (h4 rfl).2 120 5, ?_,
    h9 rfl rfl "github", (h10 rfl).1 true, ((h10 rfl).2 hw).1, ((h10 rfl).2 hw).2 rfl⟩
  rw [h7 rfl]
  rfl

/-! ### Fail-fast: the body stops at the first reported error -/

theorem NoRep.append {c : Collab} {t : List Event} (hs : NoRep c t) {l : List Event}
    (hl : NoRep c l) : NoRep c (t ++ l) := by
  unfold NoRep at *
  rw [List.all_append, hs, hl]; rfl

theorem NoRep.stopped {c : Collab} {s s1 : St} {a : Abort} (hs : NoRep c s.trace)
    (l : List Event) (ht : s1.trace = s.trace ++ l) (hne : l ≠ [])
    (hl : NoRep c l.dropLast)
    (hx : ∀ e, a = Abort.ret e → l.getLast?.bind (reported c) = some e)
    (hp : a = Abort.panic → l.getLast?.bind (reported c) = none ∨
      l.getLast?.any (nilCommand c) = true) :
    StoppedAt c a s1 := by
  refine ⟨?_, ?_, ?_, ?_⟩
  · rw [ht]; simp [hne]
  · rw [ht, List.dropLast_append_of_ne_nil _ hne]
    unfold NoRep at *
    rw [List.all_append, hs, hl]; rfl
  · intro e he
    rw [ht, List.getLast?_append_of_ne_nil _ hne]
    exact hx e he
  · intro ha
    rw [ht, List.getLast?_append_of_ne_nil _ hne]
    exact hp ha

theorem softServeLoop_failfast (c : Collab) (d : Bool) :
    ∀ (n i : Nat), Triple (fun s => NoRep c s.trace) (softServeLoop c d n i)
      (fun _ s => NoRep c s.trace) (StoppedAt c)
  | 0, i => by
    intro s hs
    simpa [softServeLoop] using hs
  | n + 1, i => by
    intro s hs
    have ih := softServeLoop_failfast c d n (i + 1)
    unfold softServeLoop
    rcases hp : c.portForward (PFSite.softServe i) with ⟨_ | h, _ | e⟩ <;>
      rcases hsc : c.softserveConfigure i <;>
      rcases hcf : c.configureSoftServeAndPush i with _ | e2 <;>
      simp [hp, hsc, hcf] <;>
      first
        | exact hs.append (by simp [NoRep, reported, panicked, hp])
        | exact hs.stopped _ rfl (by simp) (by simp [NoRep, reported, panicked, hp])
            (by simp [reported, hp])
            (by simp [reported, nilCommand, hp])
        | exact ih _ (hs.append (by simp [NoRep, reported, panicked, hp]))
theorem prepareTemporaryRepo_failfast (c : Collab) (g : GlobalFlags) :
    Triple (fun s => NoRep c s.trace) (prepareTemporaryRepo c g)
      (fun _ s => NoRep c s.trace) (StoppedAt c) := by
  intro s hs
  unfold prepareTemporaryRepo
  rcases hc : c.getClientSet with _ | e <;> simp [hc]
  · exact hs.append (by simp [NoRep, reported, panicked, hc])
  · exact hs.stopped _ rfl (by simp) (by simp [NoRep, reported, panicked]) (by simp)
            (by simp [reported, nilCommand])

theorem deployArgocd_failfast (c : Collab) (g : GlobalFlags) :
    Triple (fun s => NoRep c s.trace) (deployArgocd c g)
      (fun _ s => NoRep c s.trace) (StoppedAt c) := by
  intro s hs
  unfold deployArgocd
  rcases h1 : c.installArgocd with _ | e
  · rcases hd : g.DryRun
    · rcases h3 : c.portForward PFSite.argocd with ⟨_ | h, _ | e3⟩ <;>
        simp [h1, h3, hd] <;>
        first
          | exact hs.append (by simp [NoRep, reported, panicked, h1, h3])
          | exact hs.stopped _ rfl (by simp) (by simp [NoRep, reported, panicked, h1, h3])
              (by simp [reported, h3])
              (by simp [reported, nilCommand, h1, h3])
    · simp [h1, hd]
      exact hs.append (by simp [NoRep, reported, panicked, h1])
  · simp [h1]
    exact hs.stopped _ rfl (by simp) (by simp [NoRep, reported, panicked]) (by simp [reported, h1])
            (by simp [reported, nilCommand])

theorem adoptRegistry_failfast (c : Collab) (g : GlobalFlags) :
    Triple (fun s => NoRep c s.trace) (adoptRegistry c g)
      (fun _ s => NoRep c s.trace) (StoppedAt c) := by
  intro s hs
  unfold adoptRegistry
  rcases hd : g.DryRun <;> rcases h2 : c.execShellKubectlApply with _ | e2 <;>
    simp [h2, hd] <;>
    first
      | exact hs.append (by simp [NoRep, reported, panicked, h2])
      | exact hs.stopped _ rfl (by simp) (by simp [NoRep, reported, panicked]) (by simp)
            (by simp [reported, nilCommand])

theorem awaitVault_failfast (c : Collab) (g : GlobalFlags) :
    Triple (fun s => NoRep c s.trace) (awaitVault c g)
      (fun _ s => NoRep c s.trace) (StoppedAt c) := by
  intro s hs
  unfold awaitVault
  rcases hd : g.DryRun
  · rcases h3 : c.portForward PFSite.vault with ⟨_ | h, _ | e3⟩ <;>
      simp [h3, hd] <;>
      first
        | exact hs.append (by simp [NoRep, reported, panicked, h3])
        | exact hs.stopped _ rfl (by simp) (by simp [NoRep, reported, panicked, h3])
            (by simp [reported, h3])
            (by simp [reported, nilCommand, h3])
  · simp [hd]
    exact hs.append (by simp [NoRep, reported, panicked])

theorem awaitGitlab_failfast (c : Collab) (g : GlobalFlags) :
    Triple (fun s => NoRep c s.trace) (awaitGitlab c g)
      (fun _ s => NoRep c s.trace) (StoppedAt c) := by
  intro s hs
  unfold awaitGitlab
  rcases hd : g.DryRun
  · rcases h3 : c.portForward PFSite.gitlab with ⟨_ | h, _ | e3⟩ <;>
      simp [h3, hd] <;>
      first
        | exact hs.append (by simp [NoRep, reported, panicked, h3])
        | exact hs.stopped _ rfl (by simp) (by simp [NoRep, reported, panicked, h3])
            (by simp [reported, h3])
            (by simp [reported, nilCommand, h3])
  · simp [hd]
    exact hs.append (by simp [NoRep, reported, panicked])

theorem setupGitlab_failfast (c : Collab) (g : GlobalFlags) (skipGitlab : Bool) :
    Triple (fun s => NoRep c s.trace) (setupGitlab g skipGitlab)
      (fun _ s => NoRep c s.trace) (StoppedAt c) := by
  intro s hs
  unfold setupGitlab
  rcases skipGitlab <;> simp <;> exact hs.append (by simp [NoRep, reported, panicked])

theorem configureVault_failfast (c : Collab) (g : GlobalFlags) (skipVault : Bool) :
    Triple (fun s => NoRep c s.trace) (configureVault g skipVault)
      (fun _ s => NoRep c s.trace) (StoppedAt c) := by
  intro s hs
  unfold configureVault
  rcases skipVault <;> simp
  · exact hs.append (by simp [NoRep, reported, panicked])
  · exact hs

theorem oidcCreatedPhase_failfast (c : Collab) (g : GlobalFlags) :
    Triple (fun s => NoRep c s.trace) (oidcCreatedPhase g)
      (fun _ s => NoRep c s.trace) (StoppedAt c) := by
  intro s hs
  unfold oidcCreatedPhase
  rcases hk : s.viper Key.gitlabOidcCreated <;> simp [hk] <;>
    exact hs.append (by simp [NoRep, reported, panicked])

theorem gitopsPushedPhase_failfast (c : Collab) (g : GlobalFlags) :
    Triple (fun s => NoRep c s.trace) (gitopsPushedPhase g)
      (fun _ s => NoRep c s.trace) (StoppedAt c) := by
  intro s hs
  unfold gitopsPushedPhase
  rcases hk : s.viper Key.gitlabGitopsPushed <;> simp [hk] <;>
    exact hs.append (by simp [NoRep, reported, panicked])

theorem oidcPatchedPhase_failfast (c : Collab) (g : GlobalFlags) :
    Triple (fun s => NoRep c s.trace) (oidcPatchedPhase g)
      (fun _ s => NoRep c s.trace) (StoppedAt c) := by
  intro s hs
  unfold oidcPatchedPhase
  rcases hk : s.viper Key.argocdOidcPatched <;> rcases hd : g.DryRun <;> simp [hk, hd]
  · exact hs.append (by simp [NoRep, reported, panicked])
  all_goals exact hs

theorem registeredPhase_failfast (c : Collab) (g : GlobalFlags) :
    Triple (fun s => NoRep c s.trace) (registeredPhase c g)
      (fun _ s => NoRep c s.trace) (StoppedAt c) := by
  intro s hs
  unfold registeredPhase
  rcases hk : s.viper Key.gitlabRegistered
  · rcases hd : g.DryRun
    · rcases ha : s.kPortForwardArgocd with _ | h0
      · simp [hk, hd, ha]
        exact hs.stopped _ rfl (by simp) (by simp [NoRep, reported, panicked]) (by simp)
            (by simp [reported, nilCommand])
      · rcases h3 : c.portForward PFSite.argocdAgain with ⟨_ | h, _ | e3⟩ <;>
          simp [hk, hd, ha, h3] <;>
          first
            | exact hs.append (by simp [NoRep, reported, panicked, h3])
            | exact hs.stopped _ rfl (by simp) (by simp [NoRep, reported, panicked, h3])
                (by simp [reported, h3])
                (by simp [reported, nilCommand, h3])
    · simp [hk, hd]
      exact hs.append (by simp [NoRep, reported, panicked])
  · simp [hk]
    exact hs.append (by simp [NoRep, reported, panicked])

theorem awaitArgocdHostLoop_failfast (c : Collab) (d : Bool) :
    ∀ (n i : Nat), Triple (fun s => NoRep c s.trace) (awaitArgocdHostLoop c d n i)
      (fun _ s => NoRep c s.trace) (StoppedAt c)
  | 0, i => by
    intro s hs
    simpa [awaitArgocdHostLoop] using hs
  | n + 1, i => by
    intro s hs
    have ih := awaitArgocdHostLoop_failfast c d n (i + 1)
    unfold awaitArgocdHostLoop
    rcases ha : c.awaitHostNTimes i <;> simp [ha]
    · exact ih _ (hs.append (by simp [NoRep, reported, panicked]))
    · exact hs.append (by simp [NoRep, reported, panicked])

theorem awaitArgocdHost_failfast (c : Collab) (g : GlobalFlags) :
    Triple (fun s => NoRep c s.trace) (awaitArgocdHost c g)
      (fun _ s => NoRep c s.trace) (StoppedAt c) := by
  intro s hs
  unfold awaitArgocdHost
  rcases hd : g.DryRun <;> simp
  · exact awaitArgocdHostLoop_failfast c false 14 1 s hs
  · exact hs

theorem configureVaultBackend_failfast (c : Collab) (g : GlobalFlags) (skipVault : Bool) :
    Triple (fun s => NoRep c s.trace) (configureVaultBackend g skipVault)
      (fun _ s => NoRep c s.trace) (StoppedAt c) := by
  intro s hs
  unfold configureVaultBackend
  rcases skipVault <;> simp
  · exact hs.append (by simp [NoRep, reported, panicked])
  · exact hs

theorem runWithFlags_failfast (c : Collab) (skipVault skipGitlab : Bool) (g : GlobalFlags) :
    Triple (fun s => NoRep c s.trace) (runWithFlags c skipVault skipGitlab g)
      (fun _ s => NoRep c s.trace) (StoppedAt c) :=
  runWithFlags_inv (prepareTemporaryRepo_failfast c g) (softServeLoop_failfast c g.DryRun 10 0)
    (deployArgocd_failfast c g) (adoptRegistry_failfast c g) (awaitVault_failfast c g)
    (awaitGitlab_failfast c g) (setupGitlab_failfast c g skipGitlab)
    (configureVault_failfast c g skipVault) (oidcCreatedPhase_failfast c g)
    (gitopsPushedPhase_failfast c g) (oidcPatchedPhase_failfast c g)
    (registeredPhase_failfast c g) (awaitArgocdHost_failfast c g)
    (configureVaultBackend_failfast c g skipVault)

/-- How `RunE` ends: its trace is the trace of the body followed by SIGTERM
    signals, and either no call of the body reported an error and the run does
    not return one, or the body stopped right after its last call. -/
theorem RunE_failfast (c : Collab) (v : Key → Bool) :
    ∃ pre sigs, (RunE c v).2.trace = pre ++ sigs ∧ sigs.all Event.isSignal = true ∧
      ((NoRep c pre ∧ ((RunE c v).1 = Outcome.nil ∨ (RunE c v).1 = Outcome.panic)) ∨
       (pre ≠ [] ∧ NoRep c pre.dropLast ∧
        ((RunE c v).1 = Outcome.panic ∨
          ∃ e, (RunE c v).1 = Outcome.err e ∧ pre.getLast?.bind (reported c) = some e) ∧
        ∀ e, (RunE c v).1 = Outcome.err e → pre.getLast?.bind (reported c) = some e)) := by
  rcases h1 : c.getBoolSkipVault with e | skipVault
  · refine ⟨[], [], ?_, rfl, Or.inl ⟨rfl, Or.inr ?_⟩⟩ <;>
      simp [RunE, body_of_skipVault_error c e h1, initial, runDefers, outcomeOf]
  rcases h2 : c.getBoolSkipGitlab with e | skipGitlab
  · refine ⟨[], [], ?_, rfl, Or.inl ⟨rfl, Or.inr ?_⟩⟩ <;>
      simp [RunE, body_of_skipGitlab_error c skipVault e h1 h2, initial, runDefers, outcomeOf]
  rcases h3 : c.processGlobalFlags with e | g
  · refine ⟨[Event.ProcessGlobalFlags], [], ?_, rfl, Or.inr ⟨by simp, rfl, Or.inr ⟨e, ?_, ?_⟩, ?_⟩⟩ <;>
      simp [RunE, body_of_flags_error c skipVault skipGitlab e h1 h2 h3, initial, runDefers,
        outcomeOf, reported, h3]
  have h0 : NoRep c (afterParameters g v).trace := by
    simp [afterParameters, NoRep, reported, panicked, h3]
  have hb := runWithFlags_failfast c skipVault skipGitlab g _ h0
  rw [← body_of_flags c skipVault skipGitlab g h1 h2 h3] at hb
  obtain ⟨_, _, sigs, k3, k4⟩ :=
    runDefers_spec (body c (initial v)).2.defers (body c (initial v)).2
  refine ⟨(body c (initial v)).2.trace, sigs, by simp only [RunE]; exact k3, k4, ?_⟩
  rcases hr : body c (initial v) with ⟨r, s1⟩
  rw [hr] at hb
  simp only [RunE, hr]
  rcases r with a | u
  · right
    obtain ⟨n1, n2, n3, _⟩ := hb
    refine ⟨n1, n2, ?_, ?_⟩
    · cases a with
      | panic => left; rfl
      | ret e =>
        cases hp : (runDefers s1.defers s1).1
        · right; exact ⟨e, by simp [outcomeOf, hp], n3 e rfl⟩
        · left; simp [outcomeOf, hp]
    · intro e he
      cases a with
      | panic => simp [outcomeOf] at he
      | ret e1 =>
        cases hp : (runDefers s1.defers s1).1 <;> simp [outcomeOf, hp] at he
        subst he
        exact n3 e1 rfl
  · left
    refine ⟨hb, ?_⟩
    cases hp : (runDefers s1.defers s1).1 <;> simp [outcomeOf, hp]

/-! ### Fail-fast in `createDigitalocean` -/

theorem doValidated_reported (e : DOEnv) (f f1 : CliFlags) (hf : e.getFlags = .ok f)
    (hc : e.validateCatalogApps.2 = none) :
    ∀ x ∈ doValidated e f1, doReported e x = none := by
  intro x hx
  simp only [doValidated, List.mem_append, List.mem_cons, List.mem_singleton,
    List.not_mem_nil, or_false] at hx
  rcases hx with (h | h | h) | h
  · simp [h, doReported, hf]
  · simp [h, doReported]
  · simp [h, doReported, hc]
  · rcases ValidateProvidedFlags_events e f1.GitProvider x h with h | h | ⟨q, h⟩ <;>
      simp [h, doReported]

theorem doReported_stop (e : DOEnv) (t : List DOEvent) (y : DOEvent) (post : List DOEvent)
    (msg : String) (cause0 : GoError) (ht : ∀ x ∈ t, doReported e x = none)
    (hy : doReported e y = some cause0)
    (hpost : post = [] ∨ post = [DOEvent.ProgressError]) :
    ∀ x cause, x ∈ t ++ y :: post → doReported e x = some cause →
      ∃ m pre post1, some (GoError.wrap msg cause0) = some (GoError.wrap m cause) ∧
        t ++ y :: post = pre ++ x :: post1 ∧ (post1 = [] ∨ post1 = [DOEvent.ProgressError]) := by
  intro x cause hx hr
  rcases List.mem_append.mp hx with h | h
  · rw [ht x h] at hr; cases hr
  · rcases List.mem_cons.mp h with h | h
    · subst h
      rw [hy] at hr
      cases hr
      exact ⟨msg, t, post, rfl, rfl, hpost⟩
    · rcases hpost with hp | hp
      · rw [hp] at h; cases h
      · rw [hp] at h
        rw [List.mem_singleton.mp h] at hr
        simp [doReported] at hr

theorem doGitEvents_reported (e : DOEnv) (w : DOKey → Bool) (f : CliFlags)
    (hg : e.validateGitCredentials = none)
    (hci : w (DOKey.credentials f.GitProvider) = true ∨ e.initializeGitProvider = none) :
    ∀ x ∈ doGitEvents w f, doReported e x = none := by
  intro x hx
  unfold doGitEvents at hx
  rcases hci with h | h
  · simp [h] at hx
    rcases hx with h1 | h1 | h1 | h1 <;> simp [h1, doReported, hg]
  · cases hw : w (DOKey.credentials f.GitProvider) <;> simp [hw] at hx
    · rcases hx with h1 | h1 | h1 | h1 | h1 <;> simp [h1, doReported, hg, h]
    · rcases hx with h1 | h1 | h1 | h1 <;> simp [h1, doReported, hg]

theorem createDigitalocean_failfast (e : DOEnv) (w : DOKey → Bool) :
    ∀ x cause, x ∈ (createDigitalocean e w).2.trace → doReported e x = some cause →
      ∃ msg pre post, (createDigitalocean e w).1 = some (GoError.wrap msg cause) ∧
        (createDigitalocean e w).2.trace = pre ++ x :: post ∧
        (post = [] ∨ post = [DOEvent.ProgressError]) := by
  apply createDigitalocean_cases e w (fun r =>
    ∀ x cause, x ∈ r.2.trace → doReported e x = some cause →
      ∃ msg pre post, r.1 = some (GoError.wrap msg cause) ∧
        r.2.trace = pre ++ x :: post ∧ (post = [] ∨ post = [DOEvent.ProgressError]))
  case hFlags =>
    intro err hf
    exact doReported_stop e [] DOEvent.GetFlags [DOEvent.ProgressError] _ err
      (by simp) (by simp [doReported, hf]) (Or.inr rfl)
  case hCatalog =>
    intro f err hf hc
    exact doReported_stop e [DOEvent.GetFlags, DOEvent.DisplayLogHints]
      DOEvent.ValidateCatalogApps [] _ err
      (by simp [doReported, hf]) (by simp [doReported, hc]) (Or.inl rfl)
  case hInvalid =>
    intro f hf hc x cause hx hr
    simp at hx
    rcases hx with h | h | h <;> simp [h, doReported, hf, hc] at hr
  case hValidate =>
    intro f err hf hc hv x cause hx hr
    have hd := doValidated_reported e f f hf (by simp [hc])
    simp only [List.mem_append, List.mem_singleton] at hx
    rcases hx with h | h
    · rw [hd x h] at hr; cases hr
    · simp [h, doReported] at hr
  case hComplete =>
    intro f hf hc hv hk x cause hx hr
    have hd := doValidated_reported e f f hf (by simp [hc])
    simp only [List.mem_append, List.mem_singleton] at hx
    rcases hx with h | h
    · rw [hd x h] at hr; cases hr
    · simp [h, doReported] at hr
  case hGit =>
    intro f err hf hc hv hk hg
    have hd := doValidated_reported e f f hf (by simp [hc])
    have := doReported_stop e (doValidated e f ++ [DOEvent.CreateK1ClusterDirectory])
      (DOEvent.ValidateGitCredentials f.GitProvider) [DOEvent.ProgressError]
      "failed to validate git credentials" err
      (by
        intro x hx
        rcases List.mem_append.mp hx with h | h
        · exact hd x h
        · simp at h; simp [h, doReported])
      (by simp [doReported, hg]) (Or.inr rfl)
    simpa using this
  case hInit =>
    intro f err hf hc hv hk hg hcr hi
    have hd := doValidated_reported e f f hf (by simp [hc])
    have := doReported_stop e (doValidated e f ++ [DOEvent.CreateK1ClusterDirectory,
        DOEvent.ValidateGitCredentials f.GitProvider])
      (DOEvent.InitializeGitProvider f.GitProvider) [DOEvent.ProgressError]
      "failed to initialize git provider" err
      (by
        intro x hx
        rcases List.mem_append.mp hx with h | h
        · exact hd x h
        · simp at h; rcases h with h | h <;> simp [h, doReported, hg])
      (by simp [doReported, hi]) (Or.inr rfl)
    simpa using this
  case hAvail =>
    intro f err hf hc hv hk hg hci ha
    have hd := doValidated_reported e f f hf (by simp [hc])
    have hgit := doGitEvents_reported e w f hg hci
    have := doReported_stop e (doValidated e f ++ doGitEvents w f ++
        (if !w DOKey.launchDeployed && !e.isK1Debug then [DOEvent.LaunchUp f.UseTelemetry]
         else []))
      DOEvent.IsAppAvailable [DOEvent.ProgressError]
      "failed to check app availability for Kubefirst API" err
      (by
        intro x hx
        rcases List.mem_append.mp hx with h | h
        · rcases List.mem_append.mp h with h | h
          · exact hd x h
          · exact hgit x h
        · split at h
          · simp at h; simp [h, doReported]
          · cases h)
      (by simp [doReported, ha]) (Or.inr rfl)
    simpa [doLaunchEvents, List.append_assoc] using this
  case hMgmt =>
    intro f err hf hc hv hk hg hci ha hm
    have hd := doValidated_reported e f f hf (by simp [hc])
    have hgit := doGitEvents_reported e w f hg hci
    have := doReported_stop e (doValidated e f ++ doGitEvents w f ++ doLaunchEvents e w f)
      DOEvent.CreateMgmtCluster [DOEvent.ProgressError]
      "failed to create management cluster" err
      (by
        intro x hx
        rcases List.mem_append.mp hx with h | h
        · rcases List.mem_append.mp h with h | h
          · exact hd x h
          · exact hgit x h
        · unfold doLaunchEvents at h
          rcases List.mem_append.mp h with h | h
          · split at h
            · simp at h; simp [h, doReported]
            · cases h
          · simp at h; simp [h, doReported, ha])
      (by simp [doReported, hm]) (Or.inr rfl)
    simpa [List.append_assoc] using this
  case hOk =>
    intro f hf hc hv hk hg hci ha hm x cause hx hr
    have hd := doValidated_reported e f f hf (by simp [hc])
    have hgit := doGitEvents_reported e w f hg hci
    simp only [List.mem_append, List.mem_singleton] at hx
    rcases hx with ((h | h) | h) | h
    · rw [hd x h] at hr; cases hr
    · rw [hgit x h] at hr; cases hr
    · unfold doLaunchEvents at h
      rcases List.mem_append.mp h with h | h
      · split at h
        · simp at h; simp [h, doReported] at hr
        · cases h
      · simp at h; simp [h, doReported, ha] at hr
    · simp [h, doReported, hm] at hr

/-! ### C2 -/

theorem reported_of_isSignal (c : Collab) (x : Event) (h : x.isSignal = true) :
    reported c x = none := by
  cases x <;> first | rfl | (simp [Event.isSignal] at h)

/-- C2 as stated fails.  In `create-gitlab`, `ConfigureSoftServeAndPush`
    reports an error at the first attempt, yet the run goes on to later
    operations (the argocd install among them) and returns nil.  In
    `createDigitalocean`, `InitializeGitProvider` reports an error and the run
    returns another error value, the one wrapping it. -/
theorem c2_fail_fast_counterexample :
    flakySoftServe.configureSoftServeAndPush 0 = some (GoError.collab 7) ∧
    Event.ConfigureSoftServeAndPush false ∈ (RunE flakySoftServe freshViper).2.trace ∧
    Event.InstallArgocd false ∈ (RunE flakySoftServe freshViper).2.trace ∧
    (RunE flakySoftServe freshViper).1 = Outcome.nil ∧
    failingGitInit.initializeGitProvider = some (GoError.collab 9) ∧
    DOEvent.InitializeGitProvider "github" ∈
      (createDigitalocean failingGitInit freshDOViper).2.trace ∧
    (createDigitalocean failingGitInit freshDOViper).1 ≠ some (GoError.collab 9) := by
  decide!

/-! ### C3 and C4 -/

theorem RunE_viper_mono (c : Collab) (v : Key → Bool) (k : Key) (hk : v k = true) :
    (RunE c v).2.viper k = true := by
  rcases h1 : c.getBoolSkipVault with e1 | skipVault
  · simpa [RunE, body_of_skipVault_error c e1 h1, initial, runDefers] using hk
  rcases h2 : c.getBoolSkipGitlab with e1 | skipGitlab
  · simpa [RunE, body_of_skipGitlab_error c skipVault e1 h1 h2, initial, runDefers] using hk
  rcases h3 : c.processGlobalFlags with e1 | g
  · simpa [RunE, body_of_flags_error c skipVault skipGitlab e1 h1 h2 h3, initial, runDefers]
      using hk
  rcases RunE_allowed c v with ⟨g1, _, hI⟩ | h0 | h0
  · exact hI.1 k hk
  · have hb := body_of_flags c skipVault skipGitlab g h1 h2 h3 v
    have h4 := runWithFlags_allowed c skipVault skipGitlab g v _
      (show AllowedInv g v (afterParameters g v) from
        ⟨fun _ h => h, by simp [afterParameters, allowed]⟩)
    rw [← hb] at h4
    obtain ⟨k1, _, _⟩ := runDefers_spec (body c (initial v)).2.defers (body c (initial v)).2
    simp only [RunE]
    rw [k1]
    rcases hr : body c (initial v) with ⟨r, s1⟩
    rw [hr] at h4
    cases r <;> exact h4.1 k hk
  · have hb := body_of_flags c skipVault skipGitlab g h1 h2 h3 v
    have h4 := runWithFlags_allowed c skipVault skipGitlab g v _
      (show AllowedInv g v (afterParameters g v) from
        ⟨fun _ h => h, by simp [afterParameters, allowed]⟩)
    rw [← hb] at h4
    obtain ⟨k1, _, _⟩ := runDefers_spec (body c (initial v)).2.defers (body c (initial v)).2
    simp only [RunE]
    rw [k1]
    rcases hr : body c (initial v) with ⟨r, s1⟩
    rw [hr] at h4
    cases r <;> exact h4.1 k hk

/-- C3 as stated fails.  On a configuration with every checkpoint reached, a
    `create-gitlab` run outside dry-run still applies the base terraform,
    installs argocd and applies the registry manifest; `createDigitalocean`
    with `kubefirst-checks.cluster-install-complete = true` returns an error. -/
theorem c3_idempotence_counterexample :
    Event.ApplyBaseTerraform false ∈ (RunE (smoothCollab false) doneViper).2.trace ∧
    Event.InstallArgocd false ∈ (RunE (smoothCollab false) doneViper).2.trace ∧
    Event.kubectlApplyRegistry ∈ (RunE (smoothCollab false) doneViper).2.trace ∧
    (RunE (smoothCollab false) doneViper).1 = Outcome.nil ∧
    (createDigitalocean smoothDO (fun _ => true)).1 =
      some (GoError.new "this cluster install process has already completed successfully") := by
  decide!

/-- C3, amended.  On a configuration in which every checkpoint key is true, a
    `create-gitlab` run makes none of the calls of its checkpointed phases
    (`AddGitlabOidcApplications`, `PushGitRepo`, `PatchSecret`,
    `ChangeRegistryToGitLab`, `SyncRetry`) and writes nothing to the
    configuration, which is unchanged at the end; `createDigitalocean` with
    `kubefirst-checks.cluster-install-complete = true` returns an error and
    makes none of the calls `CreateK1ClusterDirectory`, `InitializeGitProvider`,
    `viper.Set`, `viper.WriteConfig`, `launch.Up`, `CreateMgmtCluster`. -/
theorem c3_idempotence_amended (c : Collab) (v : Key → Bool) (e : DOEnv) (w : DOKey → Bool)
    (hv : ∀ k, v k = true) (hw : w DOKey.clusterInstallComplete = true) :
    (∀ x ∈ (RunE c v).2.trace,
      (∀ d, x ≠ Event.AddGitlabOidcApplications d) ∧ (∀ d, x ≠ Event.PushGitRepo d) ∧
      x ≠ Event.PatchSecret ∧ (∀ d, x ≠ Event.ChangeRegistryToGitLab d) ∧
      (∀ a i, x ≠ Event.SyncRetry a i) ∧ (∀ k b, x ≠ Event.ViperSet k b) ∧
      x ≠ Event.WriteConfig) ∧
    (∀ k, (RunE c v).2.viper k = true) ∧
    (createDigitalocean e w).1 ≠ none ∧
    (∀ x ∈ (createDigitalocean e w).2.trace,
      x ≠ DOEvent.CreateK1ClusterDirectory ∧ (∀ q, x ≠ DOEvent.InitializeGitProvider q) ∧
      (∀ k b, x ≠ DOEvent.ViperSet k b) ∧ x ≠ DOEvent.WriteConfig ∧
      (∀ t, x ≠ DOEvent.LaunchUp t) ∧ x ≠ DOEvent.CreateMgmtCluster) := by
  refine ⟨?_, fun k => RunE_viper_mono c v k (hv k), ?_⟩
  · intro x hx
    have hn : ∀ y, (∀ g, allowed g v y = false) → y ≠ Event.ProcessGlobalFlags → x ≠ y :=
      fun y h1 h2 hxy => RunE_not_mem c v y h1 h2 (hxy ▸ hx)
    refine ⟨fun d => hn _ ?_ (by simp), fun d => hn _ ?_ (by simp), hn _ ?_ (by simp),
      fun d => hn _ ?_ (by simp), fun a i => hn _ ?_ (by simp),
      fun k b => hn _ ?_ (by simp), hn _ ?_ (by simp)⟩ <;>
      intro g <;> simp [allowed, hv]
  · apply createDigitalocean_cases e w (fun r => r.1 ≠ none ∧ ∀ x ∈ r.2.trace,
      x ≠ DOEvent.CreateK1ClusterDirectory ∧ (∀ q, x ≠ DOEvent.InitializeGitProvider q) ∧
      (∀ k b, x ≠ DOEvent.ViperSet k b) ∧ x ≠ DOEvent.WriteConfig ∧
      (∀ t, x ≠ DOEvent.LaunchUp t) ∧ x ≠ DOEvent.CreateMgmtCluster)
    case hFlags => intro err _; simp
    case hCatalog => intro f err _ _; simp
    case hInvalid => intro f _ _; simp
    case hValidate =>
      intro f err _ _ _
      refine ⟨by simp, fun x hx => ?_⟩
      rcases List.mem_append.mp hx with h | h
      · have := doValidated_no_write e f x h
        exact ⟨this.1, this.2.1, this.2.2.1, this.2.2.2.1, this.2.2.2.2.1, this.2.2.2.2.2.1⟩
      · simp at h; simp [h]
    case hComplete =>
      intro f _ _ _ _
      refine ⟨by simp, fun x hx => ?_⟩
      rcases List.mem_append.mp hx with h | h
      · have := doValidated_no_write e f x h
        exact ⟨this.1, this.2.1, this.2.2.1, this.2.2.2.1, this.2.2.2.2.1, this.2.2.2.2.2.1⟩
      · simp at h; simp [h]
    all_goals
      intros
      simp_all

/-- C3 amended, at runs on configurations with every checkpoint reached. -/
theorem c3_idempotence_amended_witness :
    Event.PatchSecret ∉ (RunE (smoothCollab false) doneViper).2.trace ∧
    Event.WriteConfig ∉ (RunE (smoothCollab false) doneViper).2.trace ∧
    (RunE (smoothCollab false) doneViper).2.viper Key.gitlabRegistered = true ∧
    (createDigitalocean smoothDO (fun _ => true)).1 ≠ none ∧
    DOEvent.CreateK1ClusterDirectory ∉ (createDigitalocean smoothDO (fun _ => true)).2.trace :=
  have h := c3_idempotence_amended (smoothCollab false) doneViper smoothDO (fun _ => true)
    (fun _ => rfl) rfl
  ⟨fun hm => (h.1 _ hm).2.2.1 rfl, fun hm => (h.1 _ hm).2.2.2.2.2.2 rfl,
    h.2.1 Key.gitlabRegistered, h.2.2.1, fun hm => (h.2.2.2 _ hm).1 rfl⟩

/-- C4 (dry-run purity).  In a `create-gitlab` run with dry-run set,
    `PatchSecret`, `DeletePodByLabel`, the kubectl apply of the registry
    manifest and `SyncRetry` are never called, and `ApplyBaseTerraform`,
    `InstallArgocd`, `ApplyGitlabTerraform` and `PushGitRepo` are called only
    with `dryRun = true`. -/
theorem c4_dry_run_purity (c : Collab) (v : Key → Bool) (g : GlobalFlags)
    (hg : c.processGlobalFlags = .ok g) (hd : g.DryRun = true) :
    ∀ x ∈ (RunE c v).2.trace,
      x ≠ Event.PatchSecret ∧ (∀ site, x ≠ Event.DeletePodByLabel site) ∧
      x ≠ Event.kubectlApplyRegistry ∧ (∀ a i, x ≠ Event.SyncRetry a i) ∧
      (∀ d, x = Event.ApplyBaseTerraform d → d = true) ∧
      (∀ d, x = Event.InstallArgocd d → d = true) ∧
      (∀ d, x = Event.ApplyGitlabTerraform d → d = true) ∧
      (∀ d, x = Event.PushGitRepo d → d = true) := by
  intro x hx
  rcases RunE_allowed c v with ⟨g1, hg1, hI⟩ | h0 | h0
  · rw [hg] at hg1
    cases hg1
    have ha := List.all_eq_true.mp hI.2 x hx
    refine ⟨?_, ?_, ?_, ?_, ?_, ?_, ?_, ?_⟩
    · rintro rfl; simp [allowed, hd] at ha
    · rintro site rfl; simp [allowed, hd] at ha
    · rintro rfl; simp [allowed, hd] at ha
    · rintro a i rfl; simp [allowed, hd] at ha
    · rintro d rfl; simpa [allowed, hd] using ha
    · rintro d rfl; simpa [allowed, hd] using ha
    · rintro d rfl; simpa [allowed, hd] using ha
    · rintro d rfl
      simp only [allowed, hd, Bool.and_eq_true, beq_iff_eq] at ha
      exact ha.1
  · rw [h0] at hx; cases hx
  · rw [h0] at hx
    rw [List.mem_singleton.mp hx]
    simp

/-- C4, at a dry run in which every collaborator succeeds. -/
theorem c4_dry_run_purity_witness :
    Event.ApplyBaseTerraform true ∈ (RunE (smoothCollab true) freshViper).2.trace ∧
    Event.ApplyBaseTerraform false ∉ (RunE (smoothCollab true) freshViper).2.trace ∧
    Event.PatchSecret ∉ (RunE (smoothCollab true) freshViper).2.trace ∧
    Event.kubectlApplyRegistry ∉ (RunE (smoothCollab true) freshViper).2.trace ∧
    Event.SyncRetry 120 5 ∉ (RunE (smoothCollab true) freshViper).2.trace :=
  have h := c4_dry_run_purity (smoothCollab true) freshViper
    { DryRun := true, UseTelemetry := true, SilentMode := false } rfl rfl
  ⟨by decide!, fun hm => Bool.noConfusion ((h _ hm).2.2.2.2.1 false rfl),
    fun hm => (h _ hm).1 rfl, fun hm => (h _ hm).2.2.1 rfl,
    fun hm => (h _ hm).2.2.2.1 120 5 rfl⟩

/-! ### C10 -/

theorem ValidateProvidedFlags_error (e : DOEnv) (p : String)
    (h : (e.dnsProviderFlag = "cloudflare" ∧ e.getenv "CF_API_TOKEN" = "") ∨
      e.getenv "DO_TOKEN" = "" ∨ e.getenv "DO_SPACES_KEY" = "" ∨
      e.getenv "DO_SPACES_SECRET" = "" ∨
      (p = "github" ∧ e.getHostKey "github.com" ≠ none) ∨
      (p = "gitlab" ∧ e.getHostKey "gitlab.com" ≠ none)) :
    (ValidateProvidedFlags e p).1 ≠ none := by
  unfold ValidateProvidedFlags
  split
  · simp
  · rename_i hcf
    split
    · simp
    · rename_i hfind
      simp only [List.find?_eq_none, List.mem_cons, List.mem_singleton, List.not_mem_nil,
        or_false, decide_eq_true_eq, forall_eq_or_imp, forall_eq] at hfind
      rcases h with h | h | h | h | h | h
      · exact absurd h hcf
      · exact absurd h hfind.1
      · exact absurd h hfind.2.1
      · exact absurd h hfind.2.2
      · rw [if_pos h.1]
        cases hk : e.getHostKey "github.com" with
        | none => exact absurd hk h.2
        | some _ => simp
      · have hne : ¬ p = "github" := by rw [h.1]; decide
        rw [if_neg hne, if_pos h.1]
        cases hk : e.getHostKey "gitlab.com" with
        | none => exact absurd hk h.2
        | some _ => simp

/-- C10 as stated fails: when `ValidateGitCredentials` fails the cluster
    directory has already been created. -/
theorem c10_config_errors_counterexample :
    failingGitCreds.validateGitCredentials ≠ none ∧
    (createDigitalocean failingGitCreds freshDOViper).1 ≠ none ∧
    DOEvent.CreateK1ClusterDirectory ∈
      (createDigitalocean failingGitCreds freshDOViper).2.trace := by
  decide!

/-- C10, amended.  With the flags parsed, if a required environment
    variable is empty, the git host key lookup fails or
    `ValidateGitCredentials` fails, `createDigitalocean` returns an error,
    leaves the configuration as it was and has called none of
    `InitializeGitProvider`, `viper.Set`, `viper.WriteConfig`, `launch.Up`,
    `CreateMgmtCluster`; it has not called `CreateK1ClusterDirectory` either
    when a required environment variable is empty or the git host key lookup
    fails, whether or not `ValidateGitCredentials` would fail too. -/
theorem c10_config_errors_amended (e : DOEnv) (w : DOKey → Bool) (f : CliFlags)
    (hf : e.getFlags = .ok f)
    (h : (e.dnsProviderFlag = "cloudflare" ∧ e.getenv "CF_API_TOKEN" = "") ∨
      e.getenv "DO_TOKEN" = "" ∨ e.getenv "DO_SPACES_KEY" = "" ∨
      e.getenv "DO_SPACES_SECRET" = "" ∨
      (f.GitProvider = "github" ∧ e.getHostKey "github.com" ≠ none) ∨
      (f.GitProvider = "gitlab" ∧ e.getHostKey "gitlab.com" ≠ none) ∨
      e.validateGitCredentials ≠ none) :
    (createDigitalocean e w).1 ≠ none ∧ (createDigitalocean e w).2.viper = w ∧
    ∀ x ∈ (createDigitalocean e w).2.trace,
      (∀ q, x ≠ DOEvent.InitializeGitProvider q) ∧ (∀ k b, x ≠ DOEvent.ViperSet k b) ∧
      x ≠ DOEvent.WriteConfig ∧ (∀ t, x ≠ DOEvent.LaunchUp t) ∧
      x ≠ DOEvent.CreateMgmtCluster ∧
      (((e.dnsProviderFlag = "cloudflare" ∧ e.getenv "CF_API_TOKEN" = "") ∨
        e.getenv "DO_TOKEN" = "" ∨ e.getenv "DO_SPACES_KEY" = "" ∨
        e.getenv "DO_SPACES_SECRET" = "" ∨
        (f.GitProvider = "github" ∧ e.getHostKey "github.com" ≠ none) ∨
        (f.GitProvider = "gitlab" ∧ e.getHostKey "gitlab.com" ≠ none) ∨
        e.validateGitCredentials = none) → x ≠ DOEvent.CreateK1ClusterDirectory) := by
  have hcases : (ValidateProvidedFlags e f.GitProvider).1 ≠ none ∨
      e.validateGitCredentials ≠ none := by
    rcases h with h | h | h | h | h | h | h
    · exact Or.inl (ValidateProvidedFlags_error e _ (Or.inl h))
    · exact Or.inl (ValidateProvidedFlags_error e _ (Or.inr (Or.inl h)))
    · exact Or.inl (ValidateProvidedFlags_error e _ (Or.inr (Or.inr (Or.inl h))))
    · exact Or.inl (ValidateProvidedFlags_error e _ (Or.inr (Or.inr (Or.inr (Or.inl h)))))
    · exact Or.inl (ValidateProvidedFlags_error e _
        (Or.inr (Or.inr (Or.inr (Or.inr (Or.inl h))))))
    · exact Or.inl (ValidateProvidedFlags_error e _
        (Or.inr (Or.inr (Or.inr (Or.inr (Or.inr h))))))
    · exact Or.inr h
  have hguard : ((e.dnsProviderFlag = "cloudflare" ∧ e.getenv "CF_API_TOKEN" = "") ∨
      e.getenv "DO_TOKEN" = "" ∨ e.getenv "DO_SPACES_KEY" = "" ∨
      e.getenv "DO_SPACES_SECRET" = "" ∨
      (f.GitProvider = "github" ∧ e.getHostKey "github.com" ≠ none) ∨
      (f.GitProvider = "gitlab" ∧ e.getHostKey "gitlab.com" ≠ none) ∨
      e.validateGitCredentials = none) → (ValidateProvidedFlags e f.GitProvider).1 ≠ none := by
    intro hgd
    rcases hcases with h1 | h1
    · exact h1
    · rcases hgd with k | k | k | k | k | k | k
      · exact ValidateProvidedFlags_error e _ (Or.inl k)
      · exact ValidateProvidedFlags_error e _ (Or.inr (Or.inl k))
      · exact ValidateProvidedFlags_error e _ (Or.inr (Or.inr (Or.inl k)))
      · exact ValidateProvidedFlags_error e _ (Or.inr (Or.inr (Or.inr (Or.inl k))))
      · exact ValidateProvidedFlags_error e _
          (Or.inr (Or.inr (Or.inr (Or.inr (Or.inl k)))))
      · exact ValidateProvidedFlags_error e _
          (Or.inr (Or.inr (Or.inr (Or.inr (Or.inr k)))))
      · exact absurd k h1
  have hval : ∀ x ∈ doValidated e f,
      (∀ q, x ≠ DOEvent.InitializeGitProvider q) ∧ (∀ k b, x ≠ DOEvent.ViperSet k b) ∧
      x ≠ DOEvent.WriteConfig ∧ (∀ t, x ≠ DOEvent.LaunchUp t) ∧
      x ≠ DOEvent.CreateMgmtCluster ∧
      (((e.dnsProviderFlag = "cloudflare" ∧ e.getenv "CF_API_TOKEN" = "") ∨
        e.getenv "DO_TOKEN" = "" ∨ e.getenv "DO_SPACES_KEY" = "" ∨
        e.getenv "DO_SPACES_SECRET" = "" ∨
        (f.GitProvider = "github" ∧ e.getHostKey "github.com" ≠ none) ∨
        (f.GitProvider = "gitlab" ∧ e.getHostKey "gitlab.com" ≠ none) ∨
        e.validateGitCredentials = none) → x ≠ DOEvent.CreateK1ClusterDirectory) := by
    intro x hx
    have := doValidated_no_write e f x hx
    exact ⟨this.2.1, this.2.2.1, this.2.2.2.1, this.2.2.2.2.1, this.2.2.2.2.2.1,
      fun _ => this.1⟩
  apply createDigitalocean_cases e w (fun r => r.1 ≠ none ∧ r.2.viper = w ∧
    ∀ x ∈ r.2.trace,
      (∀ q, x ≠ DOEvent.InitializeGitProvider q) ∧ (∀ k b, x ≠ DOEvent.ViperSet k b) ∧
      x ≠ DOEvent.WriteConfig ∧ (∀ t, x ≠ DOEvent.LaunchUp t) ∧
      x ≠ DOEvent.CreateMgmtCluster ∧
      (((e.dnsProviderFlag = "cloudflare" ∧ e.getenv "CF_API_TOKEN" = "") ∨
        e.getenv "DO_TOKEN" = "" ∨ e.getenv "DO_SPACES_KEY" = "" ∨
        e.getenv "DO_SPACES_SECRET" = "" ∨
        (f.GitProvider = "github" ∧ e.getHostKey "github.com" ≠ none) ∨
        (f.GitProvider = "gitlab" ∧ e.getHostKey "gitlab.com" ≠ none) ∨
        e.validateGitCredentials = none) → x ≠ DOEvent.CreateK1ClusterDirectory))
  case hFlags => intro err _; simp
  case hCatalog => intro f1 err _ _; simp
  case hInvalid => intro f1 _ _; simp
  case hValidate =>
    intro f1 err hf1 _ _
    rw [hf] at hf1; cases hf1
    refine ⟨by simp, rfl, fun x hx => ?_⟩
    rcases List.mem_append.mp hx with h1 | h1
    · exact hval x h1
    · simp at h1; simp [h1]
  case hComplete =>
    intro f1 hf1 _ _ _
    rw [hf] at hf1; cases hf1
    refine ⟨by simp, rfl, fun x hx => ?_⟩
    rcases List.mem_append.mp hx with h1 | h1
    · exact hval x h1
    · simp at h1; simp [h1]
  case hGit =>
    intro f1 err hf1 _ hv _ hg
    rw [hf] at hf1; cases hf1
    refine ⟨by simp, rfl, fun x hx => ?_⟩
    rcases List.mem_append.mp hx with h1 | h1
    · exact hval x h1
    · simp at h1
      rcases h1 with h1 | h1 | h1
      · subst h1
        exact ⟨by simp, by simp, by simp, by simp, by simp,
          fun hgd => absurd hv (hguard hgd)⟩
      · simp [h1]
      · simp [h1]
  case hInit =>
    intro f1 err hf1 _ hv _ hg _ _
    rw [hf] at hf1; cases hf1
    rcases hcases with h1 | h1
    · exact absurd hv h1
    · exact absurd hg h1
  case hAvail =>
    intro f1 err hf1 _ hv _ hg _ _
    rw [hf] at hf1; cases hf1
    rcases hcases with h1 | h1
    · exact absurd hv h1
    · exact absurd hg h1
  case hMgmt =>
    intro f1 err hf1 _ hv _ hg _ _ _
    rw [hf] at hf1; cases hf1
    rcases hcases with h1 | h1
    · exact absurd hv h1
    · exact absurd hg h1
  case hOk =>
    intro f1 hf1 _ hv _ hg _ _ _
    rw [hf] at hf1; cases hf1
    rcases hcases with h1 | h1
    · exact absurd hv h1
    · exact absurd hg h1

/-- C10 amended, at a run without `DO_TOKEN` whose git credentials are
    invalid as well. -/
theorem c10_config_errors_amended_witness :
    (createDigitalocean missingTokenBadCreds freshDOViper).1 ≠ none ∧
    DOEvent.WriteConfig ∉ (createDigitalocean missingTokenBadCreds freshDOViper).2.trace ∧
    DOEvent.CreateK1ClusterDirectory ∉
      (createDigitalocean missingTokenBadCreds freshDOViper).2.trace :=
  have h := c10_config_errors_amended missingTokenBadCreds freshDOViper
    { GitProvider := "github", UseTelemetry := true } rfl (Or.inr (Or.inl (by decide)))
  ⟨h.1, fun hm => (h.2.2 _ hm).2.2.1 rfl,
    fun hm => (h.2.2 _ hm).2.2.2.2.2 (Or.inr (Or.inl (by decide))) rfl⟩

/-! ### C8 -/

/-- C8: when the argocd host never resolves, the loop of line 339 calls
    `AwaitHostNTimes` 14 times, not 15 (each time with 20 attempts), and
    restarts argocd-server 14 times. -/
theorem c8_host_loop_bound :
    ((RunE unresolvableHost freshViper).2.trace.countP Event.isAwaitHostNTimes = 14) ∧
    ((RunE unresolvableHost freshViper).2.trace.count (Event.AwaitHostNTimes false 20) = 14) ∧
    ((RunE unresolvableHost freshViper).2.trace.countP Event.isHostLoopRestart = 14) ∧
    (RunE unresolvableHost freshViper).1 = Outcome.nil := by
  decide!

/-! ### Blocks that end normally -/

theorem bind_ok {α β : Type} {m : M α} {f : α → M β} {s s2 : St} {b : β}
    (h : (m >>= f) s = (.ok b, s2)) : ∃ a s1, m s = (.ok a, s1) ∧ f a s1 = (.ok b, s2) := by
  simp only [bind_apply] at h
  rcases hm : m s with ⟨r, s1⟩
  rw [hm] at h
  cases r with
  | ok a => exact ⟨a, s1, rfl, h⟩
  | error e => simp at h

theorem seq_ok {β : Type} {m : M Unit} {f : M β} {s s2 : St} {b : β}
    (h : (do m; f) s = (.ok b, s2)) : ∃ s1, m s = (.ok (), s1) ∧ f s1 = (.ok b, s2) := by
  obtain ⟨_, s1, h1, h2⟩ := bind_ok h
  exact ⟨s1, h1, h2⟩

theorem prepareTemporaryRepo_ok {c : Collab} {g : GlobalFlags} {s s1 : St}
    (h : prepareTemporaryRepo c g s = (.ok (), s1)) :
    s1.trace = s.trace ++ prepareEvents g.DryRun ∧ s1.viper = s.viper := by
  unfold prepareTemporaryRepo at h
  rcases hc : c.getClientSet with _ | e <;> simp [hc] at h
  subst h
  simp [prepareEvents]

theorem softServeLoop_ok (c : Collab) (d : Bool) :
    ∀ (n i : Nat) (s s1 : St), softServeLoop c d n i s = (.ok (), s1) →
      s1.viper = s.viper ∧
      ∃ l, s1.trace = s.trace ++ l ∧ l.all Event.isSoftServeLoop = true
  | 0, i, s, s1, h => by
    simp [softServeLoop] at h
    subst h
    exact ⟨rfl, [], by simp, rfl⟩
  | n + 1, i, s, s1, h => by
    unfold softServeLoop at h
    rcases hp : c.portForward (PFSite.softServe i) with ⟨_ | h0, _ | e⟩ <;>
      rcases hsc : c.softserveConfigure i <;>
      rcases hcf : c.configureSoftServeAndPush i with _ | e2 <;>
      simp [hp, hsc, hcf] at h
    all_goals
      first
        | (subst h
           exact ⟨rfl, [Event.PortForward d (PFSite.softServe i),
             Event.ConfigureSoftServeAndPush d], by simp, rfl⟩)
        | (obtain ⟨k1, l, k2, k3⟩ := softServeLoop_ok c d n (i + 1) _ _ h
           exact ⟨k1, [Event.PortForward d (PFSite.softServe i),
             Event.ConfigureSoftServeAndPush d, Event.Signal h0] ++ l,
             by simp [k2], by simp [k3, Event.isSoftServeLoop]⟩)

theorem deployArgocd_ok {c : Collab} {g : GlobalFlags} {s s1 : St}
    (h : deployArgocd c g s = (.ok (), s1)) :
    s1.trace = s.trace ++ deployArgocdEvents g.DryRun ∧ s1.viper = s.viper ∧
    (g.DryRun = false → s1.kPortForwardArgocd = (c.portForward PFSite.argocd).1) := by
  unfold deployArgocd at h
  rcases h1 : c.installArgocd with _ | e
  · rcases hd : g.DryRun
    · rcases h3 : c.portForward PFSite.argocd with ⟨_ | h0, _ | e3⟩ <;>
        simp [h1, h3, hd] at h
      subst h
      simp [deployArgocdEvents]
    · simp [h1, hd] at h
      subst h
      simp [deployArgocdEvents]
  · simp [h1] at h

theorem adoptRegistry_ok {c : Collab} {g : GlobalFlags} {s s1 : St}
    (h : adoptRegistry c g s = (.ok (), s1)) :
    s1.trace = s.trace ++ adoptRegistryEvents g.DryRun ∧ s1.viper = s.viper ∧
    s1.kPortForwardArgocd = s.kPortForwardArgocd := by
  unfold adoptRegistry at h
  rcases hd : g.DryRun <;> rcases h2 : c.execShellKubectlApply with _ | e2 <;>
    simp [h2, hd] at h <;> subst h <;> simp [adoptRegistryEvents]

theorem awaitVault_ok {c : Collab} {g : GlobalFlags} {s s1 : St}
    (h : awaitVault c g s = (.ok (), s1)) :
    s1.trace = s.trace ++ awaitVaultEvents g.DryRun ∧ s1.viper = s.viper ∧
    s1.kPortForwardArgocd = s.kPortForwardArgocd := by
  unfold awaitVault at h
  rcases hd : g.DryRun
  · rcases h3 : c.portForward PFSite.vault with ⟨_ | h0, _ | e3⟩ <;>
      simp [h3, hd] at h
    subst h
    simp [awaitVaultEvents]
  · simp [hd] at h
    subst h
    simp [awaitVaultEvents]

theorem awaitGitlab_ok {c : Collab} {g : GlobalFlags} {s s1 : St}
    (h : awaitGitlab c g s = (.ok (), s1)) :
    s1.trace = s.trace ++ awaitGitlabEvents g.DryRun ∧ s1.viper = s.viper ∧
    s1.kPortForwardArgocd = s.kPortForwardArgocd := by
  unfold awaitGitlab at h
  rcases hd : g.DryRun
  · rcases h3 : c.portForward PFSite.gitlab with ⟨_ | h0, _ | e3⟩ <;>
      simp [h3, hd] at h
    subst h
    simp [awaitGitlabEvents]
  · simp [hd] at h
    subst h
    simp [awaitGitlabEvents]

theorem setupGitlab_ok {g : GlobalFlags} {skipGitlab : Bool} {s s1 : St}
    (h : setupGitlab g skipGitlab s = (.ok (), s1)) :
    s1.trace = s.trace ++ setupGitlabEvents g.DryRun skipGitlab ∧ s1.viper = s.viper ∧
    s1.kPortForwardArgocd = s.kPortForwardArgocd := by
  unfold setupGitlab at h
  rcases skipGitlab <;> simp at h <;> subst h <;> simp [setupGitlabEvents]

theorem configureVault_ok {g : GlobalFlags} {skipVault : Bool} {s s1 : St}
    (h : configureVault g skipVault s = (.ok (), s1)) :
    s1.trace = s.trace ++ configureVaultEvents g.DryRun skipVault ∧ s1.viper = s.viper ∧
    s1.kPortForwardArgocd = s.kPortForwardArgocd := by
  unfold configureVault at h
  rcases skipVault <;> simp at h <;> subst h <;> simp [configureVaultEvents]

theorem oidcCreatedPhase_ok {g : GlobalFlags} {s s1 : St}
    (h : oidcCreatedPhase g s = (.ok (), s1)) :
    s1.trace = s.trace ++ oidcCreatedEvents g.DryRun (s.viper Key.gitlabOidcCreated) ∧
    (∀ k, s1.viper k = (decide (k = Key.gitlabOidcCreated) || s.viper k)) ∧
    s1.kPortForwardArgocd = s.kPortForwardArgocd := by
  unfold oidcCreatedPhase at h
  rcases hk : s.viper Key.gitlabOidcCreated <;> simp [hk] at h <;> subst h <;>
    simp [oidcCreatedEvents, hk]

theorem gitopsPushedPhase_ok {g : GlobalFlags} {s s1 : St}
    (h : gitopsPushedPhase g s = (.ok (), s1)) :
    s1.trace = s.trace ++ gitopsPushedEvents g.DryRun (s.viper Key.gitlabGitopsPushed) ∧
    (∀ k, s1.viper k = (decide (k = Key.gitlabGitopsPushed) || s.viper k)) ∧
    s1.kPortForwardArgocd = s.kPortForwardArgocd := by
  unfold gitopsPushedPhase at h
  rcases hk : s.viper Key.gitlabGitopsPushed <;> simp [hk] at h <;> subst h <;>
    simp [gitopsPushedEvents, hk]

theorem oidcPatchedPhase_ok {g : GlobalFlags} {s s1 : St}
    (h : oidcPatchedPhase g s = (.ok (), s1)) :
    s1.trace = s.trace ++ oidcPatchedEvents g.DryRun (s.viper Key.argocdOidcPatched) ∧
    (∀ k, s1.viper k = ((decide (k = Key.argocdOidcPatched) && !g.DryRun) || s.viper k)) ∧
    s1.kPortForwardArgocd = s.kPortForwardArgocd := by
  unfold oidcPatchedPhase at h
  rcases hk : s.viper Key.argocdOidcPatched <;> rcases hd : g.DryRun <;>
    simp [hk, hd] at h <;> subst h <;> simp [oidcPatchedEvents, hk]

theorem registeredPhase_ok {c : Collab} {g : GlobalFlags} {s s1 : St}
    (h : registeredPhase c g s = (.ok (), s1)) :
    (∃ h0, s1.trace = s.trace ++ registeredEvents g.DryRun (s.viper Key.gitlabRegistered) h0 ∧
      (g.DryRun = false → s.viper Key.gitlabRegistered = false →
        s.kPortForwardArgocd = some h0)) ∧
    (∀ k, s1.viper k = (decide (k = Key.gitlabRegistered) || s.viper k)) := by
  unfold registeredPhase at h
  rcases hk : s.viper Key.gitlabRegistered
  · rcases hd : g.DryRun
    · rcases ha : s.kPortForwardArgocd with _ | h0
      · simp [hk, hd, ha] at h
      · rcases h3 : c.portForward PFSite.argocdAgain with ⟨_ | h1, _ | e3⟩ <;>
          simp [hk, hd, ha, h3] at h
        subst h
        refine ⟨⟨h0, by simp [registeredEvents], fun _ _ => rfl⟩, fun k => ?_⟩
        simp
    · simp [hk, hd] at h
      subst h
      refine ⟨⟨0, by simp [registeredEvents], fun h => by cases h⟩, fun k => ?_⟩
      simp
  · simp [hk] at h
    subst h
    refine ⟨⟨0, by simp [registeredEvents], fun _ h => by cases h⟩, fun k => ?_⟩
    by_cases hkk : k = Key.gitlabRegistered <;> simp [hkk, hk]

theorem awaitArgocdHostLoop_eq (c : Collab) (d : Bool) :
    ∀ (n i : Nat) (s : St), awaitArgocdHostLoop c d n i s =
      (.ok (), { s with trace := s.trace ++ hostLoopEvents c d n i })
  | 0, i, s => by simp [awaitArgocdHostLoop, hostLoopEvents]
  | n + 1, i, s => by
    unfold awaitArgocdHostLoop
    rcases ha : c.awaitHostNTimes i <;> simp [ha, hostLoopEvents]
    rw [awaitArgocdHostLoop_eq c d n (i + 1)]
    simp

theorem awaitArgocdHost_eq (c : Collab) (g : GlobalFlags) (s : St) :
    awaitArgocdHost c g s =
      (.ok (), { s with trace := s.trace ++ awaitArgocdHostEvents c g.DryRun }) := by
  unfold awaitArgocdHost
  rcases hd : g.DryRun <;> simp [awaitArgocdHostEvents]
  rw [awaitArgocdHostLoop_eq]

theorem configureVaultBackend_eq (g : GlobalFlags) (skipVault : Bool) (s : St) :
    configureVaultBackend g skipVault s =
      (.ok (), { s with trace := s.trace ++ backendEvents g.DryRun skipVault }) := by
  unfold configureVaultBackend
  rcases skipVault <;> simp [backendEvents]

/-- The trace and configuration of a body that reached its end. -/
theorem runWithFlags_ok {c : Collab} {skipVault skipGitlab : Bool} {g : GlobalFlags}
    {v : Key → Bool} {sf : St}
    (h : runWithFlags c skipVault skipGitlab g (afterParameters g v) = (.ok (), sf)) :
    ∃ lss h0, lss.all Event.isSoftServeLoop = true ∧
      sf.trace = okTrace c skipVault skipGitlab g v lss h0 ∧
      (∀ k, sf.viper k = finalViper g.DryRun v k) ∧
      (g.DryRun = false → v Key.gitlabRegistered = false →
        (c.portForward PFSite.argocd).1 = some h0) := by
  unfold runWithFlags at h
  obtain ⟨s1, e1, h⟩ := seq_ok h
  obtain ⟨s2, e2, h⟩ := seq_ok h
  obtain ⟨s3, e3, h⟩ := seq_ok h
  obtain ⟨s4, e4, h⟩ := seq_ok h
  obtain ⟨s5, e5, h⟩ := seq_ok h
  obtain ⟨s6, e6, h⟩ := seq_ok h
  obtain ⟨s7, e7, h⟩ := seq_ok h
  obtain ⟨s8, e8, h⟩ := seq_ok h
  obtain ⟨s9, e9, h⟩ := seq_ok h
  obtain ⟨s10, e10, h⟩ := seq_ok h
  obtain ⟨s11, e11, h⟩ := seq_ok h
  obtain ⟨s12, e12, h⟩ := seq_ok h
  obtain ⟨s13, e13, h⟩ := seq_ok h
  obtain ⟨t1, v1⟩ := prepareTemporaryRepo_ok e1
  obtain ⟨v2, lss, t2, hlss⟩ := softServeLoop_ok c g.DryRun 10 0 s1 s2 e2
  obtain ⟨t3, v3, a3⟩ := deployArgocd_ok e3
  obtain ⟨t4, v4, a4⟩ := adoptRegistry_ok e4
  obtain ⟨t5, v5, a5⟩ := awaitVault_ok e5
  obtain ⟨t6, v6, a6⟩ := awaitGitlab_ok e6
  obtain ⟨t7, v7, a7⟩ := setupGitlab_ok e7
  obtain ⟨t8, v8, a8⟩ := configureVault_ok e8
  obtain ⟨t9, v9, a9⟩ := oidcCreatedPhase_ok e9
  obtain ⟨t10, v10, a10⟩ := gitopsPushedPhase_ok e10
  obtain ⟨t11, v11, a11⟩ := oidcPatchedPhase_ok e11
  obtain ⟨⟨h0, t12, a12⟩, v12⟩ := registeredPhase_ok e12
  rw [awaitArgocdHost_eq] at e13
  rw [configureVaultBackend_eq] at h
  have hv8 : s8.viper = v := by
    rw [v8, v7, v6, v5, v4, v3, v2, v1]; rfl
  have k9 : s8.viper Key.gitlabOidcCreated = v Key.gitlabOidcCreated := by rw [hv8]
  have k10 : s9.viper Key.gitlabGitopsPushed = v Key.gitlabGitopsPushed := by
    rw [v9, hv8]; simp
  have k11 : s10.viper Key.argocdOidcPatched = v Key.argocdOidcPatched := by
    rw [v10, v9, hv8]; simp
  have k12 : s11.viper Key.gitlabRegistered = v Key.gitlabRegistered := by
    rw [v11, v10, v9, hv8]; simp
  have hs13 : s13 = { s12 with trace := s12.trace ++ awaitArgocdHostEvents c g.DryRun } := by
    simp only [Prod.mk.injEq, true_and] at e13
    exact e13.symm
  have hsf : sf = { s13 with trace := s13.trace ++ backendEvents g.DryRun skipVault } := by
    simp only [Prod.mk.injEq, true_and] at h
    exact h.symm
  refine ⟨lss, h0, hlss, ?_, ?_, ?_⟩
  · rw [hsf, hs13]
    simp only [t12, t11, t10, t9, t8, t7, t6, t5, t4, t3, t2, t1, k9, k10, k11, k12, okTrace]
  · intro k
    rw [hsf, hs13]
    simp only [v12, v11, v10, v9, hv8]
    cases k <;> simp [finalViper, Bool.or_comm]
  · intro hd hreg
    have := a12 hd (by rw [k12]; exact hreg)
    rw [a11, a10, a9, a8, a7, a6, a5, a4, a3 hd] at this
    exact this

/-- The trace and configuration of a run whose body reached its end. -/
theorem RunE_of_body_ok {c : Collab} {v : Key → Bool}
    (h : (body c (initial v)).1 = .ok ()) :
    ∃ skipVault skipGitlab g lss h0 sigs,
      c.getBoolSkipVault = .ok skipVault ∧ c.getBoolSkipGitlab = .ok skipGitlab ∧
      c.processGlobalFlags = .ok g ∧ lss.all Event.isSoftServeLoop = true ∧
      sigs.all Event.isSignal = true ∧
      (RunE c v).2.trace = okTrace c skipVault skipGitlab g v lss h0 ++ sigs ∧
      (∀ k, (RunE c v).2.viper k = finalViper g.DryRun v k) ∧
      (g.DryRun = false → v Key.gitlabRegistered = false →
        (c.portForward PFSite.argocd).1 = some h0) := by
  rcases h1 : c.getBoolSkipVault with e | skipVault
  · rw [body_of_skipVault_error c e h1] at h; cases h
  rcases h2 : c.getBoolSkipGitlab with e | skipGitlab
  · rw [body_of_skipGitlab_error c skipVault e h1 h2] at h; cases h
  rcases h3 : c.processGlobalFlags with e | g
  · rw [body_of_flags_error c skipVault skipGitlab e h1 h2 h3] at h; cases h
  have hb := body_of_flags c skipVault skipGitlab g h1 h2 h3 v
  rcases hr : body c (initial v) with ⟨r, sf⟩
  rw [hr] at h
  simp only at h
  subst h
  rw [hb] at hr
  obtain ⟨lss, h0, k1, k2, k3, k4⟩ := runWithFlags_ok hr
  rw [← hb] at hr
  obtain ⟨d1, _, sigs, d3, d4⟩ := runDefers_spec sf.defers sf
  refine ⟨skipVault, skipGitlab, g, lss, h0, sigs, rfl, rfl, rfl, k1, d4, ?_, ?_, k4⟩
  · simp only [RunE, hr]
    rw [d3, k2]
  · intro k
    simp only [RunE, hr]
    rw [d1, k3]

theorem body_ok_of_nil {c : Collab} {v : Key → Bool} (h : (RunE c v).1 = Outcome.nil) :
    (body c (initial v)).1 = .ok () := by
  simp only [RunE] at h
  rcases hr : (body c (initial v)).1 with a | u
  · rw [hr] at h
    cases a with
    | panic => simp [outcomeOf] at h
    | ret e => simp only [outcomeOf] at h; split at h <;> cases h
  · rfl

/-! ### Counting the calls of the host loop -/

theorem hostLoopEvents_counts (c : Collab) (d : Bool) :
    ∀ (n i k : Nat), i ≤ k → k < i + n →
      (∀ j, i ≤ j → j < k → c.awaitHostNTimes j = false) → c.awaitHostNTimes k = true →
      (hostLoopEvents c d n i).countP Event.isAwaitHostNTimes = k - i + 1 ∧
      (hostLoopEvents c d n i).countP Event.isHostLoopRestart = k - i
  | 0, i, k, h1, h2, _, _ => by omega
  | n + 1, i, k, h1, h2, hf, ht => by
    rcases Nat.eq_or_lt_of_le h1 with h | h
    · subst h
      simp [hostLoopEvents, ht, Event.isAwaitHostNTimes, Event.isHostLoopRestart]
    · have hi : c.awaitHostNTimes i = false := hf i (le_refl i) h
      obtain ⟨k1, k2⟩ := hostLoopEvents_counts c d n (i + 1) k h (by omega)
        (fun j hj1 hj2 => hf j (by omega) hj2) ht
      simp only [hostLoopEvents, hi, Bool.false_eq_true, if_false, List.countP_cons, k1, k2,
        Event.isAwaitHostNTimes, Event.isHostLoopRestart]
      constructor <;> simp <;> omega

theorem countP_eq_zero_of_all {p q : Event → Bool} {l : List Event}
    (hl : l.all q = true) (hpq : ∀ x, q x = true → p x = false) : l.countP p = 0 := by
  rw [List.countP_eq_zero]
  intro x hx
  rw [hpq x (List.all_eq_true.mp hl x hx)]
  simp

theorem isAwait_of_softServe (x : Event) (h : x.isSoftServeLoop = true) :
    x.isAwaitHostNTimes = false := by
  cases x <;> first | rfl | simp [Event.isSoftServeLoop] at h

theorem isRestart_of_softServe (x : Event) (h : x.isSoftServeLoop = true) :
    x.isHostLoopRestart = false := by
  cases x <;> first | rfl | simp [Event.isSoftServeLoop] at h

theorem isAwait_of_signal (x : Event) (h : x.isSignal = true) :
    x.isAwaitHostNTimes = false := by
  cases x <;> first | rfl | simp [Event.isSignal] at h

theorem isRestart_of_signal (x : Event) (h : x.isSignal = true) :
    x.isHostLoopRestart = false := by
  cases x <;> first | rfl | simp [Event.isSignal] at h

theorem prepareEvents_await (d : Bool) :
    (prepareEvents d).countP Event.isAwaitHostNTimes = 0 := by
  cases d <;> rfl

theorem deployArgocdEvents_await (d : Bool) :
    (deployArgocdEvents d).countP Event.isAwaitHostNTimes = 0 := by
  cases d <;> rfl

theorem adoptRegistryEvents_await (d : Bool) :
    (adoptRegistryEvents d).countP Event.isAwaitHostNTimes = 0 := by
  cases d <;> rfl

theorem awaitVaultEvents_await (d : Bool) :
    (awaitVaultEvents d).countP Event.isAwaitHostNTimes = 0 := by
  cases d <;> rfl

theorem awaitGitlabEvents_await (d : Bool) :
    (awaitGitlabEvents d).countP Event.isAwaitHostNTimes = 0 := by
  cases d <;> rfl

theorem setupGitlabEvents_await (d b : Bool) :
    (setupGitlabEvents d b).countP Event.isAwaitHostNTimes = 0 := by
  cases d <;> cases b <;> rfl

theorem configureVaultEvents_await (d b : Bool) :
    (configureVaultEvents d b).countP Event.isAwaitHostNTimes = 0 := by
  cases d <;> cases b <;> rfl

theorem oidcCreatedEvents_await (d b : Bool) :
    (oidcCreatedEvents d b).countP Event.isAwaitHostNTimes = 0 := by
  cases d <;> cases b <;> rfl

theorem gitopsPushedEvents_await (d b : Bool) :
    (gitopsPushedEvents d b).countP Event.isAwaitHostNTimes = 0 := by
  cases d <;> cases b <;> rfl

theorem oidcPatchedEvents_await (d b : Bool) :
    (oidcPatchedEvents d b).countP Event.isAwaitHostNTimes = 0 := by
  cases d <;> cases b <;> rfl

theorem backendEvents_await (d b : Bool) :
    (backendEvents d b).countP Event.isAwaitHostNTimes = 0 := by
  cases d <;> cases b <;> rfl

theorem registeredEvents_await (d b : Bool) (h0 : Handle) :
    (registeredEvents d b h0).countP Event.isAwaitHostNTimes = 0 := by
  cases d <;> cases b <;> rfl

theorem afterParameters_await (g : GlobalFlags) (v : Key → Bool) :
    (afterParameters g v).trace.countP Event.isAwaitHostNTimes = 0 := rfl

theorem prepareEvents_restart (d : Bool) :
    (prepareEvents d).countP Event.isHostLoopRestart = 0 := by
  cases d <;> rfl

theorem deployArgocdEvents_restart (d : Bool) :
    (deployArgocdEvents d).countP Event.isHostLoopRestart = 0 := by
  cases d <;> rfl

theorem adoptRegistryEvents_restart (d : Bool) :
    (adoptRegistryEvents d).countP Event.isHostLoopRestart = 0 := by
  cases d <;> rfl

theorem awaitVaultEvents_restart (d : Bool) :
    (awaitVaultEvents d).countP Event.isHostLoopRestart = 0 := by
  cases d <;> rfl

theorem awaitGitlabEvents_restart (d : Bool) :
    (awaitGitlabEvents d).countP Event.isHostLoopRestart = 0 := by
  cases d <;> rfl

theorem setupGitlabEvents_restart (d b : Bool) :
    (setupGitlabEvents d b).countP Event.isHostLoopRestart = 0 := by
  cases d <;> cases b <;> rfl

theorem configureVaultEvents_restart (d b : Bool) :
    (configureVaultEvents d b).countP Event.isHostLoopRestart = 0 := by
  cases d <;> cases b <;> rfl

theorem oidcCreatedEvents_restart (d b : Bool) :
    (oidcCreatedEvents d b).countP Event.isHostLoopRestart = 0 := by
  cases d <;> cases b <;> rfl

theorem gitopsPushedEvents_restart (d b : Bool) :
    (gitopsPushedEvents d b).countP Event.isHostLoopRestart = 0 := by
  cases d <;> cases b <;> rfl

theorem oidcPatchedEvents_restart (d b : Bool) :
    (oidcPatchedEvents d b).countP Event.isHostLoopRestart = 0 := by
  cases d <;> cases b <;> rfl

theorem backendEvents_restart (d b : Bool) :
    (backendEvents d b).countP Event.isHostLoopRestart = 0 := by
  cases d <;> cases b <;> rfl

theorem registeredEvents_restart (d b : Bool) (h0 : Handle) :
    (registeredEvents d b h0).countP Event.isHostLoopRestart = 0 := by
  cases d <;> cases b <;> rfl

theorem afterParameters_restart (g : GlobalFlags) (v : Key → Bool) :
    (afterParameters g v).trace.countP Event.isHostLoopRestart = 0 := rfl

/-- The calls of `AwaitHostNTimes` and the restarts of the host loop in a run
    whose body reached its end are those of the loop. -/
theorem RunE_hostLoop_counts {c : Collab} {v : Key → Bool}
    (h : (body c (initial v)).1 = .ok ()) (g : GlobalFlags)
    (hg : c.processGlobalFlags = .ok g) :
    (RunE c v).2.trace.countP Event.isAwaitHostNTimes =
      (awaitArgocdHostEvents c g.DryRun).countP Event.isAwaitHostNTimes ∧
    (RunE c v).2.trace.countP Event.isHostLoopRestart =
      (awaitArgocdHostEvents c g.DryRun).countP Event.isHostLoopRestart := by
  obtain ⟨sv, sg, g1, lss, h0, sigs, _, _, hg1, hlss, hsigs, ht, _, _⟩ := RunE_of_body_ok h
  rw [hg] at hg1
  cases hg1
  have a1 := countP_eq_zero_of_all hlss isAwait_of_softServe
  have a2 := countP_eq_zero_of_all hsigs isAwait_of_signal
  have b1 := countP_eq_zero_of_all hlss isRestart_of_softServe
  have b2 := countP_eq_zero_of_all hsigs isRestart_of_signal
  rw [ht]
  constructor
  · simp only [okTrace, List.countP_append, a1, a2, afterParameters_await, prepareEvents_await,
      deployArgocdEvents_await, adoptRegistryEvents_await, awaitVaultEvents_await,
      awaitGitlabEvents_await, setupGitlabEvents_await, configureVaultEvents_await,
      oidcCreatedEvents_await, gitopsPushedEvents_await, oidcPatchedEvents_await,
      registeredEvents_await, backendEvents_await, Nat.zero_add, Nat.add_zero]
  · simp only [okTrace, List.countP_append, b1, b2, afterParameters_restart,
      prepareEvents_restart, deployArgocdEvents_restart, adoptRegistryEvents_restart,
      awaitVaultEvents_restart, awaitGitlabEvents_restart, setupGitlabEvents_restart,
      configureVaultEvents_restart, oidcCreatedEvents_restart, gitopsPushedEvents_restart,
      oidcPatchedEvents_restart, registeredEvents_restart, backendEvents_restart,
      Nat.zero_add, Nat.add_zero]

/-! ### The order of restarts and tunnels -/

theorem Precedes.of_all_not {X : Event → Bool} {R : List Event → Prop} {t : List Event}
    (h : ∀ x ∈ t, X x = false) : Precedes X R t := by
  intro pre x post ht hx
  have hm : x ∈ t := by rw [ht]; simp
  rw [h x hm] at hx
  cases hx

theorem Precedes.append_miss {X : Event → Bool} {R : List Event → Prop} {t l : List Event}
    (ht : Precedes X R t) (hl : ∀ x ∈ l, X x = false) : Precedes X R (t ++ l) := by
  intro pre x post heq hx
  rcases List.append_eq_append_iff.mp heq with ⟨a, _, h2⟩ | ⟨a, h1, h2⟩
  · have hm : x ∈ l := by rw [h2]; simp
    rw [hl x hm] at hx; cases hx
  · cases a with
    | nil =>
      have hm : x ∈ l := by
        rw [List.nil_append] at h2
        rw [← h2]; simp
      rw [hl x hm] at hx; cases hx
    | cons y a1 =>
      simp only [List.cons_append, List.cons.injEq] at h2
      rw [← h2.1] at h1
      exact ht pre x a1 h1 hx

theorem Precedes.append_hit {X : Event → Bool} {R : List Event → Prop} {t l2 : List Event}
    (x0 : Event) (ht : ∀ x ∈ t, X x = false) (hr : R t) (hl : ∀ x ∈ l2, X x = false) :
    Precedes X R (t ++ x0 :: l2) := by
  intro pre x post heq hx
  rcases List.append_eq_append_iff.mp heq with ⟨a, h1, h2⟩ | ⟨a, h1, h2⟩
  · cases a with
    | nil => simp at h1; rw [h1]; exact hr
    | cons y a1 =>
      simp only [List.cons_append, List.cons.injEq] at h2
      have hm : x ∈ l2 := by rw [h2.2]; simp
      rw [hl x hm] at hx; cases hx
  · cases a with
    | nil => simp at h1; rw [← h1]; exact hr
    | cons y a1 =>
      simp only [List.cons_append, List.cons.injEq] at h2
      have hm : x ∈ t := by rw [h1, ← h2.1]; simp
      rw [ht x hm] at hx; cases hx

theorem PatchThenRestart.append_plain {t l : List Event} (ht : PatchThenRestart t)
    (hl : ∀ x ∈ l, x ≠ Event.PatchSecret) : PatchThenRestart (t ++ l) := by
  intro pre post heq
  rcases List.append_eq_append_iff.mp heq with ⟨a, _, h2⟩ | ⟨a, h1, h2⟩
  · exact absurd rfl (hl Event.PatchSecret (by rw [h2]; simp))
  · cases a with
    | nil =>
      rw [List.nil_append] at h2
      exact absurd rfl (hl Event.PatchSecret (by rw [← h2]; simp))
    | cons y a1 =>
      simp only [List.cons_append, List.cons.injEq] at h2
      rw [← h2.1] at h1
      obtain ⟨post1, hp⟩ := ht pre a1 h1
      exact ⟨post1 ++ l, by rw [h2.2, hp]; simp⟩

theorem PatchThenRestart.append_patch {t l : List Event} (ht : PatchThenRestart t)
    (hl : ∀ x ∈ l, x ≠ Event.PatchSecret) :
    PatchThenRestart
      (t ++ Event.PatchSecret :: Event.DeletePodByLabel DelSite.oidcPatch :: l) := by
  intro pre post heq
  rcases List.append_eq_append_iff.mp heq with ⟨a, _, h2⟩ | ⟨a, h1, h2⟩
  · cases a with
    | nil =>
      simp only [List.nil_append, List.cons.injEq, true_and] at h2
      exact ⟨l, h2.symm⟩
    | cons y a1 =>
      simp only [List.cons_append, List.cons.injEq] at h2
      cases a1 with
      | nil => simp at h2
      | cons z a2 =>
        simp only [List.cons_append, List.cons.injEq] at h2
        exact absurd rfl (hl Event.PatchSecret (by rw [h2.2.2]; simp))
  · cases a with
    | nil =>
      simp only [List.nil_append, List.cons.injEq, true_and] at h2
      exact ⟨l, h2⟩
    | cons y a1 =>
      simp only [List.cons_append, List.cons.injEq] at h2
      rw [← h2.1] at h1
      obtain ⟨post1, hp⟩ := ht pre a1 h1
      exact ⟨post1 ++ Event.PatchSecret :: Event.DeletePodByLabel DelSite.oidcPatch :: l,
        by rw [h2.2, hp]; simp⟩

theorem plain_facts (x : Event) (h : x.isPlain = true) :
    x.isEarly = true ∧ x ≠ Event.PatchSecret ∧ x.isRegisteredRestart = false ∧
    x.isSyncRetry = false ∧ x.isAwaitHostNTimes = false ∧ x.isTail = true ∧
    (∀ d site, x = Event.PortForward d site → site.isArgocd = false) := by
  cases x <;> simp [Event.isPlain] at h <;>
    simp [Event.isEarly, Event.isRegisteredRestart, Event.isSyncRetry,
      Event.isAwaitHostNTimes, Event.isTail]
  case PortForward d site =>
    cases site <;> simp [PFSite.isArgocd] at h ⊢

theorem early_facts (x : Event) (h : x.isEarly = true) :
    x.isRegisteredRestart = false ∧ x.isSyncRetry = false ∧ x.isAwaitHostNTimes = false ∧
    (∀ d site, x = Event.PortForward d site → site.isArgocd = true → site = PFSite.argocd) := by
  cases x <;> simp [Event.isEarly] at h <;>
    simp [Event.isRegisteredRestart, Event.isSyncRetry, Event.isAwaitHostNTimes]
  case PortForward d site =>
    cases site <;> simp [PFSite.isArgocd] at h ⊢
  case DeletePodByLabel site =>
    cases site <;> simp at h ⊢

theorem EarlyInv.advance {c : Collab} {s s1 : St} (hs : EarlyInv c s) (l : List Event)
    (hl : l.all Event.isPlain = true) (ht : s1.trace = s.trace ++ l)
    (hv : s1.kPortForwardArgocd = s.kPortForwardArgocd) : EarlyInv c s1 := by
  have hp := fun x hx => plain_facts x (List.all_eq_true.mp hl x hx)
  refine ⟨?_, ?_, ?_⟩
  · rw [ht, List.all_append, hs.1, Bool.true_and, List.all_eq_true]
    exact fun x hx => (hp x hx).1
  · rw [ht]
    exact hs.2.1.append_plain (fun x hx => (hp x hx).2.1)
  · rintro ⟨d, hd⟩
    rw [ht] at hd
    rcases List.mem_append.mp hd with h | h
    · rw [hv]; exact hs.2.2 ⟨d, h⟩
    · have := (hp _ h).2.2.2.2.2.2 d PFSite.argocd rfl
      simp [PFSite.isArgocd] at this

theorem EarlyInv.step_argocd {c : Collab} {s s1 : St} (hs : EarlyInv c s) (l : List Event)
    (hl : l.all Event.isEarly = true) (hp : ∀ x ∈ l, x ≠ Event.PatchSecret)
    (ht : s1.trace = s.trace ++ l)
    (hv : s1.kPortForwardArgocd = (c.portForward PFSite.argocd).1) : EarlyInv c s1 := by
  refine ⟨?_, ?_, fun _ => hv⟩
  · rw [ht, List.all_append, hs.1, hl]; rfl
  · rw [ht]
    exact hs.2.1.append_plain hp

theorem EarlyInv.step_patch {c : Collab} {s s1 : St} (hs : EarlyInv c s) (l : List Event)
    (hl : l.all Event.isPlain = true)
    (ht : s1.trace = s.trace ++
      Event.PatchSecret :: Event.DeletePodByLabel DelSite.oidcPatch :: l)
    (hv : s1.kPortForwardArgocd = s.kPortForwardArgocd) : EarlyInv c s1 := by
  have hp := fun x hx => plain_facts x (List.all_eq_true.mp hl x hx)
  refine ⟨?_, ?_, ?_⟩
  · rw [ht, List.all_append, hs.1, Bool.true_and, List.all_eq_true]
    intro x hx
    simp only [List.mem_cons] at hx
    rcases hx with h | h | h
    · rw [h]; rfl
    · rw [h]; rfl
    · exact (hp x h).1
  · rw [ht]
    exact hs.2.1.append_patch (fun x hx => (hp x hx).2.1)
  · rintro ⟨d, hd⟩
    rw [ht] at hd
    rcases List.mem_append.mp hd with h | h
    · rw [hv]; exact hs.2.2 ⟨d, h⟩
    · simp only [List.mem_cons] at h
      rcases h with h | h | h
      · cases h
      · cases h
      · have := (hp _ h).2.2.2.2.2.2 d PFSite.argocd rfl
        simp [PFSite.isArgocd] at this

theorem softServeLoop_early (c : Collab) (d : Bool) :
    ∀ (n i : Nat), Triple (EarlyInv c) (softServeLoop c d n i)
      (fun _ => EarlyInv c) (fun _ => EarlyInv c)
  | 0, i => by
    intro s hs
    simpa [softServeLoop] using hs
  | n + 1, i => by
    intro s hs
    have ih := softServeLoop_early c d n (i + 1)
    unfold softServeLoop
    rcases hp : c.portForward (PFSite.softServe i) with ⟨_ | h, _ | e⟩ <;>
      rcases hsc : c.softserveConfigure i <;>
      rcases hcf : c.configureSoftServeAndPush i with _ | e2 <;>
      simp [hp, hsc, hcf] <;>
      first
        | exact hs.advance _ (by simp [Event.isPlain, PFSite.isArgocd]) rfl rfl
        | exact ih _ (hs.advance _ (by simp [Event.isPlain, PFSite.isArgocd]) rfl rfl)

theorem prepareTemporaryRepo_early (c : Collab) (g : GlobalFlags) :
    Triple (EarlyInv c) (prepareTemporaryRepo c g)
      (fun _ => EarlyInv c) (fun _ => EarlyInv c) := by
  intro s hs
  unfold prepareTemporaryRepo
  rcases hc : c.getClientSet with _ | e <;> simp [hc] <;>
    exact hs.advance _ (by simp [Event.isPlain]) rfl rfl

theorem deployArgocd_early (c : Collab) (g : GlobalFlags) :
    Triple (EarlyInv c) (deployArgocd c g)
      (fun _ => EarlyInv c) (fun _ => EarlyInv c) := by
  intro s hs
  unfold deployArgocd
  rcases h1 : c.installArgocd with _ | e
  · rcases hd : g.DryRun
    · rcases h3 : c.portForward PFSite.argocd with ⟨_ | h, _ | e3⟩ <;>
        simp [h1, h3, hd] <;>
        exact hs.step_argocd _ (by simp [Event.isEarly]) (by simp) rfl (by simp [h3])
    · simp [h1, hd]
      exact hs.advance _ (by simp [Event.isPlain]) rfl rfl
  · simp [h1]
    exact hs.advance _ (by simp [Event.isPlain]) rfl rfl

theorem adoptRegistry_early (c : Collab) (g : GlobalFlags) :
    Triple (EarlyInv c) (adoptRegistry c g)
      (fun _ => EarlyInv c) (fun _ => EarlyInv c) := by
  intro s hs
  unfold adoptRegistry
  rcases hd : g.DryRun <;> rcases h2 : c.execShellKubectlApply with _ | e2 <;>
    simp [h2, hd] <;>
    exact hs.advance _ (by simp [Event.isPlain]) rfl rfl

theorem awaitVault_early (c : Collab) (g : GlobalFlags) :
    Triple (EarlyInv c) (awaitVault c g)
      (fun _ => EarlyInv c) (fun _ => EarlyInv c) := by
  intro s hs
  unfold awaitVault
  rcases hd : g.DryRun
  · rcases h3 : c.portForward PFSite.vault with ⟨_ | h, _ | e3⟩ <;>
      simp [h3, hd] <;>
      exact hs.advance _ (by simp [Event.isPlain, PFSite.isArgocd]) rfl rfl
  · simp [hd]
    exact hs.advance _ (by simp [Event.isPlain]) rfl rfl

theorem awaitGitlab_early (c : Collab) (g : GlobalFlags) :
    Triple (EarlyInv c) (awaitGitlab c g)
      (fun _ => EarlyInv c) (fun _ => EarlyInv c) := by
  intro s hs
  unfold awaitGitlab
  rcases hd : g.DryRun
  · rcases h3 : c.portForward PFSite.gitlab with ⟨_ | h, _ | e3⟩ <;>
      simp [h3, hd] <;>
      exact hs.advance _ (by simp [Event.isPlain, PFSite.isArgocd]) rfl rfl
  · simp [hd]
    exact hs.advance _ (by simp [Event.isPlain]) rfl rfl

theorem setupGitlab_early (c : Collab) (g : GlobalFlags) (skipGitlab : Bool) :
    Triple (EarlyInv c) (setupGitlab g skipGitlab)
      (fun _ => EarlyInv c) (fun _ => EarlyInv c) := by
  intro s hs
  unfold setupGitlab
  rcases skipGitlab <;> simp <;> exact hs.advance _ (by simp [Event.isPlain]) rfl rfl

theorem configureVault_early (c : Collab) (g : GlobalFlags) (skipVault : Bool) :
    Triple (EarlyInv c) (configureVault g skipVault)
      (fun _ => EarlyInv c) (fun _ => EarlyInv c) := by
  intro s hs
  unfold configureVault
  rcases skipVault <;> simp
  · exact hs.advance _ (by simp [Event.isPlain]) rfl rfl
  · exact hs

theorem oidcCreatedPhase_early (c : Collab) (g : GlobalFlags) :
    Triple (EarlyInv c) (oidcCreatedPhase g)
      (fun _ => EarlyInv c) (fun _ => EarlyInv c) := by
  intro s hs
  unfold oidcCreatedPhase
  rcases hk : s.viper Key.gitlabOidcCreated <;> simp [hk] <;>
    exact hs.advance _ (by simp [Event.isPlain]) rfl rfl

theorem gitopsPushedPhase_early (c : Collab) (g : GlobalFlags) :
    Triple (EarlyInv c) (gitopsPushedPhase g)
      (fun _ => EarlyInv c) (fun _ => EarlyInv c) := by
  intro s hs
  unfold gitopsPushedPhase
  rcases hk : s.viper Key.gitlabGitopsPushed <;> simp [hk] <;>
    exact hs.advance _ (by simp [Event.isPlain]) rfl rfl

theorem oidcPatchedPhase_early (c : Collab) (g : GlobalFlags) :
    Triple (EarlyInv c) (oidcPatchedPhase g)
      (fun _ => EarlyInv c) (fun _ => EarlyInv c) := by
  intro s hs
  unfold oidcPatchedPhase
  rcases hk : s.viper Key.argocdOidcPatched <;> rcases hd : g.DryRun <;> simp [hk, hd]
  · exact hs.step_patch _ (by simp [Event.isPlain]) rfl rfl
  all_goals exact hs

theorem EarlyInv.stoppedEarly {c : Collab} {s : St} (hs : EarlyInv c s) :
    StoppedEarly c s := by
  have he := fun x hx => early_facts x (List.all_eq_true.mp hs.1 x hx)
  refine ⟨⟨Precedes.of_all_not (fun x hx => (he x hx).1), hs.2.1,
    Precedes.of_all_not (fun x hx => (he x hx).2.1)⟩, ?_⟩
  rw [List.all_eq_true]
  intro x hx
  simp [(he x hx).2.1, (he x hx).2.2.1]

theorem EarlyInv.released {c : Collab} {s : St} (hs : EarlyInv c s) {h0 : Handle}
    (ha : s.kPortForwardArgocd = some h0) (d0 : Bool) :
    ArgocdReleased c (s.trace ++ [Event.ChangeRegistryToGitLab d0, Event.Signal h0]) := by
  intro d site h hm harg hpf
  rcases List.mem_append.mp hm with hm | hm
  · have hsite := (early_facts _ (List.all_eq_true.mp hs.1 _ hm)).2.2.2 d site rfl harg
    subst hsite
    have hv := hs.2.2 ⟨d, hm⟩
    rw [ha, hpf] at hv
    cases hv
    simp
  · simp at hm

theorem EarlyInv.tunnelOrder_append {c : Collab} {s : St} (hs : EarlyInv c s)
    (l : List Event) (hl : l.all Event.isPlain = true) : TunnelOrder c (s.trace ++ l) :=
  (EarlyInv.stoppedEarly
    (show EarlyInv c { s with trace := s.trace ++ l } from hs.advance l hl rfl rfl)).1

theorem registered_stopped {c : Collab} {s s1 : St} (hs : EarlyInv c s) {h0 : Handle}
    (ha : s.kPortForwardArgocd = some h0) (d0 d1 d2 : Bool)
    (ht : s1.trace = s.trace ++ [Event.ChangeRegistryToGitLab d0, Event.Signal h0,
      Event.DeletePodByLabel DelSite.registered, Event.waitArgoCDToBeReady d1,
      Event.PortForward d2 PFSite.argocdAgain]) : StoppedEarly c s1 := by
  have he := fun x hx => early_facts x (List.all_eq_true.mp hs.1 x hx)
  have hsplit : s1.trace = (s.trace ++ [Event.ChangeRegistryToGitLab d0, Event.Signal h0]) ++
      Event.DeletePodByLabel DelSite.registered ::
        [Event.waitArgoCDToBeReady d1, Event.PortForward d2 PFSite.argocdAgain] := by
    rw [ht]; simp
  refine ⟨⟨?_, ?_, ?_⟩, ?_⟩
  · rw [hsplit]
    refine Precedes.append_hit _ ?_ (hs.released ha d0) ?_
    · intro x hx
      rcases List.mem_append.mp hx with h | h
      · exact (he x h).1
      · simp at h; rcases h with h | h <;> rw [h] <;> rfl
    · intro x hx
      simp at hx; rcases hx with h | h <;> rw [h] <;> rfl
  · rw [ht]
    exact hs.2.1.append_plain (by simp)
  · rw [ht]
    refine Precedes.of_all_not ?_
    intro x hx
    rcases List.mem_append.mp hx with h | h
    · exact (he x h).2.1
    · simp at h; rcases h with h | h | h | h | h <;> rw [h] <;> rfl
  · rw [ht, List.all_append, List.all_eq_true.mpr, Bool.true_and]
    · rfl
    · intro x hx
      simp [(he x hx).2.1, (he x hx).2.2.1]

theorem registered_done {c : Collab} {s : St} (hs : EarlyInv c s) {h0 : Handle}
    (ha : s.kPortForwardArgocd = some h0) (d0 d1 d3 : Bool) (a i : Nat) (l : List Event)
    (hl : l.all Event.isPlain = true) :
    TunnelOrder c (s.trace ++ [Event.ChangeRegistryToGitLab d0, Event.Signal h0,
      Event.DeletePodByLabel DelSite.registered, Event.waitArgoCDToBeReady d1,
      Event.PortForward false PFSite.argocdAgain, Event.GetArgocdAuthToken d3,
      Event.SyncRetry a i] ++ l) := by
  have he := fun x hx => early_facts x (List.all_eq_true.mp hs.1 x hx)
  have hp := fun x hx => plain_facts x (List.all_eq_true.mp hl x hx)
  refine ⟨?_, ?_, ?_⟩
  · have hsplit : s.trace ++ [Event.ChangeRegistryToGitLab d0, Event.Signal h0,
        Event.DeletePodByLabel DelSite.registered, Event.waitArgoCDToBeReady d1,
        Event.PortForward false PFSite.argocdAgain, Event.GetArgocdAuthToken d3,
        Event.SyncRetry a i] ++ l =
        (s.trace ++ [Event.ChangeRegistryToGitLab d0, Event.Signal h0]) ++
          Event.DeletePodByLabel DelSite.registered ::
          ([Event.waitArgoCDToBeReady d1, Event.PortForward false PFSite.argocdAgain,
            Event.GetArgocdAuthToken d3, Event.SyncRetry a i] ++ l) := by simp
    rw [hsplit]
    refine Precedes.append_hit _ ?_ (hs.released ha d0) ?_
    · intro x hx
      rcases List.mem_append.mp hx with h | h
      · exact (he x h).1
      · simp at h; rcases h with h | h <;> rw [h] <;> rfl
    · intro x hx
      rcases List.mem_append.mp hx with h | h
      · simp at h; rcases h with h | h | h | h <;> rw [h] <;> rfl
      · exact (hp x h).2.2.1
  · refine (hs.2.1.append_plain (by simp)).append_plain (fun x hx => (hp x hx).2.1)
  · have hsplit : s.trace ++ [Event.ChangeRegistryToGitLab d0, Event.Signal h0,
        Event.DeletePodByLabel DelSite.registered, Event.waitArgoCDToBeReady d1,
        Event.PortForward false PFSite.argocdAgain, Event.GetArgocdAuthToken d3,
        Event.SyncRetry a i] ++ l =
        (s.trace ++ [Event.ChangeRegistryToGitLab d0, Event.Signal h0,
          Event.DeletePodByLabel DelSite.registered, Event.waitArgoCDToBeReady d1,
          Event.PortForward false PFSite.argocdAgain, Event.GetArgocdAuthToken d3]) ++
          Event.SyncRetry a i :: l := by simp
    rw [hsplit]
    refine Precedes.append_hit _ ?_ ?_ (fun x hx => (hp x hx).2.2.2.1)
    · intro x hx
      rcases List.mem_append.mp hx with h | h
      · exact (he x h).2.1
      · simp at h; rcases h with h | h | h | h | h | h <;> rw [h] <;> rfl
    · exact ⟨s.trace ++ [Event.ChangeRegistryToGitLab d0, Event.Signal h0],
        [Event.waitArgoCDToBeReady d1, Event.PortForward false PFSite.argocdAgain,
          Event.GetArgocdAuthToken d3], by simp, by simp⟩

theorem registeredPhase_order (c : Collab) (g : GlobalFlags) :
    Triple (EarlyInv c) (registeredPhase c g)
      (fun _ s => TunnelOrder c s.trace) (fun _ => StoppedEarly c) := by
  intro s hs
  unfold registeredPhase
  rcases hk : s.viper Key.gitlabRegistered
  · rcases hd : g.DryRun
    · rcases ha : s.kPortForwardArgocd with _ | h0
      · simp [hk, hd, ha]
        exact EarlyInv.stoppedEarly (hs.advance _ (by simp [Event.isPlain]) rfl (by simp [ha]))
      · rcases h3 : c.portForward PFSite.argocdAgain with ⟨_ | h, _ | e3⟩ <;>
          simp [hk, hd, ha, h3]
        · exact registered_stopped hs ha _ _ _ rfl
        · exact registered_stopped hs ha _ _ _ rfl
        · have := registered_done hs ha false false false 120 5
            [Event.ViperSet Key.gitlabRegistered true, Event.WriteConfig,
              Event.IncrementTracker Tracker.stepPostGitlab 1] (by simp [Event.isPlain])
          simpa using this
        · exact registered_stopped hs ha _ _ _ rfl
    · simp [hk, hd]
      exact hs.tunnelOrder_append _ (by simp [Event.isPlain])
  · simp [hk]
    exact hs.tunnelOrder_append _ (by simp [Event.isPlain])

theorem Triple.weaken {α : Type} {P : St → Prop} {m : M α} {Q Q1 : α → St → Prop}
    {E E1 : Abort → St → Prop} (h : Triple P m Q E) (hq : ∀ a s, Q a s → Q1 a s)
    (he : ∀ a s, E a s → E1 a s) : Triple P m Q1 E1 := by
  intro s hs
  have := h s hs
  rcases hm : m s with ⟨r, s1⟩
  rw [hm] at this
  cases r with
  | ok a => exact hq a s1 this
  | error e => exact he e s1 this

theorem tail_facts (x : Event) (h : x.isTail = true) :
    x.isRegisteredRestart = false ∧ x ≠ Event.PatchSecret ∧ x.isSyncRetry = false := by
  cases x <;> simp [Event.isTail] at h <;>
    simp [Event.isRegisteredRestart, Event.isSyncRetry]
  case DeletePodByLabel site =>
    cases site <;> simp at h ⊢

theorem TunnelOrder.append_tail {c : Collab} {t l : List Event} (h : TunnelOrder c t)
    (hl : l.all Event.isTail = true) : TunnelOrder c (t ++ l) := by
  have hf := fun x hx => tail_facts x (List.all_eq_true.mp hl x hx)
  exact ⟨h.1.append_miss (fun x hx => (hf x hx).1), h.2.1.append_plain (fun x hx => (hf x hx).2.1),
    h.2.2.append_miss (fun x hx => (hf x hx).2.2)⟩

theorem hostLoopEvents_tail (c : Collab) (d : Bool) :
    ∀ (n i : Nat), (hostLoopEvents c d n i).all Event.isTail = true
  | 0, i => rfl
  | n + 1, i => by
    rcases ha : c.awaitHostNTimes i <;>
      simp [hostLoopEvents, ha, Event.isTail]
    simpa [List.all_eq_true] using hostLoopEvents_tail c d n (i + 1)

theorem isTail_of_signal (x : Event) (h : x.isSignal = true) : x.isTail = true := by
  cases x <;> first | rfl | simp [Event.isSignal] at h

theorem runWithFlags_order (c : Collab) (skipVault skipGitlab : Bool) (g : GlobalFlags) :
    Triple (EarlyInv c) (runWithFlags c skipVault skipGitlab g)
      (fun _ s => TunnelOrder c s.trace) (fun _ => StoppedEarly c) := by
  have w : ∀ {m : M Unit}, Triple (EarlyInv c) m (fun _ => EarlyInv c) (fun _ => EarlyInv c) →
      Triple (EarlyInv c) m (fun _ => EarlyInv c) (fun _ => StoppedEarly c) :=
    fun h => h.weaken (fun _ _ h => h) (fun _ _ h => h.stoppedEarly)
  have hHost : Triple (fun s => TunnelOrder c s.trace) (awaitArgocdHost c g)
      (fun _ s => TunnelOrder c s.trace) (fun _ => StoppedEarly c) := by
    intro s hs
    rw [awaitArgocdHost_eq]
    refine hs.append_tail ?_
    unfold awaitArgocdHostEvents
    split
    · rfl
    · exact hostLoopEvents_tail c _ 14 1
  have hBack : Triple (fun s => TunnelOrder c s.trace) (configureVaultBackend g skipVault)
      (fun _ s => TunnelOrder c s.trace) (fun _ => StoppedEarly c) := by
    intro s hs
    rw [configureVaultBackend_eq]
    refine hs.append_tail ?_
    cases skipVault <;> simp [backendEvents, Event.isTail]
  unfold runWithFlags
  exact Triple.seq (w (prepareTemporaryRepo_early c g))
    (Triple.seq (w (softServeLoop_early c g.DryRun 10 0))
    (Triple.seq (w (deployArgocd_early c g))
    (Triple.seq (w (adoptRegistry_early c g))
    (Triple.seq (w (awaitVault_early c g))
    (Triple.seq (w (awaitGitlab_early c g))
    (Triple.seq (w (setupGitlab_early c g skipGitlab))
    (Triple.seq (w (configureVault_early c g skipVault))
    (Triple.seq (w (oidcCreatedPhase_early c g))
    (Triple.seq (w (gitopsPushedPhase_early c g))
    (Triple.seq (w (oidcPatchedPhase_early c g))
    (Triple.seq (registeredPhase_order c g)
    (Triple.seq hHost hBack))))))))))))

/-- The calls of every run are in order, and a run whose body stops early has
    called neither `SyncRetry` nor `AwaitHostNTimes`. -/
theorem RunE_order (c : Collab) (v : Key → Bool) :
    TunnelOrder c (RunE c v).2.trace ∧
    ((body c (initial v)).1 ≠ .ok () →
      (RunE c v).2.trace.all (fun x => !x.isSyncRetry && !x.isAwaitHostNTimes) = true) := by
  have hnil : TunnelOrder c [] :=
    ⟨Precedes.of_all_not (by simp), fun pre post h => by simp at h,
      Precedes.of_all_not (by simp)⟩
  rcases h1 : c.getBoolSkipVault with e | skipVault
  · simp [RunE, body_of_skipVault_error c e h1, initial, runDefers, hnil]
  rcases h2 : c.getBoolSkipGitlab with e | skipGitlab
  · simp [RunE, body_of_skipGitlab_error c skipVault e h1 h2, initial, runDefers, hnil]
  rcases h3 : c.processGlobalFlags with e | g
  · have : TunnelOrder c ([] ++ [Event.ProcessGlobalFlags]) :=
      hnil.append_tail rfl
    simp [RunE, body_of_flags_error c skipVault skipGitlab e h1 h2 h3, initial, runDefers,
      Event.isSyncRetry, Event.isAwaitHostNTimes]
    simpa using this
  have h0 : EarlyInv c (afterParameters g v) := by
    refine ⟨rfl, fun pre post h => ?_, ?_⟩
    · have : Event.PatchSecret ∈ (afterParameters g v).trace := by rw [h]; simp
      simp [afterParameters] at this
    · rintro ⟨d, hd⟩
      simp [afterParameters] at hd
  have hb := runWithFlags_order c skipVault skipGitlab g _ h0
  rw [← body_of_flags c skipVault skipGitlab g h1 h2 h3] at hb
  obtain ⟨_, _, sigs, k3, k4⟩ :=
    runDefers_spec (body c (initial v)).2.defers (body c (initial v)).2
  have hsig : sigs.all Event.isTail = true := by
    rw [List.all_eq_true] at k4 ⊢
    exact fun x hx => isTail_of_signal x (k4 x hx)
  have ht : (RunE c v).2.trace = (body c (initial v)).2.trace ++ sigs := by
    simp only [RunE]; exact k3
  rcases hr : body c (initial v) with ⟨r, s1⟩
  rw [hr] at hb ht
  rw [ht]
  rcases r with a | u
  · refine ⟨hb.1.append_tail hsig, fun _ => ?_⟩
    rw [List.all_append, hb.2, Bool.true_and, List.all_eq_true]
    intro x hx
    have := List.all_eq_true.mp k4 x hx
    cases x <;> first | rfl | simp [Event.isSignal] at this
  · exact ⟨TunnelOrder.append_tail hb hsig, fun h => absurd rfl h⟩

/-! ### Every tunnel is released -/

theorem Released.with_var {c : Collab} {s : St} (hs : Released c false s) :
    Released c true s := by
  refine ⟨fun pre d site post h ht hh => ?_, hs.2⟩
  rcases hs.1 pre d site post h ht hh with k | k | k
  · exact Or.inl k
  · exact Or.inr (Or.inl k)
  · exact absurd k.1 (by simp)

/-- Calls that acquire no tunnel, or tunnels whose release is deferred at
    once, keep every tunnel accounted for. -/
theorem Released.extend {c : Collab} {b : Bool} {s s1 : St} (hs : Released c b s)
    (l : List Event) (ht : s1.trace = s.trace ++ l)
    (hv : s1.kPortForwardSoftServe = s.kPortForwardSoftServe)
    (hd : ∀ x, x ∈ s.defers → x ∈ s1.defers)
    (hd2 : Deferred.signalSoftServeVar ∈ s1.defers → Deferred.signalSoftServeVar ∈ s.defers)
    (hl : ∀ d site h, Event.PortForward d site ∈ l → (c.portForward site).1 = some h →
      Deferred.signalProcess h ∈ s1.defers) : Released c b s1 := by
  refine ⟨fun pre d site post h heq hh => ?_, fun hm => ?_⟩
  · rw [ht] at heq
    rcases List.append_eq_append_iff.mp heq with ⟨a, h1, h2⟩ | ⟨a, h1, h2⟩
    · exact Or.inr (Or.inl (hl d site h (by rw [h2]; simp) hh))
    · cases a with
      | nil =>
        rw [List.nil_append] at h2
        exact Or.inr (Or.inl (hl d site h (by rw [← h2]; simp) hh))
      | cons y a1 =>
        simp only [List.cons_append, List.cons.injEq] at h2
        rw [← h2.1] at h1
        rcases hs.1 pre d site a1 h h1 hh with k | k | k
        · exact Or.inl (by rw [h2.2]; exact List.mem_append_left _ k)
        · exact Or.inr (Or.inl (hd _ k))
        · exact Or.inr (Or.inr ⟨k.1, hd _ k.2.1, by rw [hv]; exact k.2.2⟩)
  · obtain ⟨d, i, hm1, hv1⟩ := hs.2 (hd2 hm)
    exact ⟨d, i, by rw [ht]; exact List.mem_append_left _ hm1, by rw [hv]; exact hv1⟩

/-- An iteration of the soft-serve loop that ends the loop or the run: the
    new tunnel is the value of `kPortForwardSoftServe`. -/
theorem Released.acquire_softServe {c : Collab} {s s1 : St} (hs : Released c false s)
    (d : Bool) (i : Nat) (l : List Event)
    (ht : s1.trace = s.trace ++ Event.PortForward d (PFSite.softServe i) :: l)
    (hl : ∀ d1 site, Event.PortForward d1 site ∉ l)
    (hv : s1.kPortForwardSoftServe = (c.portForward (PFSite.softServe i)).1)
    (hd : s1.defers = Deferred.signalSoftServeVar :: s.defers) : Released c true s1 := by
  refine ⟨fun pre d1 site post h heq hh => ?_, fun _ => ⟨d, i, by rw [ht]; simp, hv⟩⟩
  rw [ht] at heq
  rcases List.append_eq_append_iff.mp heq with ⟨a, h1, h2⟩ | ⟨a, h1, h2⟩
  · cases a with
    | nil =>
      simp only [List.nil_append, List.cons.injEq, Event.PortForward.injEq] at h2
      refine Or.inr (Or.inr ⟨rfl, by rw [hd]; simp, ?_⟩)
      rw [hv, h2.1.2, hh]
    | cons y a1 =>
      simp only [List.cons_append, List.cons.injEq] at h2
      exact absurd (show Event.PortForward d1 site ∈ l by rw [h2.2]; simp) (hl d1 site)
  · cases a with
    | nil =>
      simp only [List.nil_append, List.cons.injEq, Event.PortForward.injEq] at h2
      refine Or.inr (Or.inr ⟨rfl, by rw [hd]; simp, ?_⟩)
      rw [hv, ← h2.1.2, hh]
    | cons y a1 =>
      simp only [List.cons_append, List.cons.injEq] at h2
      rw [← h2.1] at h1
      rcases hs.1 pre d1 site a1 h h1 hh with k | k | k
      · exact Or.inl (by rw [h2.2]; exact List.mem_append_left _ k)
      · exact Or.inr (Or.inl (by rw [hd]; exact List.mem_cons_of_mem _ k))
      · exact absurd k.1 (by simp)

/-- An iteration of the soft-serve loop that is followed by another: the new
    tunnel was sent SIGTERM. -/
theorem Released.retry_softServe {c : Collab} {s s1 : St} (hs : Released c false s)
    (d : Bool) (i : Nat) (h0 : Handle)
    (ht : s1.trace = s.trace ++ [Event.PortForward d (PFSite.softServe i),
      Event.ConfigureSoftServeAndPush d, Event.Signal h0])
    (hh0 : (c.portForward (PFSite.softServe i)).1 = some h0)
    (hv : s1.kPortForwardSoftServe = (c.portForward (PFSite.softServe i)).1)
    (hd : s1.defers = Deferred.signalSoftServeVar :: s.defers) : Released c false s1 := by
  refine ⟨fun pre d1 site post h heq hh => ?_, fun _ => ⟨d, i, by rw [ht]; simp, hv⟩⟩
  rw [ht] at heq
  rcases List.append_eq_append_iff.mp heq with ⟨a, h1, h2⟩ | ⟨a, h1, h2⟩
  · cases a with
    | nil =>
      simp only [List.nil_append, List.cons.injEq, Event.PortForward.injEq] at h2
      rw [h2.1.2, hh] at hh0
      cases hh0
      exact Or.inl (by rw [← h2.2]; simp)
    | cons y a1 =>
      simp only [List.cons_append, List.cons.injEq] at h2
      have : Event.PortForward d1 site ∈
          [Event.ConfigureSoftServeAndPush d, Event.Signal h0] := by rw [h2.2]; simp
      simp at this
  · cases a with
    | nil =>
      simp only [List.nil_append, List.cons.injEq, Event.PortForward.injEq] at h2
      rw [← h2.1.2, hh] at hh0
      cases hh0
      exact Or.inl (by rw [h2.2]; simp)
    | cons y a1 =>
      simp only [List.cons_append, List.cons.injEq] at h2
      rw [← h2.1] at h1
      rcases hs.1 pre d1 site a1 h h1 hh with k | k | k
      · exact Or.inl (by rw [h2.2]; exact List.mem_append_left _ k)
      · exact Or.inr (Or.inl (by rw [hd]; exact List.mem_cons_of_mem _ k))
      · exact absurd k.1 (by simp)

theorem softServeLoop_released (c : Collab) (d : Bool) :
    ∀ (n i : Nat), Triple (Released c false) (softServeLoop c d n i)
      (fun _ => Released c true) (fun _ => Released c true)
  | 0, i => by
    intro s hs
    simpa [softServeLoop] using hs.with_var
  | n + 1, i => by
    intro s hs
    have ih := softServeLoop_released c d n (i + 1)
    unfold softServeLoop
    rcases hp : c.portForward (PFSite.softServe i) with ⟨_ | h, _ | e⟩ <;>
      rcases hsc : c.softserveConfigure i <;>
      rcases hcf : c.configureSoftServeAndPush i with _ | e2 <;>
      simp [hp, hsc, hcf] <;>
      first
        | exact hs.acquire_softServe d i _ rfl (by simp) (by simp [hp]) rfl
        | exact ih _ (hs.retry_softServe d i h rfl (by simp [hp]) (by simp [hp]) rfl)

theorem prepareTemporaryRepo_released (c : Collab) (g : GlobalFlags) :
    Triple (Released c false) (prepareTemporaryRepo c g)
      (fun _ => Released c false) (fun _ => Released c true) := by
  intro s hs
  unfold prepareTemporaryRepo
  rcases hc : c.getClientSet with _ | e <;> simp [hc]
  · exact hs.extend _ rfl rfl (fun _ hx => hx) (fun hx => hx) (by simp)
  · refine Released.with_var ?_
    exact hs.extend _ rfl rfl (fun _ hx => hx) (fun hx => hx) (by simp)

theorem deployArgocd_released (c : Collab) (g : GlobalFlags) :
    Triple (Released c true) (deployArgocd c g)
      (fun _ => Released c true) (fun _ => Released c true) := by
  intro s hs
  unfold deployArgocd
  rcases h1 : c.installArgocd with _ | e
  · rcases hd : g.DryRun
    · rcases h3 : c.portForward PFSite.argocd with ⟨_ | h, _ | e3⟩ <;>
        simp [h1, h3, hd] <;>
        first
          | exact hs.extend _ rfl rfl (fun _ hx => hx) (fun hx => hx)
              (by intro d1 site h5 hm hh; simp at hm; rw [hm.2, h3] at hh; cases hh)
          | exact hs.extend _ rfl rfl (fun _ hx => List.mem_cons_of_mem _ hx) (by simp)
              (by intro d1 site h5 hm hh; simp at hm; rw [hm.2, h3] at hh; cases hh; simp)
    · simp [h1, hd]
      exact hs.extend _ rfl rfl (fun _ hx => hx) (fun hx => hx) (by simp)
  · simp [h1]
    exact hs.extend _ rfl rfl (fun _ hx => hx) (fun hx => hx) (by simp)

theorem adoptRegistry_released (c : Collab) (g : GlobalFlags) :
    Triple (Released c true) (adoptRegistry c g)
      (fun _ => Released c true) (fun _ => Released c true) := by
  intro s hs
  unfold adoptRegistry
  rcases hd : g.DryRun <;> rcases h2 : c.execShellKubectlApply with _ | e2 <;>
    simp [h2, hd] <;>
    exact hs.extend _ rfl rfl (fun _ hx => hx) (fun hx => hx) (by simp)

theorem awaitVault_released (c : Collab) (g : GlobalFlags) :
    Triple (Released c true) (awaitVault c g)
      (fun _ => Released c true) (fun _ => Released c true) := by
  intro s hs
  unfold awaitVault
  rcases hd : g.DryRun
  · rcases h3 : c.portForward PFSite.vault with ⟨_ | h, _ | e3⟩ <;>
      simp [h3, hd] <;>
      first
        | exact hs.extend _ rfl rfl (fun _ hx => hx) (fun hx => hx)
            (by intro d1 site h5 hm hh; simp at hm; rw [hm.2, h3] at hh; cases hh)
        | exact hs.extend _ rfl rfl (fun _ hx => List.mem_cons_of_mem _ hx) (by simp)
            (by intro d1 site h5 hm hh; simp at hm; rw [hm.2, h3] at hh; cases hh; simp)
  · simp [hd]
    exact hs.extend _ rfl rfl (fun _ hx => hx) (fun hx => hx) (by simp)

theorem awaitGitlab_released (c : Collab) (g : GlobalFlags) :
    Triple (Released c true) (awaitGitlab c g)
      (fun _ => Released c true) (fun _ => Released c true) := by
  intro s hs
  unfold awaitGitlab
  rcases hd : g.DryRun
  · rcases h3 : c.portForward PFSite.gitlab with ⟨_ | h, _ | e3⟩ <;>
      simp [h3, hd] <;>
      first
        | exact hs.extend _ rfl rfl (fun _ hx => hx) (fun hx => hx)
            (by intro d1 site h5 hm hh; simp at hm; rw [hm.2, h3] at hh; cases hh)
        | exact hs.extend _ rfl rfl (fun _ hx => List.mem_cons_of_mem _ hx) (by simp)
            (by intro d1 site h5 hm hh; simp at hm; rw [hm.2, h3] at hh; cases hh; simp)
  · simp [hd]
    exact hs.extend _ rfl rfl (fun _ hx => hx) (fun hx => hx) (by simp)

theorem setupGitlab_released (c : Collab) (g : GlobalFlags) (skipGitlab : Bool) :
    Triple (Released c true) (setupGitlab g skipGitlab)
      (fun _ => Released c true) (fun _ => Released c true) := by
  intro s hs
  unfold setupGitlab
  rcases skipGitlab <;> simp <;>
    exact hs.extend _ rfl rfl (fun _ hx => hx) (fun hx => hx) (by simp)

theorem configureVault_released (c : Collab) (g : GlobalFlags) (skipVault : Bool) :
    Triple (Released c true) (configureVault g skipVault)
      (fun _ => Released c true) (fun _ => Released c true) := by
  intro s hs
  unfold configureVault
  rcases skipVault <;> simp
  · exact hs.extend _ rfl rfl (fun _ hx => hx) (fun hx => hx) (by simp)
  · exact hs

theorem oidcCreatedPhase_released (c : Collab) (g : GlobalFlags) :
    Triple (Released c true) (oidcCreatedPhase g)
      (fun _ => Released c true) (fun _ => Released c true) := by
  intro s hs
  unfold oidcCreatedPhase
  rcases hk : s.viper Key.gitlabOidcCreated <;> simp [hk] <;>
    exact hs.extend _ rfl rfl (fun _ hx => hx) (fun hx => hx) (by simp)

theorem gitopsPushedPhase_released (c : Collab) (g : GlobalFlags) :
    Triple (Released c true) (gitopsPushedPhase g)
      (fun _ => Released c true) (fun _ => Released c true) := by
  intro s hs
  unfold gitopsPushedPhase
  rcases hk : s.viper Key.gitlabGitopsPushed <;> simp [hk] <;>
    exact hs.extend _ rfl rfl (fun _ hx => hx) (fun hx => hx) (by simp)

theorem oidcPatchedPhase_released (c : Collab) (g : GlobalFlags) :
    Triple (Released c true) (oidcPatchedPhase g)
      (fun _ => Released c true) (fun _ => Released c true) := by
  intro s hs
  unfold oidcPatchedPhase
  rcases hk : s.viper Key.argocdOidcPatched <;> rcases hd : g.DryRun <;> simp [hk, hd]
  · exact hs.extend _ rfl rfl (fun _ hx => hx) (fun hx => hx) (by simp)
  all_goals exact hs

theorem registeredPhase_released (c : Collab) (g : GlobalFlags) :
    Triple (Released c true) (registeredPhase c g)
      (fun _ => Released c true) (fun _ => Released c true) := by
  intro s hs
  unfold registeredPhase
  rcases hk : s.viper Key.gitlabRegistered
  · rcases hd : g.DryRun
    · rcases ha : s.kPortForwardArgocd with _ | h0
      · simp [hk, hd, ha]
        exact hs.extend _ rfl rfl (fun _ hx => hx) (fun hx => hx) (by simp)
      · rcases h3 : c.portForward PFSite.argocdAgain with ⟨_ | h, _ | e3⟩ <;>
          simp [hk, hd, ha, h3] <;>
          first
            | exact hs.extend _ rfl rfl (fun _ hx => hx) (fun hx => hx)
                (by intro d1 site h5 hm hh; simp at hm; rw [hm.2, h3] at hh; cases hh)
            | exact hs.extend _ rfl rfl (fun _ hx => List.mem_cons_of_mem _ hx) (by simp)
                (by intro d1 site h5 hm hh; simp at hm; rw [hm.2, h3] at hh; cases hh; simp)
    · simp [hk, hd]
      exact hs.extend _ rfl rfl (fun _ hx => hx) (fun hx => hx) (by simp)
  · simp [hk]
    exact hs.extend _ rfl rfl (fun _ hx => hx) (fun hx => hx) (by simp)

theorem hostLoopEvents_no_tunnel (c : Collab) (d : Bool) :
    ∀ (n i : Nat) (d1 : Bool) (site : PFSite),
      Event.PortForward d1 site ∉ hostLoopEvents c d n i
  | 0, i, d1, site => by simp [hostLoopEvents]
  | n + 1, i, d1, site => by
    rcases ha : c.awaitHostNTimes i <;> simp [hostLoopEvents, ha]
    exact hostLoopEvents_no_tunnel c d n (i + 1) d1 site

theorem awaitArgocdHost_released (c : Collab) (g : GlobalFlags) :
    Triple (Released c true) (awaitArgocdHost c g)
      (fun _ => Released c true) (fun _ => Released c true) := by
  intro s hs
  rw [awaitArgocdHost_eq]
  refine hs.extend _ rfl rfl (fun _ hx => hx) (fun hx => hx) ?_
  intro d1 site h hm
  unfold awaitArgocdHostEvents at hm
  split at hm
  · simp at hm
  · exact absurd hm (hostLoopEvents_no_tunnel c _ 14 1 d1 site)

theorem configureVaultBackend_released (c : Collab) (g : GlobalFlags) (skipVault : Bool) :
    Triple (Released c true) (configureVaultBackend g skipVault)
      (fun _ => Released c true) (fun _ => Released c true) := by
  intro s hs
  rw [configureVaultBackend_eq]
  refine hs.extend _ rfl rfl (fun _ hx => hx) (fun hx => hx) ?_
  cases skipVault <;> simp [backendEvents]

theorem runWithFlags_released (c : Collab) (skipVault skipGitlab : Bool) (g : GlobalFlags) :
    Triple (Released c false) (runWithFlags c skipVault skipGitlab g)
      (fun _ => Released c true) (fun _ => Released c true) := by
  unfold runWithFlags
  exact Triple.seq (prepareTemporaryRepo_released c g)
    (Triple.seq (softServeLoop_released c g.DryRun 10 0)
    (Triple.seq (deployArgocd_released c g)
    (Triple.seq (adoptRegistry_released c g)
    (Triple.seq (awaitVault_released c g)
    (Triple.seq (awaitGitlab_released c g)
    (Triple.seq (setupGitlab_released c g skipGitlab)
    (Triple.seq (configureVault_released c g skipVault)
    (Triple.seq (oidcCreatedPhase_released c g)
    (Triple.seq (gitopsPushedPhase_released c g)
    (Triple.seq (oidcPatchedPhase_released c g)
    (Triple.seq (registeredPhase_released c g)
    (Triple.seq (awaitArgocdHost_released c g)
      (configureVaultBackend_released c g skipVault)))))))))))))

/-- What the deferred calls send: SIGTERM to every process bound by a `defer`
    statement and, if a closure of line 94 is pending, to the process held by
    `kPortForwardSoftServe`; a deferred call panics only when that variable
    is nil. -/
theorem runDefers_signals : ∀ (ds : List Deferred) (s : St),
    ∃ sigs, (runDefers ds s).2.trace = s.trace ++ sigs ∧ sigs.all Event.isSignal = true ∧
      (∀ h, Deferred.signalProcess h ∈ ds → Event.Signal h ∈ sigs) ∧
      (Deferred.signalSoftServeVar ∈ ds →
        ∀ h, s.kPortForwardSoftServe = some h → Event.Signal h ∈ sigs) ∧
      ((runDefers ds s).1 = true →
        Deferred.signalSoftServeVar ∈ ds ∧ s.kPortForwardSoftServe = none)
  | [], s => ⟨[], by simp [runDefers], rfl, by simp, by simp, by simp [runDefers]⟩
  | d :: ds, s => by
    cases d with
    | signalProcess h0 =>
      obtain ⟨sigs, k1, k2, k3, k4, k5⟩ := runDefers_signals ds
        { s with trace := s.trace ++ [Event.Signal h0] }
      refine ⟨Event.Signal h0 :: sigs, ?_, ?_, ?_, ?_, ?_⟩
      · simp only [runDefers, runDeferred]
        rw [k1]; simp
      · simp [k2, Event.isSignal]
      · intro h hm
        rcases List.mem_cons.mp hm with hm | hm
        · cases hm; simp
        · exact List.mem_cons_of_mem _ (k3 h hm)
      · intro hm h hv
        rcases List.mem_cons.mp hm with hm | hm
        · cases hm
        · exact List.mem_cons_of_mem _ (k4 hm h hv)
      · intro hp
        simp only [runDefers, runDeferred, Bool.false_or] at hp
        exact ⟨List.mem_cons_of_mem _ (k5 hp).1, (k5 hp).2⟩
    | signalSoftServeVar =>
      cases hv : s.kPortForwardSoftServe with
      | none =>
        obtain ⟨sigs, k1, k2, k3, k4, k5⟩ := runDefers_signals ds s
        refine ⟨sigs, ?_, k2, ?_, ?_, ?_⟩
        · simp only [runDefers, runDeferred, hv]
          exact k1
        · intro h hm
          rcases List.mem_cons.mp hm with hm | hm
          · cases hm
          · exact k3 h hm
        · intro _ h hh
          cases hh
        · intro _
          exact ⟨by simp, rfl⟩
      | some h0 =>
        obtain ⟨sigs, k1, k2, k3, k4, k5⟩ := runDefers_signals ds
          { s with trace := s.trace ++ [Event.Signal h0] }
        have hrd : runDeferred Deferred.signalSoftServeVar s =
            (false, { s with trace := s.trace ++ [Event.Signal h0] }) := by
          simp only [runDeferred, hv]
        refine ⟨Event.Signal h0 :: sigs, ?_, ?_, ?_, ?_, ?_⟩
        · simp only [runDefers, hrd]
          rw [k1]; simp
        · simp [k2, Event.isSignal]
        · intro h hm
          rcases List.mem_cons.mp hm with hm | hm
          · cases hm
          · exact List.mem_cons_of_mem _ (k3 h hm)
        · intro _ h hh
          cases hh
          simp
        · intro hp
          simp only [runDefers, hrd, Bool.false_or] at hp
          have := (k5 hp).2
          simp [hv] at this

/-- The state in which the body of `RunE` stops or ends accounts for every
    tunnel. -/
theorem body_released (c : Collab) (v : Key → Bool) :
    Released c true (body c (initial v)).2 := by
  have hnil : ∀ (l : List Event), (∀ d site, Event.PortForward d site ∉ l) →
      Released c false { initial v with trace := l } := by
    intro l hl
    refine ⟨fun pre d site post h heq _ => ?_, fun hm => ?_⟩
    · exact absurd (show Event.PortForward d site ∈ l by
        simp only at heq; rw [heq]; simp) (hl d site)
    · simp [initial] at hm
  rcases h1 : c.getBoolSkipVault with e | skipVault
  · rw [body_of_skipVault_error c e h1]
    exact (hnil [] (by simp)).with_var
  rcases h2 : c.getBoolSkipGitlab with e | skipGitlab
  · rw [body_of_skipGitlab_error c skipVault e h1 h2]
    exact (hnil [] (by simp)).with_var
  rcases h3 : c.processGlobalFlags with e | g
  · rw [body_of_flags_error c skipVault skipGitlab e h1 h2 h3]
    exact (hnil [Event.ProcessGlobalFlags] (by simp)).with_var
  have h0 : Released c false (afterParameters g v) := hnil _ (by simp [afterParameters])
  have hb := runWithFlags_released c skipVault skipGitlab g _ h0
  rw [← body_of_flags c skipVault skipGitlab g h1 h2 h3] at hb
  rcases hr : body c (initial v) with ⟨r, s1⟩
  rw [hr] at hb
  cases r <;> exact hb

/-- Every tunnel process acquired in a run is sent SIGTERM after its
    `PortForward`, before `RunE` returns. -/
theorem RunE_allReleased (c : Collab) (v : Key → Bool) :
    AllReleased c (RunE c v).2.trace := by
  intro pre d site post h heq hh
  have hb := body_released c v
  obtain ⟨sigs, k1, k2, k3, k4, _⟩ :=
    runDefers_signals (body c (initial v)).2.defers (body c (initial v)).2
  have ht : (RunE c v).2.trace = (body c (initial v)).2.trace ++ sigs := by
    simp only [RunE]; exact k1
  rw [ht] at heq
  have hsig : Event.PortForward d site ∉ sigs := by
    intro hm
    have := List.all_eq_true.mp k2 _ hm
    simp [Event.isSignal] at this
  rcases List.append_eq_append_iff.mp heq with ⟨a, _, h2⟩ | ⟨a, h1, h2⟩
  · exact absurd (show Event.PortForward d site ∈ sigs by rw [h2]; simp) hsig
  · cases a with
    | nil =>
      rw [List.nil_append] at h2
      exact absurd (show Event.PortForward d site ∈ sigs by rw [← h2]; simp) hsig
    | cons y a1 =>
      simp only [List.cons_append, List.cons.injEq] at h2
      rw [← h2.1] at h1
      rw [h2.2]
      rcases hb.1 pre d site a1 h h1 hh with k | k | k
      · exact List.mem_append_left _ k
      · exact List.mem_append_right _ (k3 h k)
      · exact List.mem_append_right _ (k4 k.2.1 h k.2.2)

/-- A deferred call of a run panics only if some soft-serve `PortForward` of
    the run handed back a nil command. -/
theorem RunE_defers_panic (c : Collab) (v : Key → Bool)
    (hp : (runDefers (body c (initial v)).2.defers (body c (initial v)).2).1 = true) :
    ∃ d i, Event.PortForward d (PFSite.softServe i) ∈ (RunE c v).2.trace ∧
      (c.portForward (PFSite.softServe i)).1 = none := by
  obtain ⟨sigs, k1, _, _, _, k5⟩ :=
    runDefers_signals (body c (initial v)).2.defers (body c (initial v)).2
  obtain ⟨d, i, hm, hi⟩ := (body_released c v).2 (k5 hp).1
  refine ⟨d, i, ?_, by rw [← hi]; exact (k5 hp).2⟩
  simp only [RunE]
  rw [k1]
  exact List.mem_append_left _ hm

/-! ### C5 -/

/-- C5, as stated, fails when soft-serve is configured at the second attempt:
    the run returns nil, and both the process of the second soft-serve tunnel
    (101, acquired once) and the process of the first argocd tunnel (1,
    acquired once) are sent SIGTERM twice. -/
theorem c5_tunnel_release_counterexample :
    (RunE flakySoftServe freshViper).1 = Outcome.nil ∧
    (flakySoftServe.portForward (PFSite.softServe 1)).1 = some 101 ∧
    (RunE flakySoftServe freshViper).2.trace.count
      (Event.PortForward false (PFSite.softServe 1)) = 1 ∧
    (RunE flakySoftServe freshViper).2.trace.count (Event.Signal 101) = 2 ∧
    (flakySoftServe.portForward PFSite.argocd).1 = some 1 ∧
    (RunE flakySoftServe freshViper).2.trace.count
      (Event.PortForward false PFSite.argocd) = 1 ∧
    (RunE flakySoftServe freshViper).2.trace.count (Event.Signal 1) = 2 := by
  decide!

/-- C5, amended: in every run of `create-gitlab`, whether it returns nil, an
    error or panics, every process handed back by a `PortForward` of the run
    is sent SIGTERM at least once after that `PortForward` and before `RunE`
    returns. -/
theorem c5_tunnel_release_amended (c : Collab) (v : Key → Bool) (pre post : List Event)
    (d : Bool) (site : PFSite) (h : Handle)
    (hsplit : (RunE c v).2.trace = pre ++ Event.PortForward d site :: post)
    (hcmd : (c.portForward site).1 = some h) :
    Event.Signal h ∈ post :=
  RunE_allReleased c v pre d site post h hsplit hcmd

theorem c5_tunnel_release_amended_witness :
    Event.Signal 100 ∈
      ((RunE flakySoftServe freshViper).2.trace.dropWhile
        (fun x => x != Event.PortForward false (PFSite.softServe 0))).tail :=
  c5_tunnel_release_amended flakySoftServe freshViper
    ((RunE flakySoftServe freshViper).2.trace.takeWhile
      (fun x => x != Event.PortForward false (PFSite.softServe 0)))
    ((RunE flakySoftServe freshViper).2.trace.dropWhile
      (fun x => x != Event.PortForward false (PFSite.softServe 0))).tail
    false (PFSite.softServe 0) 100 (by decide!) rfl

/-! ### C9 -/

/-- C9, as stated, fails when the soft-serve `PortForward` hands back a nil
    command and no error: the run calls `SyncRetry` and configures the vault
    backend, but the closure deferred at line 94 then dereferences the nil
    command and `RunE` panics instead of returning nil. -/
theorem c9_transient_failures_counterexample :
    (nilSoftServe.portForward (PFSite.softServe 0)).1 = none ∧
    Event.SyncRetry 120 5 ∈ (RunE nilSoftServe freshViper).2.trace ∧
    Event.ConfigureVault false false ∈ (RunE nilSoftServe freshViper).2.trace ∧
    (RunE nilSoftServe freshViper).1 = Outcome.panic := by
  decide!

/-- C9, amended: a run that calls `SyncRetry` does not stop there whatever
    `SyncRetry` and `AwaitHostNTimes` answer: the statements of `RunE` run to
    their end, `gitlab.registered` is set and written right after the call,
    the vault backend is configured unless `skip-vault`, and `RunE` returns
    nil, or panics in a deferred call and then some soft-serve `PortForward`
    of the run handed back a nil command. -/
theorem c9_transient_failures_amended (c : Collab) (v : Key → Bool) (skipVault : Bool)
    (hsv : c.getBoolSkipVault = .ok skipVault)
    (hsync : ∃ a i, Event.SyncRetry a i ∈ (RunE c v).2.trace) :
    ((RunE c v).1 = Outcome.nil ∨
      ((RunE c v).1 = Outcome.panic ∧ ∃ d i,
        Event.PortForward d (PFSite.softServe i) ∈ (RunE c v).2.trace ∧
        (c.portForward (PFSite.softServe i)).1 = none)) ∧
    (body c (initial v)).1 = .ok () ∧
    (RunE c v).2.viper Key.gitlabRegistered = true ∧
    (∃ pre post, (RunE c v).2.trace = pre ++ Event.SyncRetry 120 5 ::
      Event.ViperSet Key.gitlabRegistered true :: Event.WriteConfig :: post) ∧
    (skipVault = false → Event.ConfigureVault false false ∈ (RunE c v).2.trace) := by
  obtain ⟨a, i, hm⟩ := hsync
  have hbody : (body c (initial v)).1 = .ok () := by
    by_contra hne
    have := List.all_eq_true.mp ((RunE_order c v).2 hne) _ hm
    simp [Event.isSyncRetry] at this
  obtain ⟨sv, sg, g, lss, h0, sigs, hsv1, _, hg, _, _, ht, hw, _⟩ := RunE_of_body_ok hbody
  rw [hsv] at hsv1
  cases hsv1
  have hal : allowed g v (Event.SyncRetry a i) = true := by
    rcases RunE_allowed c v with ⟨g1, hg1, hI⟩ | h0 | h0
    · rw [hg] at hg1
      cases hg1
      exact List.all_eq_true.mp hI.2 _ hm
    · rw [h0] at hm; cases hm
    · rw [h0] at hm; simp at hm
  simp only [allowed, Bool.and_eq_true, Bool.not_eq_true'] at hal
  obtain ⟨hd, hreg⟩ := hal
  refine ⟨?_, hbody, by rw [hw]; rfl, ?_, ?_⟩
  · rcases hp : (runDefers (body c (initial v)).2.defers (body c (initial v)).2).1
    · left
      simp only [RunE, hbody, hp, outcomeOf]
      rfl
    · right
      obtain ⟨d, j, hj, hnone⟩ := RunE_defers_panic c v hp
      refine ⟨?_, d, j, hj, hnone⟩
      simp only [RunE, hbody, hp, outcomeOf]
      rfl
  · rw [ht]
    exact ⟨(afterParameters g v).trace ++ prepareEvents g.DryRun ++ lss ++
      deployArgocdEvents g.DryRun ++ adoptRegistryEvents g.DryRun ++
      awaitVaultEvents g.DryRun ++ awaitGitlabEvents g.DryRun ++
      setupGitlabEvents g.DryRun sg ++ configureVaultEvents g.DryRun skipVault ++
      oidcCreatedEvents g.DryRun (v Key.gitlabOidcCreated) ++
      gitopsPushedEvents g.DryRun (v Key.gitlabGitopsPushed) ++
      oidcPatchedEvents g.DryRun (v Key.argocdOidcPatched) ++
      [Event.ChangeRegistryToGitLab g.DryRun, Event.Signal h0,
       Event.DeletePodByLabel DelSite.registered, Event.waitArgoCDToBeReady g.DryRun,
       Event.PortForward g.DryRun PFSite.argocdAgain, Event.GetArgocdAuthToken g.DryRun], _,
      by simp only [okTrace, registeredEvents, hreg, hd, List.append_assoc]; rfl⟩
  · intro hs
    rw [ht, hs]
    simp [okTrace, backendEvents, hd]

/-- C9 amended, at a run in which `SyncRetry` reports an error and the argocd
    host never resolves: it returns nil. -/
theorem c9_transient_failures_amended_witness :
    (RunE failingSync freshViper).1 = Outcome.nil ∧
    (RunE failingSync freshViper).2.viper Key.gitlabRegistered = true ∧
    Event.ConfigureVault false false ∈ (RunE failingSync freshViper).2.trace :=
  have h := c9_transient_failures_amended failingSync freshViper false rfl
    ⟨120, 5, by decide!⟩
  ⟨h.1.resolve_right (fun hp => absurd hp.1 (by decide!)), h.2.2.1, h.2.2.2.2 rfl⟩

/-! ### C6 -/

/-- C6, as stated, fails on a fresh run outside dry-run: when argocd-server is
    deleted at line 268 the tunnel of line 133 (process 1) has been acquired
    and not yet sent SIGTERM, and after `PatchSecret` the pod is deleted
    twice (lines 268 and 291). -/
theorem c6_stale_tunnel_counterexample :
    Event.DeletePodByLabel DelSite.oidcPatch ∈ (RunE (smoothCollab false) freshViper).2.trace ∧
    Event.PortForward false PFSite.argocd ∈
      (RunE (smoothCollab false) freshViper).2.trace.takeWhile
        (fun x => x != Event.DeletePodByLabel DelSite.oidcPatch) ∧
    ((smoothCollab false).portForward PFSite.argocd).1 = some 1 ∧
    Event.Signal 1 ∉
      (RunE (smoothCollab false) freshViper).2.trace.takeWhile
        (fun x => x != Event.DeletePodByLabel DelSite.oidcPatch) ∧
    ((RunE (smoothCollab false) freshViper).2.trace.dropWhile
        (fun x => x != Event.PatchSecret)).count (Event.DeletePodByLabel DelSite.oidcPatch) +
      ((RunE (smoothCollab false) freshViper).2.trace.dropWhile
        (fun x => x != Event.PatchSecret)).count (Event.DeletePodByLabel DelSite.registered)
      = 2 := by
  decide!

/-- C6, amended: in every run of `create-gitlab`, when argocd-server is
    deleted in the `gitlab.registered` phase (line 291) every argocd tunnel
    acquired so far has been sent SIGTERM; every `PatchSecret` is followed at
    once by the deletion of line 268; and `SyncRetry` is called only after
    the deletion of line 291 and a new `PortForward` to argocd-server that
    follows it. -/
theorem c6_stale_tunnel_amended (c : Collab) (v : Key → Bool) :
    TunnelOrder c (RunE c v).2.trace :=
  (RunE_order c v).1

/-! ### C7 -/

/-- C7: outside dry-run, in a run whose body gets to the loop of line 339, if
    `AwaitHostNTimes` answers false in iterations `1 .. k-1` and true in
    iteration `k`, with `k` within the bound of the loop, then
    `AwaitHostNTimes` is called `k` times and the loop restarts argocd-server
    `k - 1` times. -/
theorem c7_host_loop_short_circuit (c : Collab) (v : Key → Bool) (g : GlobalFlags) (k : Nat)
    (hg : c.processGlobalFlags = .ok g) (hd : g.DryRun = false)
    (hend : (body c (initial v)).1 = .ok ())
    (hk1 : 1 ≤ k) (hk2 : k < 15)
    (hf : ∀ j, 1 ≤ j → j < k → c.awaitHostNTimes j = false)
    (ht : c.awaitHostNTimes k = true) :
    (RunE c v).2.trace.countP Event.isAwaitHostNTimes = k ∧
    (RunE c v).2.trace.countP Event.isHostLoopRestart = k - 1 := by
  obtain ⟨h1, h2⟩ := RunE_hostLoop_counts hend g hg
  obtain ⟨k1, k2⟩ := hostLoopEvents_counts c g.DryRun 14 1 k hk1 (by omega) hf ht
  rw [h1, h2]
  simp only [awaitArgocdHostEvents, hd, Bool.false_eq_true, if_false]
  rw [hd] at k1 k2
  exact ⟨by rw [k1]; omega, k2⟩

theorem c7_host_loop_short_circuit_witness :
    (RunE fourthPollHost freshViper).2.trace.countP Event.isAwaitHostNTimes = 4 ∧
    (RunE fourthPollHost freshViper).2.trace.countP Event.isHostLoopRestart = 4 - 1 :=
  c7_host_loop_short_circuit fourthPollHost freshViper
    { DryRun := false, UseTelemetry := true, SilentMode := false } 4 rfl rfl
    (body_ok_of_nil (by decide!)) (by decide) (by decide)
    (fun j _ h2 => by
      show decide (4 ≤ j) = false
      simp only [decide_eq_false_iff_not]
      omega)
    rfl

/-! ### C11 -/

/-- C11: in a fresh dry-run without skip flags, which returns nil, the
    increments of `step-softserve` sum to 5 against a declared total of 4 and
    those of `step-argo` sum to 6 against a declared total of 5; the
    increments of the other five trackers sum to their declared totals. -/
theorem c11_progress_accounting :
    (RunE (smoothCollab true) freshViper).1 = Outcome.nil ∧
    Event.AddTracker Tracker.stepSoftserve 4 ∈ (RunE (smoothCollab true) freshViper).2.trace ∧
    incrementSum Tracker.stepSoftserve (RunE (smoothCollab true) freshViper).2.trace = 5 ∧
    Event.AddTracker Tracker.stepArgo 5 ∈ (RunE (smoothCollab true) freshViper).2.trace ∧
    incrementSum Tracker.stepArgo (RunE (smoothCollab true) freshViper).2.trace = 6 ∧
    incrementSum Tracker.step0 (RunE (smoothCollab true) freshViper).2.trace = 1 ∧
    incrementSum Tracker.stepGitlab (RunE (smoothCollab true) freshViper).2.trace = 6 ∧
    incrementSum Tracker.stepVault (RunE (smoothCollab true) freshViper).2.trace = 2 ∧
    incrementSum Tracker.stepPostGitlab (RunE (smoothCollab true) freshViper).2.trace = 3 ∧
    incrementSum Tracker.stepVaultBe (RunE (smoothCollab true) freshViper).2.trace = 1 := by
  decide!

/-! ### C12 -/

/-- C12: a dry-run that returns nil from a configuration in which the four
    checkpoint keys are false leaves `gitlab.oidc-created`,
    `gitlab.gitops-pushed` and `gitlab.registered` true, each set by
    `viper.Set` followed at once by `viper.WriteConfig`, and leaves
    `argocd.oidc-patched` false; any following run on that configuration, in
    or outside dry-run, calls none of `AddGitlabOidcApplications`,
    `PushGitRepo`, `ChangeRegistryToGitLab` and `SyncRetry`. -/
theorem c12_dry_run_checkpoints (c c2 : Collab) (v : Key → Bool) (g : GlobalFlags)
    (hg : c.processGlobalFlags = .ok g) (hd : g.DryRun = true)
    (hv : ∀ k, v k = false) (hn : (RunE c v).1 = Outcome.nil) :
    (RunE c v).2.viper Key.gitlabOidcCreated = true ∧
    (RunE c v).2.viper Key.gitlabGitopsPushed = true ∧
    (RunE c v).2.viper Key.gitlabRegistered = true ∧
    (RunE c v).2.viper Key.argocdOidcPatched = false ∧
    (∀ k, k ≠ Key.argocdOidcPatched → ∃ pre post, (RunE c v).2.trace =
      pre ++ Event.ViperSet k true :: Event.WriteConfig :: post) ∧
    (∀ d, Event.AddGitlabOidcApplications d ∉ (RunE c2 (RunE c v).2.viper).2.trace) ∧
    (∀ d, Event.PushGitRepo d ∉ (RunE c2 (RunE c v).2.viper).2.trace) ∧
    (∀ d, Event.ChangeRegistryToGitLab d ∉ (RunE c2 (RunE c v).2.viper).2.trace) ∧
    (∀ a i, Event.SyncRetry a i ∉ (RunE c2 (RunE c v).2.viper).2.trace) := by
  obtain ⟨sv, sg, g1, lss, h0, sigs, _, _, hg1, _, _, ht, hw, _⟩ :=
    RunE_of_body_ok (body_ok_of_nil hn)
  rw [hg] at hg1
  cases hg1
  have w1 : (RunE c v).2.viper Key.gitlabOidcCreated = true := by rw [hw]; rfl
  have w2 : (RunE c v).2.viper Key.gitlabGitopsPushed = true := by rw [hw]; rfl
  have w3 : (RunE c v).2.viper Key.gitlabRegistered = true := by rw [hw]; rfl
  have w4 : (RunE c v).2.viper Key.argocdOidcPatched = false := by
    rw [hw]; simp [finalViper, hv, hd]
  refine ⟨w1, w2, w3, w4, ?_, ?_, ?_, ?_, ?_⟩
  · intro k hk
    rw [ht]
    cases k with
    | gitlabOidcCreated =>
      exact ⟨(afterParameters g v).trace ++ prepareEvents g.DryRun ++ lss ++
        deployArgocdEvents g.DryRun ++ adoptRegistryEvents g.DryRun ++
        awaitVaultEvents g.DryRun ++ awaitGitlabEvents g.DryRun ++
        setupGitlabEvents g.DryRun sg ++ configureVaultEvents g.DryRun sv ++
        [Event.AddTracker Tracker.stepPostGitlab 3, Event.AddGitlabOidcApplications g.DryRun,
         Event.AwaitHost g.DryRun], _,
        by simp only [okTrace, oidcCreatedEvents, hv, List.append_assoc]; rfl⟩
    | gitlabGitopsPushed =>
      exact ⟨(afterParameters g v).trace ++ prepareEvents g.DryRun ++ lss ++
        deployArgocdEvents g.DryRun ++ adoptRegistryEvents g.DryRun ++
        awaitVaultEvents g.DryRun ++ awaitGitlabEvents g.DryRun ++
        setupGitlabEvents g.DryRun sg ++ configureVaultEvents g.DryRun sv ++
        oidcCreatedEvents g.DryRun (v Key.gitlabOidcCreated) ++
        [Event.PushGitRepo g.DryRun], _,
        by simp only [okTrace, gitopsPushedEvents, hv, List.append_assoc]; rfl⟩
    | argocdOidcPatched => exact absurd rfl hk
    | gitlabRegistered =>
      exact ⟨(afterParameters g v).trace ++ prepareEvents g.DryRun ++ lss ++
        deployArgocdEvents g.DryRun ++ adoptRegistryEvents g.DryRun ++
        awaitVaultEvents g.DryRun ++ awaitGitlabEvents g.DryRun ++
        setupGitlabEvents g.DryRun sg ++ configureVaultEvents g.DryRun sv ++
        oidcCreatedEvents g.DryRun (v Key.gitlabOidcCreated) ++
        gitopsPushedEvents g.DryRun (v Key.gitlabGitopsPushed) ++
        oidcPatchedEvents g.DryRun (v Key.argocdOidcPatched) ++
        [Event.ChangeRegistryToGitLab g.DryRun, Event.waitArgoCDToBeReady g.DryRun,
         Event.GetArgocdAuthToken g.DryRun], _,
        by simp only [okTrace, registeredEvents, hv, hd, List.append_assoc]; rfl⟩
  · intro d
    exact RunE_not_mem c2 _ _ (by intro g1; simp [allowed, w1]) (by simp)
  · intro d
    exact RunE_not_mem c2 _ _ (by intro g1; simp [allowed, w2]) (by simp)
  · intro d
    exact RunE_not_mem c2 _ _ (by intro g1; simp [allowed, w3]) (by simp)
  · intro a i
    exact RunE_not_mem c2 _ _ (by intro g1; simp [allowed, w3]) (by simp)

theorem c12_dry_run_checkpoints_witness :
    (RunE (smoothCollab true) freshViper).1 = Outcome.nil ∧
    (RunE (smoothCollab true) freshViper).2.viper Key.gitlabOidcCreated = true ∧
    (RunE (smoothCollab true) freshViper).2.viper Key.gitlabGitopsPushed = true ∧
    (RunE (smoothCollab true) freshViper).2.viper Key.gitlabRegistered = true ∧
    (RunE (smoothCollab true) freshViper).2.viper Key.argocdOidcPatched = false ∧
    Event.AddGitlabOidcApplications false ∉
      (RunE (smoothCollab false) (RunE (smoothCollab true) freshViper).2.viper).2.trace ∧
    Event.PushGitRepo false ∉
      (RunE (smoothCollab false) (RunE (smoothCollab true) freshViper).2.viper).2.trace ∧
    Event.ChangeRegistryToGitLab false ∉
      (RunE (smoothCollab false) (RunE (smoothCollab true) freshViper).2.viper).2.trace ∧
    Event.SyncRetry 120 5 ∉
      (RunE (smoothCollab false) (RunE (smoothCollab true) freshViper).2.viper).2.trace :=
  have hn : (RunE (smoothCollab true) freshViper).1 = Outcome.nil := by decide!
  have h := c12_dry_run_checkpoints (smoothCollab true) (smoothCollab false) freshViper
    { DryRun := true, UseTelemetry := true, SilentMode := false } rfl rfl (fun _ => rfl) hn
  ⟨hn, h.1, h.2.1, h.2.2.1, h.2.2.2.1, h.2.2.2.2.2.1 false, h.2.2.2.2.2.2.1 false,
    h.2.2.2.2.2.2.2.1 false, h.2.2.2.2.2.2.2.2 120 5⟩

/-! ### How a run stops at a reported error -/

theorem panicked_of_isSignal (c : Collab) (x : Event) (h : x.isSignal = true) :
    panicked c x = none := by
  cases x <;> first | rfl | (simp [Event.isSignal] at h)

theorem reported_of_panicked (c : Collab) (x : Event) (err : GoError)
    (h : panicked c x = some err) : reported c x = none := by
  cases x <;> first | rfl | (simp [panicked] at h)

theorem tunnel_of_nilCommand (c : Collab) (x : Event) (h : nilCommand c x = true) :
    ∃ d site, x = Event.PortForward d site ∧ (c.portForward site).1 = none := by
  cases x <;> simp [nilCommand] at h
  case PortForward d site => exact ⟨d, site, rfl, h⟩

/-- How the body of `RunE` ends: normally, no call having reported an error;
    or right after its last call; or with a panic before any call. -/
theorem body_failfast (c : Collab) (v : Key → Bool) :
    ((body c (initial v)).1 = .ok () → NoRep c (body c (initial v)).2.trace) ∧
    ∀ a, (body c (initial v)).1 = .error a →
      StoppedAt c a (body c (initial v)).2 ∨
        (a = Abort.panic ∧ (body c (initial v)).2.trace = []) := by
  rcases h1 : c.getBoolSkipVault with e | skipVault
  · rw [body_of_skipVault_error c e h1]
    exact ⟨fun h => (by cases h), fun a ha => Or.inr ⟨(by cases ha; rfl), rfl⟩⟩
  rcases h2 : c.getBoolSkipGitlab with e | skipGitlab
  · rw [body_of_skipGitlab_error c skipVault e h1 h2]
    exact ⟨fun h => (by cases h), fun a ha => Or.inr ⟨(by cases ha; rfl), rfl⟩⟩
  rcases h3 : c.processGlobalFlags with e | g
  · rw [body_of_flags_error c skipVault skipGitlab e h1 h2 h3]
    refine ⟨fun h => (by cases h), fun a ha => Or.inl ?_⟩
    cases ha
    exact ⟨by simp [initial], by simp [initial, NoRep], by simp [initial, reported, h3],
      by simp⟩
  have h0 : NoRep c (afterParameters g v).trace := by
    simp [afterParameters, NoRep, reported, panicked, h3]
  have hb := runWithFlags_failfast c skipVault skipGitlab g _ h0
  rw [← body_of_flags c skipVault skipGitlab g h1 h2 h3] at hb
  rcases hr : body c (initial v) with ⟨r, s1⟩
  rw [hr] at hb
  cases r with
  | error a => exact ⟨fun h => (by cases h), fun a1 ha => (by cases ha; exact Or.inl hb)⟩
  | ok u => exact ⟨fun _ => hb, fun a ha => (by cases ha)⟩

/-- A call of a run that reported an error is the last call of the body: the
    body stopped right after it and only SIGTERM signals follow. -/
theorem RunE_stop (c : Collab) (v : Key → Bool) (x : Event)
    (hx : x ∈ (RunE c v).2.trace)
    (hr : reported c x ≠ none ∨ panicked c x ≠ none) :
    ∃ a pre sigs, (body c (initial v)).1 = .error a ∧
      (body c (initial v)).2.trace = pre ++ [x] ∧
      (RunE c v).2.trace = pre ++ x :: sigs ∧ sigs.all Event.isSignal = true ∧
      NoRep c pre ∧ StoppedAt c a (body c (initial v)).2 := by
  obtain ⟨_, _, sigs, k3, k4⟩ :=
    runDefers_spec (body c (initial v)).2.defers (body c (initial v)).2
  have ht : (RunE c v).2.trace = (body c (initial v)).2.trace ++ sigs := by
    simp only [RunE]; exact k3
  have hnr : ∀ t, NoRep c t → x ∉ t := by
    intro t hn hm
    have := List.all_eq_true.mp hn x hm
    simp only [Bool.and_eq_true, Option.isNone_iff_eq_none] at this
    rcases hr with h | h
    · exact h this.1
    · exact h this.2
  have hxb : x ∈ (body c (initial v)).2.trace := by
    rw [ht] at hx
    rcases List.mem_append.mp hx with h | h
    · exact h
    · have hs := List.all_eq_true.mp k4 x h
      rcases hr with h1 | h1
      · exact absurd (reported_of_isSignal c x hs) h1
      · exact absurd (panicked_of_isSignal c x hs) h1
  obtain ⟨hok, herr⟩ := body_failfast c v
  rcases hb : (body c (initial v)).1 with a | u
  · rcases herr a hb with hst | ⟨_, hnil⟩
    · obtain ⟨y, hy⟩ : ∃ y, (body c (initial v)).2.trace.getLast? = some y := by
        cases hl : (body c (initial v)).2.trace.getLast? with
        | none => exact absurd (List.getLast?_eq_none_iff.mp hl) hst.1
        | some y => exact ⟨y, rfl⟩
      have hsplit := List.dropLast_append_getLast? y hy
      have hxy : x = y := by
        rw [← hsplit] at hxb
        rcases List.mem_append.mp hxb with h | h
        · exact absurd h (hnr _ hst.2.1)
        · exact List.mem_singleton.mp h
      subst hxy
      refine ⟨a, (body c (initial v)).2.trace.dropLast, sigs, rfl, hsplit.symm, ?_, k4,
        hst.2.1, hst⟩
      rw [ht, ← hsplit]
      simp
    · rw [hnil] at hxb
      cases hxb
  · exact absurd hxb (hnr _ (hok hb))

/-! ### C2, amended -/

/-- C2, amended.  In `create-gitlab`, once `ProcessGlobalFlags`, `PortForward`
    or `InstallArgocd` reports an error, the run makes no later call other
    than SIGTERM signals to its tunnels, no earlier call reported an error,
    and the run returns that same error, or panics and then some
    `PortForward` of the run handed back a nil command.  Once `GetClientSet`
    or the kubectl apply of the registry manifest reports an error, the run
    makes no later call other than those signals and panics.  Conversely
    every error the run returns is the error reported by the last call
    before those signals, and a run whose `skip-vault` or `skip-gitlab` flag
    cannot be read panics without any call.  In `createDigitalocean`, once
    `GetFlags`, `ValidateCatalogApps`, `ValidateGitCredentials`,
    `InitializeGitProvider`, `IsAppAvailable` or `CreateMgmtCluster` reports an
    error, the run makes no later call other than `progress.Error` and returns
    an error wrapping the reported one. -/
theorem c2_fail_fast_amended (c : Collab) (v : Key → Bool) (e : DOEnv) (w : DOKey → Bool) :
    (∀ x err, x ∈ (RunE c v).2.trace → reported c x = some err →
      ((RunE c v).1 = Outcome.err err ∨
        ((RunE c v).1 = Outcome.panic ∧ ∃ d site,
          Event.PortForward d site ∈ (RunE c v).2.trace ∧ (c.portForward site).1 = none)) ∧
      ∃ pre sigs, (RunE c v).2.trace = pre ++ x :: sigs ∧ NoRep c pre ∧
        sigs.all Event.isSignal = true) ∧
    (∀ x err, x ∈ (RunE c v).2.trace → panicked c x = some err →
      (RunE c v).1 = Outcome.panic ∧
      ∃ pre sigs, (RunE c v).2.trace = pre ++ x :: sigs ∧ NoRep c pre ∧
        sigs.all Event.isSignal = true) ∧
    (∀ err, (RunE c v).1 = Outcome.err err →
      ∃ pre x sigs, (RunE c v).2.trace = pre ++ x :: sigs ∧ reported c x = some err ∧
        NoRep c pre ∧ sigs.all Event.isSignal = true) ∧
    ((∃ err, c.getBoolSkipVault = .error err) ∨ (∃ err, c.getBoolSkipGitlab = .error err) →
      (RunE c v).1 = Outcome.panic ∧ (RunE c v).2.trace = []) ∧
    (∀ x cause, x ∈ (createDigitalocean e w).2.trace → doReported e x = some cause →
      ∃ msg pre post, (createDigitalocean e w).1 = some (GoError.wrap msg cause) ∧
        (createDigitalocean e w).2.trace = pre ++ x :: post ∧
        (post = [] ∨ post = [DOEvent.ProgressError])) := by
  refine ⟨?_, ?_, ?_, ?_, createDigitalocean_failfast e w⟩
  · intro x err hx hr
    obtain ⟨a, pre, sigs, hb, hbt, ht, hsig, hn, hst⟩ :=
      RunE_stop c v x hx (Or.inl (by rw [hr]; simp))
    refine ⟨?_, pre, sigs, ht, hn, hsig⟩
    have hlast : (body c (initial v)).2.trace.getLast? = some x := by
      rw [hbt]; simp
    cases a with
    | ret e1 =>
      have h3 := hst.2.2.1 e1 rfl
      rw [hlast] at h3
      simp only [Option.some_bind] at h3
      rw [hr] at h3
      cases h3
      cases hp : (runDefers (body c (initial v)).2.defers (body c (initial v)).2).1
      · left
        simp only [RunE, hb, hp, outcomeOf]
        rfl
      · right
        obtain ⟨d, i, hm, hi⟩ := RunE_defers_panic c v hp
        refine ⟨?_, d, PFSite.softServe i, hm, hi⟩
        simp only [RunE, hb, hp, outcomeOf]
        rfl
    | panic =>
      right
      refine ⟨by simp only [RunE, hb, outcomeOf], ?_⟩
      rcases hst.2.2.2 rfl with h4 | h4
      · rw [hlast] at h4
        simp only [Option.some_bind] at h4
        rw [hr] at h4
        cases h4
      · rw [hlast] at h4
        obtain ⟨d, site, hxs, hcmd⟩ := tunnel_of_nilCommand c x (by simpa using h4)
        subst hxs
        exact ⟨d, site, hx, hcmd⟩
  · intro x err hx hr
    obtain ⟨a, pre, sigs, hb, hbt, ht, hsig, hn, hst⟩ :=
      RunE_stop c v x hx (Or.inr (by rw [hr]; simp))
    refine ⟨?_, pre, sigs, ht, hn, hsig⟩
    have hlast : (body c (initial v)).2.trace.getLast? = some x := by
      rw [hbt]; simp
    cases a with
    | ret e1 =>
      have h3 := hst.2.2.1 e1 rfl
      rw [hlast] at h3
      simp only [Option.some_bind] at h3
      rw [reported_of_panicked c x err hr] at h3
      cases h3
    | panic => simp only [RunE, hb, outcomeOf]
  · intro err herr
    obtain ⟨pre, sigs, ht, hsig, hcase⟩ := RunE_failfast c v
    rcases hcase with ⟨_, hout⟩ | ⟨hne, hn, _, hlast⟩
    · rcases hout with h | h <;> rw [h] at herr <;> cases herr
    · have hl := hlast err herr
      obtain ⟨y, hy⟩ : ∃ y, pre.getLast? = some y := by
        cases hl1 : pre.getLast? with
        | none => rw [hl1] at hl; cases hl
        | some y => exact ⟨y, rfl⟩
      rw [hy] at hl
      simp only [Option.some_bind] at hl
      refine ⟨pre.dropLast, y, sigs, ?_, hl, hn, hsig⟩
      rw [ht, ← List.dropLast_append_getLast? y hy]
      simp
  · rintro (⟨err, h1⟩ | ⟨err, h2⟩)
    · simp [RunE, body_of_skipVault_error c err h1, initial, runDefers, outcomeOf]
    · rcases h1 : c.getBoolSkipVault with err1 | skipVault
      · simp [RunE, body_of_skipVault_error c err1 h1, initial, runDefers, outcomeOf]
      · simp [RunE, body_of_skipGitlab_error c skipVault err h1 h2, initial, runDefers,
          outcomeOf]

/-- C2 amended, at a run of `create-gitlab` in which the argocd helm install
    fails, a run in which `GetClientSet` fails, and a run of
    `createDigitalocean` in which the git provider cannot be initialised. -/
theorem c2_fail_fast_amended_witness :
    (RunE failingInstall freshViper).1 = Outcome.err (GoError.collab 5) ∧
    (∃ pre sigs, (RunE failingInstall freshViper).2.trace =
        pre ++ Event.InstallArgocd false :: sigs ∧ NoRep failingInstall pre ∧
        sigs.all Event.isSignal = true) ∧
    (∃ pre x sigs, (RunE failingInstall freshViper).2.trace = pre ++ x :: sigs ∧
        reported failingInstall x = some (GoError.collab 5) ∧
        NoRep failingInstall pre ∧ sigs.all Event.isSignal = true) ∧
    (RunE failingClientSet freshViper).1 = Outcome.panic ∧
    (∃ pre sigs, (RunE failingClientSet freshViper).2.trace =
        pre ++ Event.GetClientSet false :: sigs ∧ NoRep failingClientSet pre ∧
        sigs.all Event.isSignal = true) ∧
    (∃ msg pre post, (createDigitalocean failingGitInit freshDOViper).1 =
        some (GoError.wrap msg (GoError.collab 9)) ∧
      (createDigitalocean failingGitInit freshDOViper).2.trace =
        pre ++ DOEvent.InitializeGitProvider "github" :: post ∧
      (post = [] ∨ post = [DOEvent.ProgressError])) := by
  have h := c2_fail_fast_amended failingInstall freshViper failingGitInit freshDOViper
  have k := c2_fail_fast_amended failingClientSet freshViper failingGitInit freshDOViper
  have h1 := h.1 (Event.InstallArgocd false) (GoError.collab 5) (by decide!) (by decide!)
  have k1 := k.2.1 (Event.GetClientSet false) (GoError.collab 6) (by decide!) (by decide!)
  exact ⟨h1.1.resolve_right (fun hp => absurd hp.1 (by decide!)), h1.2,
    h.2.2.1 (GoError.collab 5) (by decide!), k1.1, k1.2,
    h.2.2.2.2 (DOEvent.InitializeGitProvider "github") (GoError.collab 9) (by decide!)
      (by decide!)⟩

end Kubefirst
